import Mathlib

/-!
Shallow embedding of the graph-based procedural dungeon generator
(`src/systems/roomGenerator.ts`, the `RoomGenerator` class together with its
`SeededRandom` helper) and proofs about it.

Modelling conventions:
* JavaScript numbers are modelled by exact arithmetic (`Nat`, `Int`, `Rat`);
  the linear congruential generator is the exact integer recurrence
  `seed := (seed * 1103515245 + 12345) % 2^31` from the source.
* `Math.sqrt` appears in the source only inside comparisons between distances
  (edge sorting, Prim scanning, best-sample tracking) or between a distance and
  a threshold.  Since `sqrt` is strictly monotone on nonnegatives, every such
  comparison is embedded as the order-equivalent comparison of the squared
  distances (a threshold `m` becomes `m ≤ 0 ∨ m^2 ≤ d2`).  All comparison
  results agree exactly with the real-valued semantics of the source.
* A JavaScript `Map` is modelled as an insertion-ordered association list, a
  `Set` as a duplicate-free list with appending insertion, so that iteration
  order matches the source.
* The `while` loops of the source are modelled with an explicit fuel that
  provably dominates the number of iterations the source performs, so the
  embedded functions compute the same results.
-/

namespace Kwak

/-- `Required<RoomGenerationConfig>`: the configuration after the constructor
has filled in the defaults (`GameConfig.maxRooms = 5`,
`GameConfig.roomWidth = 20`). -/
structure Config where
  roomCount : Nat := 5
  minRoomSize : Nat := 6
  maxRoomSize : Nat := 20
  mapWidth : Nat := 100
  mapHeight : Nat := 100
  roomSpacing : Nat := 2
  corridorWidth : Nat := 3
  loopEdgePercentage : Nat := 15
  eliteRoomPercentage : Nat := 10
  secretRoomChance : Nat := 5
  seed : Nat := 0
  deriving Repr, DecidableEq

/-- Room classification types (`enum RoomType`). -/
inductive RoomType where
  | SPAWN
  | BOSS
  | TREASURE
  | ELITE
  | SHOP
  | COMBAT
  | SECRET
  deriving Repr, DecidableEq

/-- A room of the dungeon (`interface Room`). -/
structure Room where
  id : Nat
  x : Int
  y : Int
  width : Int
  height : Int
  centerX : Rat
  centerY : Rat
  type : RoomType
  depth : Nat
  deriving Repr, DecidableEq

/-- A corridor segment (`interface Corridor`). -/
structure Corridor where
  x1 : Int
  y1 : Int
  x2 : Int
  y2 : Int
  room1Id : Nat
  room2Id : Nat
  deriving Repr, DecidableEq

/-- A candidate edge between two rooms (`interface Edge`).  `weight` stores the
squared Euclidean distance between the room centers; the source stores
`Math.sqrt` of it but only ever compares weights, and `sqrt` is strictly
monotone, so all comparisons coincide. -/
structure Edge where
  room1Id : Nat
  room2Id : Nat
  weight : Rat
  deriving Repr, DecidableEq

/-- The aggregate result of `generateDungeon` (`interface Dungeon`).  The JS
`Map` graph is an insertion-ordered association list. -/
structure Dungeon where
  rooms : List Room
  corridors : List Corridor
  graph : List (Nat × List Nat)
  spawnRoomId : Nat
  bossRoomId : Nat
  treasureRoomId : Nat
  shopRoomId : Nat
  eliteRoomIds : List Nat
  secretRoomIds : List Nat
  deriving Repr, DecidableEq

/-- One step of the linear congruential generator of `SeededRandom.next`:
`(seed * 1103515245 + 12345) % 2147483648`.  Marked irreducible so that
definitional unfolding on a symbolic seed never descends into the modulus;
the concrete-evaluation lemmas unseal it. -/
@[irreducible] def lcgNext (seed : Nat) : Nat :=
  (seed * 1103515245 + 12345) % 2147483648

/-- The state of a `SeededRandom` instance. -/
structure Rng where
  seed : Nat
  deriving Repr, DecidableEq

/-- `SeededRandom.next()`: advance the seed and return `seed / 2147483648`. -/
def Rng.next (r : Rng) : Rat × Rng :=
  let s := lcgNext r.seed
  ((s : Rat) / 2147483648, ⟨s⟩)

/-- `SeededRandom.nextInt(min, max)`:
`Math.floor(this.next() * (max - min + 1)) + min`. -/
def Rng.nextInt (r : Rng) (lo hi : Int) : Int × Rng :=
  let p := r.next
  (⌊p.1 * ((hi : Rat) - (lo : Rat) + 1)⌋ + lo, p.2)

/-- Swap the elements at positions `i` and `j` of a list
(`[result[i], result[j]] = [result[j], result[i]]`). -/
def listSwap {α : Type} (l : List α) (i j : Nat) : List α :=
  match l.get? i, l.get? j with
  | some a, some b => (l.set i b).set j a
  | _, _ => l

/-- The Fisher–Yates loop of `SeededRandom.shuffle`, iterating
`i = length-1, …, 1`; `j = Math.floor(this.next() * (i + 1))`. -/
def shuffleGo {α : Type} (l : List α) (i : Nat) (r : Rng) : List α × Rng :=
  match i with
  | 0 => (l, r)
  | Nat.succ i0 =>
    let p := r.next
    let j := (⌊p.1 * ((i0 : Rat) + 1 + 1)⌋).toNat
    shuffleGo (listSwap l (i0 + 1) j) i0 p.2

/-- `SeededRandom.shuffle(array)`. -/
def Rng.shuffle {α : Type} (r : Rng) (l : List α) : List α × Rng :=
  shuffleGo l (l.length - 1) r

/-- `Map.get` on the insertion-ordered adjacency map, with the JS
`?? []` default used at the call sites. -/
def graphGet (g : List (Nat × List Nat)) (k : Nat) : List Nat :=
  match g.find? (fun e => e.1 = k) with
  | some e => e.2
  | none => []

/-- Whether `k` is a key of the map (`Map.has`). -/
def graphHas (g : List (Nat × List Nat)) (k : Nat) : Bool :=
  (g.find? (fun e => e.1 = k)).isSome

/-- `Map.set`: overwrite the entry in place if the key exists, otherwise append
it (JS `Map` preserves the original insertion position on overwrite). -/
def graphSet (g : List (Nat × List Nat)) (k : Nat) (v : List Nat) :
    List (Nat × List Nat) :=
  match g with
  | [] => [(k, v)]
  | e :: rest => if e.1 = k then (k, v) :: rest else e :: graphSet rest k v

/-- `this.graph.get(id)?.push(x)`: append `x` to the entry of `k` when the key
exists, do nothing otherwise (the optional-chaining no-op). -/
def graphPush (g : List (Nat × List Nat)) (k x : Nat) : List (Nat × List Nat) :=
  match g with
  | [] => []
  | e :: rest =>
    if e.1 = k then (e.1, e.2 ++ [x]) :: rest else e :: graphPush rest k x

/-- The mutable state of a `RoomGenerator` instance. -/
structure GenState where
  rooms : List Room
  corridors : List Corridor
  graph : List (Nat × List Nat)
  rng : Rng
  roomIdCounter : Nat
  cfg : Config
  deriving Repr, DecidableEq

/-- The `RoomGenerator` constructor: fresh empty state, RNG seeded from the
configured seed. -/
def mkGenerator (cfg : Config) : GenState :=
  { rooms := [], corridors := [], graph := [], rng := ⟨cfg.seed⟩,
    roomIdCounter := 0, cfg := cfg }

/-- `createRandomRoom()`: four RNG draws (width, height, x, y), id from the
counter, center at `x + width/2`, default type `COMBAT`, depth `0`. -/
def createRandomRoom (st : GenState) : Room × GenState :=
  let pw := st.rng.nextInt st.cfg.minRoomSize st.cfg.maxRoomSize
  let ph := pw.2.nextInt st.cfg.minRoomSize st.cfg.maxRoomSize
  let px := ph.2.nextInt 0 ((st.cfg.mapWidth : Int) - pw.1)
  let py := px.2.nextInt 0 ((st.cfg.mapHeight : Int) - ph.1)
  let room : Room :=
    { id := st.roomIdCounter, x := px.1, y := py.1,
      width := pw.1, height := ph.1,
      centerX := (px.1 : Rat) + (pw.1 : Rat) / 2,
      centerY := (py.1 : Rat) + (ph.1 : Rat) / 2,
      type := RoomType.COMBAT, depth := 0 }
  (room, { st with rng := py.2, roomIdCounter := st.roomIdCounter + 1 })

/-- The body of the `for` loop of `hasOverlap`: does `room`, expanded by
`spacing`, intersect `existing`? -/
def overlapPair (spacing : Int) (room existing : Room) : Bool :=
  decide (room.x - spacing < existing.x + existing.width) &&
  decide (room.x + room.width + spacing > existing.x) &&
  decide (room.y - spacing < existing.y + existing.height) &&
  decide (room.y + room.height + spacing > existing.y)

/-- `hasOverlap(room)`: overlap of `room` against every already accepted room,
with the configured spacing buffer. -/
def hasOverlap (st : GenState) (room : Room) : Bool :=
  st.rooms.any (fun existing => overlapPair (st.cfg.roomSpacing : Int) room existing)

/-- The `while` loop of `generateRooms`; the fuel is exactly the attempt budget
`roomCount * 10`, and each iteration of the source consumes one unit, so the
embedding performs the same iterations.  Also returns the number of candidate
attempts performed. -/
def generateRoomsAux (st : GenState) (fuel : Nat) (attempts : Nat) :
    GenState × Nat :=
  match fuel with
  | 0 => (st, attempts)
  | Nat.succ f =>
    if st.rooms.length < st.cfg.roomCount then
      let p := createRandomRoom st
      let st2 :=
        if hasOverlap p.2 p.1 then p.2
        else { p.2 with rooms := p.2.rooms ++ [p.1] }
      generateRoomsAux st2 f (attempts + 1)
    else (st, attempts)

/-- `generateRooms()`: reset rooms and counter, then run the placement loop
with budget `roomCount * 10`. -/
def generateRooms (st : GenState) : GenState :=
  (generateRoomsAux { st with rooms := [], roomIdCounter := 0 }
    (st.cfg.roomCount * 10) 0).1

/-- The number of candidate attempts `generateRooms` performs. -/
def generateRoomsAttempts (st : GenState) : Nat :=
  (generateRoomsAux { st with rooms := [], roomIdCounter := 0 }
    (st.cfg.roomCount * 10) 0).2

/-- The candidate edge between two rooms; `weight` is the squared distance
between centers (the source stores the square root, which is only ever
compared, and `sqrt` preserves order and equality of nonnegatives). -/
def mkEdge (r1 r2 : Room) : Edge :=
  { room1Id := r1.id, room2Id := r2.id,
    weight := (r2.centerX - r1.centerX) ^ 2 + (r2.centerY - r1.centerY) ^ 2 }

/-- The double loop of `computeDelaunayTriangulation`: one edge per unordered
pair, outer index first. -/
def roomPairs : List Room → List Edge
  | [] => []
  | r :: rs => rs.map (fun r2 => mkEdge r r2) ++ roomPairs rs

/-- `computeDelaunayTriangulation()`: all pairs, then a stable ascending sort
by weight (`edges.sort((a, b) => a.weight - b.weight)`; JS sort is stable, and
a stable sort with respect to a total transitive comparison is unique, so
insertion sort computes exactly the source's result). -/
def triEdges (rooms : List Room) : List Edge :=
  (roomPairs rooms).insertionSort (fun a b => a.weight ≤ b.weight)

/-- Does the edge connect a visited to an unvisited room
(`hasRoom1 !== hasRoom2`)? -/
def crossEdge (visited : List Nat) (e : Edge) : Bool :=
  (decide (e.room1Id ∈ visited)) != (decide (e.room2Id ∈ visited))

/-- One step of the minimum-edge scan of Prim's algorithm: keep the incumbent
unless the candidate crosses the cut and is strictly lighter
(`minWeight` starts at `Infinity`, modelled by `none`). -/
def scanMinEdge (visited : List Nat) (acc : Option Edge) (e : Edge) : Option Edge :=
  if crossEdge visited e then
    match acc with
    | none => some e
    | some m => if e.weight < m.weight then some e else acc
  else acc

/-- The inner `for` loop of `computeMinimumSpanningTree`: the lowest-weight
edge crossing the visited cut, earliest on ties. -/
def findMinEdge (edges : List Edge) (visited : List Nat) : Option Edge :=
  edges.foldl (scanMinEdge visited) none

/-- `Set.add`: append if not already present. -/
def setAdd (s : List Nat) (x : Nat) : List Nat :=
  if x ∈ s then s else s ++ [x]

/-- The `while` loop of `computeMinimumSpanningTree`.  The fuel
`rooms.length` dominates the iteration count: every selected edge crosses the
cut, so each iteration grows `visited` by exactly one element, and the loop
condition `visited.size < rooms.length` fails after at most
`rooms.length - 1` iterations. -/
def primAux (edges : List Edge) (n : Nat) :
    Nat → List Nat → List Edge → List Edge × List Nat
  | 0, visited, mst => (mst, visited)
  | Nat.succ f, visited, mst =>
    if visited.length < n then
      match findMinEdge edges visited with
      | none => (mst, visited)
      | some e =>
        primAux edges n f (setAdd (setAdd visited e.room1Id) e.room2Id) (mst ++ [e])
    else (mst, visited)

/-- `computeMinimumSpanningTree(edges)`: start from the first room. -/
def computeMinimumSpanningTree (rooms : List Room) (edges : List Edge) : List Edge :=
  match rooms with
  | [] => []
  | r0 :: _ => (primAux edges rooms.length rooms.length [r0.id] []).1

/-- The MST edges of the candidate edge set of a room list. -/
def mstEdges (rooms : List Room) : List Edge :=
  computeMinimumSpanningTree rooms (triEdges rooms)

/-- `edgesEqual(e1, e2)`: order-independent id comparison. -/
def edgesEqual (e1 e2 : Edge) : Bool :=
  (decide (e1.room1Id = e2.room1Id) && decide (e1.room2Id = e2.room2Id)) ||
  (decide (e1.room1Id = e2.room2Id) && decide (e1.room2Id = e2.room1Id))

/-- The non-MST candidate edges
(`triangulationEdges.filter(e => !mstEdges.find(m => edgesEqual(e, m)))`). -/
def remainingAfterMST (rooms : List Room) : List Edge :=
  (triEdges rooms).filter (fun e => !((mstEdges rooms).any (fun m => edgesEqual e m)))

/-- `Math.floor(remaining.length * loopEdgePercentage / 100)`. -/
def loopEdgeCount (cfg : Config) (remaining : List Edge) : Nat :=
  remaining.length * cfg.loopEdgePercentage / 100

/-- The loop edges actually added: the
`for (i = 0; i < Math.min(loopCount, remaining.length); i++)` loop takes the
first `loopCount` remaining edges. -/
def loopEdges (cfg : Config) (rooms : List Room) : List Edge :=
  (remainingAfterMST rooms).take (loopEdgeCount cfg (remainingAfterMST rooms))

/-- `addEdgeToGraph(a, b)`: push bidirectionally (no-op on missing keys). -/
def addEdgeToGraph (g : List (Nat × List Nat)) (a b : Nat) : List (Nat × List Nat) :=
  graphPush (graphPush g a b) b a

/-- The initial adjacency map: one empty list per room, in room order. -/
def initGraph (rooms : List Room) : List (Nat × List Nat) :=
  rooms.foldl (fun g r => graphSet g r.id []) []

/-- The adjacency map produced by `buildConnectivityGraph` (MST edges then
loop edges). -/
def builtGraph (cfg : Config) (rooms : List Room) : List (Nat × List Nat) :=
  (mstEdges rooms ++ loopEdges cfg rooms).foldl
    (fun g e => addEdgeToGraph g e.room1Id e.room2Id) (initGraph rooms)

/-- `buildConnectivityGraph()`. -/
def buildConnectivityGraph (st : GenState) : GenState :=
  { st with graph := builtGraph st.cfg st.rooms }

/-- `getEdgeKey(a, b)`: the unordered pair, smaller id first. -/
def edgeKey (a b : Nat) : Nat × Nat :=
  if a < b then (a, b) else (b, a)

/-- `createCorridor(room1Id, room2Id)`: look both rooms up (early return on a
miss), floor the centers, one RNG coin flip, then push the non-degenerate
L-legs. -/
def createCorridor (st : GenState) (room1Id room2Id : Nat) : GenState :=
  match st.rooms.find? (fun r => decide (r.id = room1Id)),
        st.rooms.find? (fun r => decide (r.id = room2Id)) with
  | some room1, some room2 =>
    let c1x : Int := ⌊room1.centerX⌋
    let c1y : Int := ⌊room1.centerY⌋
    let c2x : Int := ⌊room2.centerX⌋
    let c2y : Int := ⌊room2.centerY⌋
    let p := st.rng.next
    let st1 := { st with rng := p.2 }
    if p.1 < (1 : Rat) / 2 then
      let st2 :=
        if c1x ≠ c2x then
          { st1 with corridors := st1.corridors ++ [⟨c1x, c1y, c2x, c1y, room1Id, room2Id⟩] }
        else st1
      if c1y ≠ c2y then
        { st2 with corridors := st2.corridors ++ [⟨c2x, c1y, c2x, c2y, room1Id, room2Id⟩] }
      else st2
    else
      let st2 :=
        if c1y ≠ c2y then
          { st1 with corridors := st1.corridors ++ [⟨c1x, c1y, c1x, c2y, room1Id, room2Id⟩] }
        else st1
      if c1x ≠ c2x then
        { st2 with corridors := st2.corridors ++ [⟨c1x, c2y, c2x, c2y, room1Id, room2Id⟩] }
      else st2
  | _, _ => st

/-- One inner-loop step of `generateCorridorsFromGraph`: skip already processed
unordered pairs, otherwise record the key and synthesize the corridor. -/
def genCorridorStep (acc : List (Nat × Nat) × GenState) (roomId connectedId : Nat) :
    List (Nat × Nat) × GenState :=
  let k := edgeKey roomId connectedId
  if k ∈ acc.1 then acc
  else (acc.1 ++ [k], createCorridor acc.2 roomId connectedId)

/-- `generateCorridorsFromGraph()`: reset corridors, iterate the adjacency map
in insertion order (graph entries are not mutated by corridor creation). -/
def generateCorridorsFromGraph (st : GenState) : GenState :=
  let st0 := { st with corridors := [] }
  (st0.graph.foldl
    (fun acc entry =>
      entry.2.foldl (fun acc2 connectedId => genCorridorStep acc2 entry.1 connectedId) acc)
    ([], st0)).2

/-- `distances.get(k) ?? d` on the insertion-ordered distance map. -/
def lookupD (m : List (Nat × Nat)) (k : Nat) (d : Nat) : Nat :=
  match m.find? (fun e => decide (e.1 = k)) with
  | some e => e.2
  | none => d

/-- Whether the distance map has the key (`distances.has`). -/
def distHas (m : List (Nat × Nat)) (k : Nat) : Bool :=
  (m.find? (fun e => decide (e.1 = k))).isSome

/-- The `while` loop of `computeGraphDistances`: pop from the queue front,
append unseen neighbors with distance `current + 1`.  Returns the distance map
and the leftover queue (empty whenever the fuel dominates the iteration
count). -/
def bfsAux (g : List (Nat × List Nat)) :
    Nat → List Nat → List (Nat × Nat) → List (Nat × Nat) × List Nat
  | 0, queue, dist => (dist, queue)
  | Nat.succ _, [], dist => (dist, [])
  | Nat.succ f, c :: rest, dist =>
    let cd := lookupD dist c 0
    let step := (graphGet g c).foldl
      (fun (acc : List (Nat × Nat) × List Nat) nb =>
        if distHas acc.1 nb then acc
        else (acc.1 ++ [(nb, cd + 1)], acc.2 ++ [nb]))
      (dist, rest)
    bfsAux g f step.2 step.1

/-- Every id that can ever enter the BFS structures, apart from the source. -/
def graphIdUniverse (g : List (Nat × List Nat)) : List Nat :=
  g.map Prod.fst ++ (g.map Prod.snd).flatten

/-- `computeGraphDistances(sourceId)`.  Each iteration pops one queue element,
and every pushed id is fresh in the map and drawn from the adjacency lists, so
`|queue| + |{fresh universe ids}|` decreases by one per iteration; the chosen
fuel therefore dominates the iteration count of the source loop. -/
def computeGraphDistances (g : List (Nat × List Nat)) (sourceId : Nat) :
    List (Nat × Nat) :=
  (bfsAux g ((graphIdUniverse g).dedup.length + 1) [sourceId] [(sourceId, 0)]).1

/-- One neighbor-relaxation of the BFS inner loop (the body of the
`for (const neighbor of neighbors)` loop). -/
def bfsRelax (cd : Nat) (acc : List (Nat × Nat) × List Nat) (nb : Nat) :
    List (Nat × Nat) × List Nat :=
  if distHas acc.1 nb then acc
  else (acc.1 ++ [(nb, cd + 1)], acc.2 ++ [nb])

/-- The number of dedup-universe ids not yet in the distance map: the
decreasing part of the BFS termination measure. -/
def freshCount (g : List (Nat × List Nat)) (dist : List (Nat × Nat)) : Nat :=
  ((graphIdUniverse g).dedup.filter (fun u => !distHas dist u)).length

/-- A placeholder room for the (provably in-bounds) list indexings of the
source; never actually selected. -/
def dummyRoom : Room :=
  { id := 0, x := 0, y := 0, width := 0, height := 0, centerX := 0, centerY := 0,
    type := RoomType.COMBAT, depth := 0 }

/-- A placeholder corridor for the (provably in-bounds) corridor indexing. -/
def dummyCorridor : Corridor :=
  { x1 := 0, y1 := 0, x2 := 0, y2 := 0, room1Id := 0, room2Id := 0 }

/-- Reassign the type of the room with id `i`
(the in-place `room.type = t` mutation; room ids are unique). -/
def setType (rooms : List Room) (i : Nat) (t : RoomType) : List Room :=
  rooms.map (fun r => if r.id = i then { r with type := t } else r)

/-- The result record of `classifyRooms`. -/
structure Classification where
  spawnRoomId : Nat
  bossRoomId : Nat
  treasureRoomId : Nat
  shopRoomId : Nat
  eliteRoomIds : List Nat
  deriving Repr, DecidableEq

/-- The boss-selection fold: running `(maxDistance, bossRoomId)`, updated on a
strictly greater distance, iterating the map in insertion order. -/
def bossFold (dist : List (Nat × Nat)) (spawnId : Nat) : Nat × Nat :=
  dist.foldl (fun acc e => if e.2 > acc.1 then (e.2, e.1) else acc) (0, spawnId)

/-- `classifyRooms()`.  The `[]` case is unreachable: `generateDungeon` throws
before classification when no room was placed.  `0.3` and `0.7` are the exact
values of the source literals. -/
def classifyRooms (st : GenState) : Classification × GenState :=
  match st.rooms with
  | [] => (⟨0, 0, 0, 0, []⟩, st)
  | spawnRoom :: _ =>
    let rooms1 := setType st.rooms spawnRoom.id RoomType.SPAWN
    let distances := computeGraphDistances st.graph spawnRoom.id
    let mb := bossFold distances spawnRoom.id
    let maxDistance := mb.1
    let bossRoomId := mb.2
    let rooms2 := setType rooms1 bossRoomId RoomType.BOSS
    let midDepthRooms := rooms2.filter (fun r =>
      decide (((lookupD distances r.id 0 : Nat) : Rat) > (maxDistance : Rat) * (3 / 10)) &&
      decide (((lookupD distances r.id 0 : Nat) : Rat) < (maxDistance : Rat) * (7 / 10)))
    let pTre :=
      if 0 < midDepthRooms.length then
        let p := st.rng.next
        (midDepthRooms.getD (⌊p.1 * (midDepthRooms.length : Rat)⌋).toNat dummyRoom, p.2)
      else (rooms2.getD (min 1 (rooms2.length - 1)) dummyRoom, st.rng)
    let treasureRoom := pTre.1
    let rng1 := pTre.2
    let rooms3 := setType rooms2 treasureRoom.id RoomType.TREASURE
    let availableRooms := rooms3.filter (fun r =>
      decide (r.type ≠ RoomType.SPAWN) && decide (r.type ≠ RoomType.BOSS) &&
      decide (r.type ≠ RoomType.TREASURE))
    let pShop :=
      if 0 < availableRooms.length then
        let p := rng1.next
        (some (availableRooms.getD (⌊p.1 * (availableRooms.length : Rat)⌋).toNat dummyRoom),
         p.2)
      else (none, rng1)
    let shopRoom := pShop.1
    let rng2 := pShop.2
    let rooms4 :=
      match shopRoom with
      | some s => setType rooms3 s.id RoomType.SHOP
      | none => rooms3
    let eliteCount := max 0 (rooms4.length * st.cfg.eliteRoomPercentage / 100)
    let remainingRooms := rooms4.filter (fun r =>
      decide (r.type ≠ RoomType.SPAWN) && decide (r.type ≠ RoomType.BOSS) &&
      decide (r.type ≠ RoomType.TREASURE) && decide (r.type ≠ RoomType.SHOP))
    let pShuf := rng2.shuffle remainingRooms
    let shuffled := pShuf.1
    let rng3 := pShuf.2
    let elites := shuffled.take eliteCount
    let rooms5 := elites.foldl (fun rs r => setType rs r.id RoomType.ELITE) rooms4
    (⟨spawnRoom.id, bossRoomId, treasureRoom.id,
      (match shopRoom with
       | some s => s.id
       | none => spawnRoom.id),
      elites.map (fun r => r.id)⟩,
     { st with rooms := rooms5, rng := rng3 })

/-- `computeRoomDepth(spawnRoomId)`. -/
def computeRoomDepth (st : GenState) (spawnRoomId : Nat) : GenState :=
  let distances := computeGraphDistances st.graph spawnRoomId
  { st with rooms := st.rooms.map (fun r => { r with depth := lookupD distances r.id 0 }) }

/-- `Math.floor((corridor.x1 + corridor.x2) / 2)`. -/
def corridorMidX (c : Corridor) : Int :=
  ⌊((c.x1 : Rat) + (c.x2 : Rat)) / 2⌋

/-- `Math.floor((corridor.y1 + corridor.y2) / 2)`. -/
def corridorMidY (c : Corridor) : Int :=
  ⌊((c.y1 : Rat) + (c.y2 : Rat)) / 2⌋

/-- The 6×6 `SECRET` room created at a corridor midpoint, with depth 0. -/
def secretRoomOf (c : Corridor) (newId : Nat) : Room :=
  { id := newId, x := corridorMidX c - 3, y := corridorMidY c - 3,
    width := 6, height := 6,
    centerX := (corridorMidX c : Rat), centerY := (corridorMidY c : Rat),
    type := RoomType.SECRET, depth := 0 }

/-- `generateSecretRoom()`: early return without an RNG draw when there is no
corridor; otherwise a 6×6 `SECRET` room at the midpoint of a randomly chosen
corridor, grafted into the graph with a fresh key and one push. -/
def generateSecretRoom (st : GenState) : GenState :=
  if st.corridors.length = 0 then st
  else
    let p := st.rng.next
    let corridor := st.corridors.getD (⌊p.1 * (st.corridors.length : Rat)⌋).toNat dummyCorridor
    let secretRoom : Room := secretRoomOf corridor st.roomIdCounter
    { st with
      rooms := st.rooms ++ [secretRoom],
      roomIdCounter := st.roomIdCounter + 1,
      rng := p.2,
      graph := graphPush (graphSet st.graph secretRoom.id [corridor.room1Id])
        corridor.room1Id secretRoom.id }

/-- Pipeline stage: the generator state after `generateRooms` (step 1 of
`generateDungeon`). -/
def pipeRooms (cfg : Config) : GenState :=
  generateRooms (mkGenerator cfg)

/-- The rooms placed by `generateRooms` on a freshly constructed generator. -/
def placedRooms (cfg : Config) : List Room :=
  (pipeRooms cfg).rooms

/-- Pipeline stage: the state after `buildConnectivityGraph` (step 2). -/
def pipeGraph (cfg : Config) : GenState :=
  buildConnectivityGraph (pipeRooms cfg)

/-- Pipeline stage: the state after `generateCorridorsFromGraph` (step 3). -/
def pipeCorr (cfg : Config) : GenState :=
  generateCorridorsFromGraph (pipeGraph cfg)

/-- Pipeline stage: the classification record of step 4. -/
def pipeCls (cfg : Config) : Classification :=
  (classifyRooms (pipeCorr cfg)).1

/-- Pipeline stage: the state after `classifyRooms` (step 4). -/
def pipeSt4 (cfg : Config) : GenState :=
  (classifyRooms (pipeCorr cfg)).2

/-- Pipeline stage: the state after `computeRoomDepth` (step 5). -/
def pipeSt5 (cfg : Config) : GenState :=
  computeRoomDepth (pipeSt4 cfg) (pipeCls cfg).spawnRoomId

/-- Pipeline stage: the state after the secret-room step (step 6): one RNG
draw decides whether `generateSecretRoom` runs. -/
def pipeSt6 (cfg : Config) : GenState :=
  let p := (pipeSt5 cfg).rng.next
  if p.1 * 100 < (cfg.secretRoomChance : Rat) then
    generateSecretRoom { pipeSt5 cfg with rng := p.2 }
  else { pipeSt5 cfg with rng := p.2 }

/-- `generateDungeon()`: the full pipeline; `none` models the
`throw new Error('Failed to generate any rooms')` branch. -/
def generateDungeon (cfg : Config) : Option Dungeon :=
  if (pipeRooms cfg).rooms.length = 0 then none
  else
    some
      { rooms := (pipeSt6 cfg).rooms, corridors := (pipeSt6 cfg).corridors,
        graph := (pipeSt6 cfg).graph,
        spawnRoomId := (pipeCls cfg).spawnRoomId,
        bossRoomId := (pipeCls cfg).bossRoomId,
        treasureRoomId := (pipeCls cfg).treasureRoomId,
        shopRoomId := (pipeCls cfg).shopRoomId,
        eliteRoomIds := (pipeCls cfg).eliteRoomIds,
        secretRoomIds :=
          ((pipeSt6 cfg).rooms.filter (fun r => decide (r.type = RoomType.SECRET))).map
            (fun r => r.id) }

/-- `GameConfig.tileSize`. -/
def tileSize : Int := 32

/-- `getRandomPositionInRoom(room, minMargin)` (the generator always has an
`rng`, so the `?? Math.random()` fallback is dead code). -/
def getRandomPositionInRoom (st : GenState) (room : Room) (minMargin : Int) :
    (Int × Int) × GenState :=
  let margin := min (min minMargin ⌊(room.width : Rat) / 3⌋) ⌊(room.height : Rat) / 3⌋
  let maxOffsetX := max 0 (room.width - margin * 2)
  let maxOffsetY := max 0 (room.height - margin * 2)
  let p1 := st.rng.next
  let p2 := p1.2.next
  (((room.x + margin + ⌊p1.1 * (maxOffsetX : Rat)⌋) * tileSize,
    (room.y + margin + ⌊p2.1 * (maxOffsetY : Rat)⌋) * tileSize),
   { st with rng := p2.2 })

/-- Squared distance of a sampled position from `(fromX, fromY)`. -/
def distSq (p : Int × Int) (fromX fromY : Rat) : Rat :=
  ((p.1 : Rat) - fromX) ^ 2 + ((p.2 : Rat) - fromY) ^ 2

/-- `Math.sqrt d2 >= m`, expressed on the squared distance: for `d2 ≥ 0` this
is exactly `m ≤ 0 ∨ m² ≤ d2`. -/
def sqrtGE (d2 m : Rat) : Bool :=
  decide (m ≤ 0) || decide (m ^ 2 ≤ d2)

/-- The `for` loop of `getPositionFarFrom`: track the farthest position seen
(strictly farther wins, so ties keep the earliest), early-exit with the current
sample the moment it meets the threshold. -/
def farFromLoop (room : Room) (fromX fromY minDistance : Rat) :
    Nat → (Int × Int) → Rat → GenState → Option (Int × Int) × GenState
  | 0, bestPos, _, st => (some bestPos, st)
  | Nat.succ k, bestPos, bestD2, st =>
    let p := getRandomPositionInRoom st room 2
    let d2 := distSq p.1 fromX fromY
    let best := if d2 > bestD2 then (p.1, d2) else (bestPos, bestD2)
    if sqrtGE d2 minDistance then (some p.1, p.2)
    else farFromLoop room fromX fromY minDistance k best.1 best.2 p.2

/-- `getPositionFarFrom(room, fromX, fromY, minDistance, maxAttempts)`: one
initial sample seeds the best-so-far, then the attempt loop. -/
def getPositionFarFrom (st : GenState) (room : Room) (fromX fromY minDistance : Rat)
    (maxAttempts : Nat) : Option (Int × Int) × GenState :=
  let p := getRandomPositionInRoom st room 2
  farFromLoop room fromX fromY minDistance maxAttempts p.1 (distSq p.1 fromX fromY) p.2

/-- `isInCorridor(tileX, tileY, corridor, halfWidth)`. -/
def isInCorridor (tileX tileY : Int) (corridor : Corridor) (halfWidth : Int) : Bool :=
  if corridor.y1 = corridor.y2 then
    decide (tileX ≥ min corridor.x1 corridor.x2) &&
    decide (tileX ≤ max corridor.x1 corridor.x2) &&
    decide (tileY ≥ corridor.y1 - halfWidth) &&
    decide (tileY ≤ corridor.y1 + halfWidth)
  else if corridor.x1 = corridor.x2 then
    decide (tileY ≥ min corridor.y1 corridor.y2) &&
    decide (tileY ≤ max corridor.y1 corridor.y2) &&
    decide (tileX ≥ corridor.x1 - halfWidth) &&
    decide (tileX ≤ corridor.x1 + halfWidth)
  else false

/-- The containment test of the room loop of `isWall`. -/
def roomContains (room : Room) (tileX tileY : Int) : Bool :=
  decide (tileX ≥ room.x) && decide (tileX < room.x + room.width) &&
  decide (tileY ≥ room.y) && decide (tileY < room.y + room.height)

/-- The border test of `isWall` (left, right, top or bottom wall). -/
def roomBorderTest (room : Room) (tileX tileY : Int) : Bool :=
  decide (tileX = room.x) || decide (tileX = room.x + room.width - 1) ||
  decide (tileY = room.y) || decide (tileY = room.y + room.height - 1)

/-- `isWall(tileX, tileY)`: corridors first, then the first containing room
decides by its border test, outside everything is wall. -/
def isWall (rooms : List Room) (corridors : List Corridor) (corridorWidth : Nat)
    (tileX tileY : Int) : Bool :=
  let halfCorridorWidth : Int := (corridorWidth / 2 : Nat)
  if corridors.any (fun c => isInCorridor tileX tileY c halfCorridorWidth) then false
  else
    match rooms.find? (fun room => roomContains room tileX tileY) with
    | some room => roomBorderTest room tileX tileY
    | none => true

/-- Reachability in the adjacency map: `b` reachable from `a` following
adjacency-list membership. -/
inductive ReachG (g : List (Nat × List Nat)) : Nat → Nat → Prop where
  | refl (a : Nat) : ReachG g a a
  | step {a b c : Nat} : ReachG g a b → c ∈ graphGet g b → ReachG g a c

/-- Reachability along an (undirected) edge list. -/
inductive ReachE (E : List Edge) : Nat → Nat → Prop where
  | refl (a : Nat) : ReachE E a a
  | step {a b c : Nat} (e : Edge) : ReachE E a b → e ∈ E →
      (e.room1Id = b ∧ e.room2Id = c) ∨ (e.room1Id = c ∧ e.room2Id = b) →
      ReachE E a c

/-- All tiles of a room rectangle. -/
def roomTiles (room : Room) : List (Int × Int) :=
  (List.range room.width.toNat).flatMap (fun i =>
    (List.range room.height.toNat).map (fun j =>
      (room.x + (i : Int), room.y + (j : Int))))

/-- The outermost ring of a room rectangle. -/
def roomBorderTiles (room : Room) : List (Int × Int) :=
  (roomTiles room).filter (fun t => roomBorderTest room t.1 t.2)

/-- The interior (non-ring) tiles of a room rectangle. -/
def roomInteriorTiles (room : Room) : List (Int × Int) :=
  (roomTiles room).filter (fun t => !roomBorderTest room t.1 t.2)

/-- Evaluate a Boolean check under an `Option`, `none` failing. -/
def optCheck {α : Type} (o : Option α) (f : α → Bool) : Bool :=
  match o with
  | some a => f a
  | none => false

/-- The wall/interior consistency check of claim C5 on a dungeon. -/
def c5Check (cfg : Config) (d : Dungeon) : Bool :=
  d.rooms.all (fun room =>
    (roomBorderTiles room).all (fun t =>
      isWall d.rooms d.corridors cfg.corridorWidth t.1 t.2) &&
    (if 2 < room.width ∧ 2 < room.height then
      (roomInteriorTiles room).any (fun t =>
        !isWall d.rooms d.corridors cfg.corridorWidth t.1 t.2)
     else true))

/-- The pairwise no-overlap check of claim C4 on a dungeon. -/
def c4Check (cfg : Config) (d : Dungeon) : Bool :=
  d.rooms.all (fun a => d.rooms.all (fun b =>
    decide (a.id = b.id) || !overlapPair (cfg.roomSpacing : Int) a b))

/-- The value stream of `SeededRandom.next()`: the first `n` draws from a
generator seeded with `seed`. -/
def nextSeq (seed : Nat) : Nat → List Rat
  | 0 => []
  | Nat.succ n =>
    let p := (Rng.mk seed).next
    p.1 :: nextSeq p.2.seed n

/-- The first `n` positions `getRandomPositionInRoom` produces from a given
generator state. -/
def sampleList (st : GenState) (room : Room) : Nat → List (Int × Int)
  | 0 => []
  | Nat.succ k =>
    let p := getRandomPositionInRoom st room 2
    p.1 :: sampleList p.2 room k

/-- Fold the best-so-far (position, squared distance) pair over samples;
strictly farther wins, so ties keep the earliest. -/
def runBest (fromX fromY : Rat) (acc : (Int × Int) × Rat) :
    List (Int × Int) → (Int × Int) × Rat
  | [] => acc
  | p :: rest =>
    runBest fromX fromY
      (if distSq p fromX fromY > acc.2 then (p, distSq p fromX fromY) else acc) rest

/-- The farthest (earliest on ties) element of a sample list. -/
def farthestOf (fromX fromY : Rat) : List (Int × Int) → Option (Int × Int)
  | [] => none
  | p :: rest => some (runBest fromX fromY (p, distSq p fromX fromY) rest).1

/-- Claim C8 as stated, on one input: the result of `getPositionFarFrom` is the
first of the `maxAttempts` samples drawn from the generator meeting
`minDistance`, and otherwise the farthest of those `maxAttempts` samples. -/
def c8ClaimCheck (st : GenState) (room : Room) (fromX fromY minDistance : Rat)
    (maxAttempts : Nat) : Bool :=
  let res := (getPositionFarFrom st room fromX fromY minDistance maxAttempts).1
  let samples := sampleList st room maxAttempts
  match samples.find? (fun p => sqrtGE (distSq p fromX fromY) minDistance) with
  | some p => decide (res = some p)
  | none => decide (res = farthestOf fromX fromY samples)

/-- The minimal-dungeon scenario check of claim C6. -/
def c6Check (d : Dungeon) : Bool :=
  (match d.rooms with
   | [r] => decide (d.spawnRoomId = r.id) && decide (d.bossRoomId = r.id) &&
       decide (d.treasureRoomId = r.id) && decide (d.shopRoomId = r.id)
   | _ => false) &&
  decide (d.corridors = []) && decide (d.eliteRoomIds = []) &&
  decide (d.secretRoomIds = [])

/-- Concrete configuration: seed 0, three 6×6 rooms, loop-edge percentage
200. -/
def cfgC2 : Config :=
  { seed := 0, roomCount := 3, loopEdgePercentage := 200, minRoomSize := 6,
    maxRoomSize := 6 }

/-- Concrete configuration: seed 3, three 6×6 rooms, defaults otherwise. -/
def cfgC3 : Config := { seed := 3, roomCount := 3, minRoomSize := 6, maxRoomSize := 6 }

/-- Concrete configuration: seed 8, two 6×6 rooms, secret-room chance 100. -/
def cfgC4 : Config :=
  { seed := 8, roomCount := 2, secretRoomChance := 100, minRoomSize := 6,
    maxRoomSize := 6 }

/-- Concrete configuration: seed 0, two 6×6 rooms, defaults otherwise. -/
def cfgC5 : Config := { seed := 0, roomCount := 2, minRoomSize := 6, maxRoomSize := 6 }

/-- The configuration of the minimal-dungeon scenario: seed 42, room count 1. -/
def cfgC6 : Config := { seed := 42, roomCount := 1 }

/-- A 6×6 room for exercising `getPositionFarFrom`. -/
def roomC8 : Room :=
  { id := 0, x := 0, y := 0, width := 6, height := 6, centerX := 3, centerY := 3,
    type := RoomType.COMBAT, depth := 0 }

/-- A generator state holding `roomC8`, with RNG seed 2. -/
def stC8 : GenState :=
  { rooms := [roomC8], corridors := [], graph := [], rng := ⟨2⟩,
    roomIdCounter := 1, cfg := {} }

/-- Stage literal: rooms placed for `cfgC2`. -/
def stC2a : GenState := { rooms := [{ id := 0, x := 28, y := 64, width := 6, height := 6, centerX := 31, centerY := 67, type := Kwak.RoomType.COMBAT, depth := 0 }, { id := 1, x := 46, y := 57, width := 6, height := 6, centerX := 49, centerY := 60, type := Kwak.RoomType.COMBAT, depth := 0 }, { id := 2, x := 35, y := 78, width := 6, height := 6, centerX := 38, centerY := 81, type := Kwak.RoomType.COMBAT, depth := 0 }], corridors := [], graph := [], rng := { seed := 1772930244 }, roomIdCounter := 3, cfg := { roomCount := 3, minRoomSize := 6, maxRoomSize := 6, mapWidth := 100, mapHeight := 100, roomSpacing := 2, corridorWidth := 3, loopEdgePercentage := 200, eliteRoomPercentage := 10, secretRoomChance := 5, seed := 0 } }
/-- Stage literal: connectivity graph built for `cfgC2`. -/
def stC2b : GenState := { rooms := [{ id := 0, x := 28, y := 64, width := 6, height := 6, centerX := 31, centerY := 67, type := Kwak.RoomType.COMBAT, depth := 0 }, { id := 1, x := 46, y := 57, width := 6, height := 6, centerX := 49, centerY := 60, type := Kwak.RoomType.COMBAT, depth := 0 }, { id := 2, x := 35, y := 78, width := 6, height := 6, centerX := 38, centerY := 81, type := Kwak.RoomType.COMBAT, depth := 0 }], corridors := [], graph := [(0, [2, 1]), (1, [0, 2]), (2, [0, 1])], rng := { seed := 1772930244 }, roomIdCounter := 3, cfg := { roomCount := 3, minRoomSize := 6, maxRoomSize := 6, mapWidth := 100, mapHeight := 100, roomSpacing := 2, corridorWidth := 3, loopEdgePercentage := 200, eliteRoomPercentage := 10, secretRoomChance := 5, seed := 0 } }
/-- Stage literal: corridors generated for `cfgC2`. -/
def stC2c : GenState := { rooms := [{ id := 0, x := 28, y := 64, width := 6, height := 6, centerX := 31, centerY := 67, type := Kwak.RoomType.COMBAT, depth := 0 }, { id := 1, x := 46, y := 57, width := 6, height := 6, centerX := 49, centerY := 60, type := Kwak.RoomType.COMBAT, depth := 0 }, { id := 2, x := 35, y := 78, width := 6, height := 6, centerX := 38, centerY := 81, type := Kwak.RoomType.COMBAT, depth := 0 }], corridors := [{ x1 := 31, y1 := 67, x2 := 38, y2 := 67, room1Id := 0, room2Id := 2 }, { x1 := 38, y1 := 67, x2 := 38, y2 := 81, room1Id := 0, room2Id := 2 }, { x1 := 31, y1 := 67, x2 := 49, y2 := 67, room1Id := 0, room2Id := 1 }, { x1 := 49, y1 := 67, x2 := 49, y2 := 60, room1Id := 0, room2Id := 1 }, { x1 := 49, y1 := 60, x2 := 49, y2 := 81, room1Id := 1, room2Id := 2 }, { x1 := 49, y1 := 81, x2 := 38, y2 := 81, room1Id := 1, room2Id := 2 }], graph := [(0, [2, 1]), (1, [0, 2]), (2, [0, 1])], rng := { seed := 1381971571 }, roomIdCounter := 3, cfg := { roomCount := 3, minRoomSize := 6, maxRoomSize := 6, mapWidth := 100, mapHeight := 100, roomSpacing := 2, corridorWidth := 3, loopEdgePercentage := 200, eliteRoomPercentage := 10, secretRoomChance := 5, seed := 0 } }
/-- Stage literal: classification result for `cfgC2`. -/
def clsC2 : Classification := { spawnRoomId := 0, bossRoomId := 2, treasureRoomId := 1, shopRoomId := 0, eliteRoomIds := [] }
/-- Stage literal: state after classification for `cfgC2`. -/
def stC2d : GenState := { rooms := [{ id := 0, x := 28, y := 64, width := 6, height := 6, centerX := 31, centerY := 67, type := Kwak.RoomType.SPAWN, depth := 0 }, { id := 1, x := 46, y := 57, width := 6, height := 6, centerX := 49, centerY := 60, type := Kwak.RoomType.TREASURE, depth := 0 }, { id := 2, x := 35, y := 78, width := 6, height := 6, centerX := 38, centerY := 81, type := Kwak.RoomType.BOSS, depth := 0 }], corridors := [{ x1 := 31, y1 := 67, x2 := 38, y2 := 67, room1Id := 0, room2Id := 2 }, { x1 := 38, y1 := 67, x2 := 38, y2 := 81, room1Id := 0, room2Id := 2 }, { x1 := 31, y1 := 67, x2 := 49, y2 := 67, room1Id := 0, room2Id := 1 }, { x1 := 49, y1 := 67, x2 := 49, y2 := 60, room1Id := 0, room2Id := 1 }, { x1 := 49, y1 := 60, x2 := 49, y2 := 81, room1Id := 1, room2Id := 2 }, { x1 := 49, y1 := 81, x2 := 38, y2 := 81, room1Id := 1, room2Id := 2 }], graph := [(0, [2, 1]), (1, [0, 2]), (2, [0, 1])], rng := { seed := 1381971571 }, roomIdCounter := 3, cfg := { roomCount := 3, minRoomSize := 6, maxRoomSize := 6, mapWidth := 100, mapHeight := 100, roomSpacing := 2, corridorWidth := 3, loopEdgePercentage := 200, eliteRoomPercentage := 10, secretRoomChance := 5, seed := 0 } }
/-- Stage literal: state after depth computation for `cfgC2`. -/
def stC2e : GenState := { rooms := [{ id := 0, x := 28, y := 64, width := 6, height := 6, centerX := 31, centerY := 67, type := Kwak.RoomType.SPAWN, depth := 0 }, { id := 1, x := 46, y := 57, width := 6, height := 6, centerX := 49, centerY := 60, type := Kwak.RoomType.TREASURE, depth := 1 }, { id := 2, x := 35, y := 78, width := 6, height := 6, centerX := 38, centerY := 81, type := Kwak.RoomType.BOSS, depth := 1 }], corridors := [{ x1 := 31, y1 := 67, x2 := 38, y2 := 67, room1Id := 0, room2Id := 2 }, { x1 := 38, y1 := 67, x2 := 38, y2 := 81, room1Id := 0, room2Id := 2 }, { x1 := 31, y1 := 67, x2 := 49, y2 := 67, room1Id := 0, room2Id := 1 }, { x1 := 49, y1 := 67, x2 := 49, y2 := 60, room1Id := 0, room2Id := 1 }, { x1 := 49, y1 := 60, x2 := 49, y2 := 81, room1Id := 1, room2Id := 2 }, { x1 := 49, y1 := 81, x2 := 38, y2 := 81, room1Id := 1, room2Id := 2 }], graph := [(0, [2, 1]), (1, [0, 2]), (2, [0, 1])], rng := { seed := 1381971571 }, roomIdCounter := 3, cfg := { roomCount := 3, minRoomSize := 6, maxRoomSize := 6, mapWidth := 100, mapHeight := 100, roomSpacing := 2, corridorWidth := 3, loopEdgePercentage := 200, eliteRoomPercentage := 10, secretRoomChance := 5, seed := 0 } }
/-- The dungeon `generateDungeon` returns for `cfgC2`. -/
def dunC2 : Dungeon := { rooms := [{ id := 0, x := 28, y := 64, width := 6, height := 6, centerX := 31, centerY := 67, type := Kwak.RoomType.SPAWN, depth := 0 }, { id := 1, x := 46, y := 57, width := 6, height := 6, centerX := 49, centerY := 60, type := Kwak.RoomType.TREASURE, depth := 1 }, { id := 2, x := 35, y := 78, width := 6, height := 6, centerX := 38, centerY := 81, type := Kwak.RoomType.BOSS, depth := 1 }], corridors := [{ x1 := 31, y1 := 67, x2 := 38, y2 := 67, room1Id := 0, room2Id := 2 }, { x1 := 38, y1 := 67, x2 := 38, y2 := 81, room1Id := 0, room2Id := 2 }, { x1 := 31, y1 := 67, x2 := 49, y2 := 67, room1Id := 0, room2Id := 1 }, { x1 := 49, y1 := 67, x2 := 49, y2 := 60, room1Id := 0, room2Id := 1 }, { x1 := 49, y1 := 60, x2 := 49, y2 := 81, room1Id := 1, room2Id := 2 }, { x1 := 49, y1 := 81, x2 := 38, y2 := 81, room1Id := 1, room2Id := 2 }], graph := [(0, [2, 1]), (1, [0, 2]), (2, [0, 1])], spawnRoomId := 0, bossRoomId := 2, treasureRoomId := 1, shopRoomId := 0, eliteRoomIds := [], secretRoomIds := [] }

/-- Stage literal: rooms placed for `cfgC3`. -/
def stC3a : GenState := { rooms := [{ id := 0, x := 30, y := 24, width := 6, height := 6, centerX := 33, centerY := 27, type := Kwak.RoomType.COMBAT, depth := 0 }, { id := 1, x := 12, y := 45, width := 6, height := 6, centerX := 15, centerY := 48, type := Kwak.RoomType.COMBAT, depth := 0 }, { id := 2, x := 47, y := 49, width := 6, height := 6, centerX := 50, centerY := 52, type := Kwak.RoomType.COMBAT, depth := 0 }], corridors := [], graph := [], rng := { seed := 1111905623 }, roomIdCounter := 3, cfg := { roomCount := 3, minRoomSize := 6, maxRoomSize := 6, mapWidth := 100, mapHeight := 100, roomSpacing := 2, corridorWidth := 3, loopEdgePercentage := 15, eliteRoomPercentage := 10, secretRoomChance := 5, seed := 3 } }
/-- Stage literal: connectivity graph built for `cfgC3`. -/
def stC3b : GenState := { rooms := [{ id := 0, x := 30, y := 24, width := 6, height := 6, centerX := 33, centerY := 27, type := Kwak.RoomType.COMBAT, depth := 0 }, { id := 1, x := 12, y := 45, width := 6, height := 6, centerX := 15, centerY := 48, type := Kwak.RoomType.COMBAT, depth := 0 }, { id := 2, x := 47, y := 49, width := 6, height := 6, centerX := 50, centerY := 52, type := Kwak.RoomType.COMBAT, depth := 0 }], corridors := [], graph := [(0, [1, 2]), (1, [0]), (2, [0])], rng := { seed := 1111905623 }, roomIdCounter := 3, cfg := { roomCount := 3, minRoomSize := 6, maxRoomSize := 6, mapWidth := 100, mapHeight := 100, roomSpacing := 2, corridorWidth := 3, loopEdgePercentage := 15, eliteRoomPercentage := 10, secretRoomChance := 5, seed := 3 } }
/-- Stage literal: corridors generated for `cfgC3`. -/
def stC3c : GenState := { rooms := [{ id := 0, x := 30, y := 24, width := 6, height := 6, centerX := 33, centerY := 27, type := Kwak.RoomType.COMBAT, depth := 0 }, { id := 1, x := 12, y := 45, width := 6, height := 6, centerX := 15, centerY := 48, type := Kwak.RoomType.COMBAT, depth := 0 }, { id := 2, x := 47, y := 49, width := 6, height := 6, centerX := 50, centerY := 52, type := Kwak.RoomType.COMBAT, depth := 0 }], corridors := [{ x1 := 33, y1 := 27, x2 := 15, y2 := 27, room1Id := 0, room2Id := 1 }, { x1 := 15, y1 := 27, x2 := 15, y2 := 48, room1Id := 0, room2Id := 1 }, { x1 := 33, y1 := 27, x2 := 33, y2 := 52, room1Id := 0, room2Id := 2 }, { x1 := 33, y1 := 52, x2 := 50, y2 := 52, room1Id := 0, room2Id := 2 }], graph := [(0, [1, 2]), (1, [0]), (2, [0])], rng := { seed := 1092185389 }, roomIdCounter := 3, cfg := { roomCount := 3, minRoomSize := 6, maxRoomSize := 6, mapWidth := 100, mapHeight := 100, roomSpacing := 2, corridorWidth := 3, loopEdgePercentage := 15, eliteRoomPercentage := 10, secretRoomChance := 5, seed := 3 } }
/-- Stage literal: classification result for `cfgC3`. -/
def clsC3 : Classification := { spawnRoomId := 0, bossRoomId := 1, treasureRoomId := 1, shopRoomId := 2, eliteRoomIds := [] }
/-- Stage literal: state after classification for `cfgC3`. -/
def stC3d : GenState := { rooms := [{ id := 0, x := 30, y := 24, width := 6, height := 6, centerX := 33, centerY := 27, type := Kwak.RoomType.SPAWN, depth := 0 }, { id := 1, x := 12, y := 45, width := 6, height := 6, centerX := 15, centerY := 48, type := Kwak.RoomType.TREASURE, depth := 0 }, { id := 2, x := 47, y := 49, width := 6, height := 6, centerX := 50, centerY := 52, type := Kwak.RoomType.SHOP, depth := 0 }], corridors := [{ x1 := 33, y1 := 27, x2 := 15, y2 := 27, room1Id := 0, room2Id := 1 }, { x1 := 15, y1 := 27, x2 := 15, y2 := 48, room1Id := 0, room2Id := 1 }, { x1 := 33, y1 := 27, x2 := 33, y2 := 52, room1Id := 0, room2Id := 2 }, { x1 := 33, y1 := 52, x2 := 50, y2 := 52, room1Id := 0, room2Id := 2 }], graph := [(0, [1, 2]), (1, [0]), (2, [0])], rng := { seed := 1424319074 }, roomIdCounter := 3, cfg := { roomCount := 3, minRoomSize := 6, maxRoomSize := 6, mapWidth := 100, mapHeight := 100, roomSpacing := 2, corridorWidth := 3, loopEdgePercentage := 15, eliteRoomPercentage := 10, secretRoomChance := 5, seed := 3 } }
/-- Stage literal: state after depth computation for `cfgC3`. -/
def stC3e : GenState := { rooms := [{ id := 0, x := 30, y := 24, width := 6, height := 6, centerX := 33, centerY := 27, type := Kwak.RoomType.SPAWN, depth := 0 }, { id := 1, x := 12, y := 45, width := 6, height := 6, centerX := 15, centerY := 48, type := Kwak.RoomType.TREASURE, depth := 1 }, { id := 2, x := 47, y := 49, width := 6, height := 6, centerX := 50, centerY := 52, type := Kwak.RoomType.SHOP, depth := 1 }], corridors := [{ x1 := 33, y1 := 27, x2 := 15, y2 := 27, room1Id := 0, room2Id := 1 }, { x1 := 15, y1 := 27, x2 := 15, y2 := 48, room1Id := 0, room2Id := 1 }, { x1 := 33, y1 := 27, x2 := 33, y2 := 52, room1Id := 0, room2Id := 2 }, { x1 := 33, y1 := 52, x2 := 50, y2 := 52, room1Id := 0, room2Id := 2 }], graph := [(0, [1, 2]), (1, [0]), (2, [0])], rng := { seed := 1424319074 }, roomIdCounter := 3, cfg := { roomCount := 3, minRoomSize := 6, maxRoomSize := 6, mapWidth := 100, mapHeight := 100, roomSpacing := 2, corridorWidth := 3, loopEdgePercentage := 15, eliteRoomPercentage := 10, secretRoomChance := 5, seed := 3 } }
/-- The dungeon `generateDungeon` returns for `cfgC3`. -/
def dunC3 : Dungeon := { rooms := [{ id := 0, x := 30, y := 24, width := 6, height := 6, centerX := 33, centerY := 27, type := Kwak.RoomType.SPAWN, depth := 0 }, { id := 1, x := 12, y := 45, width := 6, height := 6, centerX := 15, centerY := 48, type := Kwak.RoomType.TREASURE, depth := 1 }, { id := 2, x := 47, y := 49, width := 6, height := 6, centerX := 50, centerY := 52, type := Kwak.RoomType.SHOP, depth := 1 }, { id := 3, x := 12, y := 34, width := 6, height := 6, centerX := 15, centerY := 37, type := Kwak.RoomType.SECRET, depth := 0 }], corridors := [{ x1 := 33, y1 := 27, x2 := 15, y2 := 27, room1Id := 0, room2Id := 1 }, { x1 := 15, y1 := 27, x2 := 15, y2 := 48, room1Id := 0, room2Id := 1 }, { x1 := 33, y1 := 27, x2 := 33, y2 := 52, room1Id := 0, room2Id := 2 }, { x1 := 33, y1 := 52, x2 := 50, y2 := 52, room1Id := 0, room2Id := 2 }], graph := [(0, [1, 2, 3]), (1, [0]), (2, [0]), (3, [0])], spawnRoomId := 0, bossRoomId := 1, treasureRoomId := 1, shopRoomId := 2, eliteRoomIds := [], secretRoomIds := [3] }

/-- Stage literal: rooms placed for `cfgC4`. -/
def stC4a : GenState := { rooms := [{ id := 0, x := 31, y := 52, width := 6, height := 6, centerX := 34, centerY := 55, type := Kwak.RoomType.COMBAT, depth := 0 }, { id := 1, x := 18, y := 56, width := 6, height := 6, centerX := 21, centerY := 59, type := Kwak.RoomType.COMBAT, depth := 0 }], corridors := [], graph := [], rng := { seed := 1275906080 }, roomIdCounter := 2, cfg := { roomCount := 2, minRoomSize := 6, maxRoomSize := 6, mapWidth := 100, mapHeight := 100, roomSpacing := 2, corridorWidth := 3, loopEdgePercentage := 15, eliteRoomPercentage := 10, secretRoomChance := 100, seed := 8 } }
/-- Stage literal: connectivity graph built for `cfgC4`. -/
def stC4b : GenState := { rooms := [{ id := 0, x := 31, y := 52, width := 6, height := 6, centerX := 34, centerY := 55, type := Kwak.RoomType.COMBAT, depth := 0 }, { id := 1, x := 18, y := 56, width := 6, height := 6, centerX := 21, centerY := 59, type := Kwak.RoomType.COMBAT, depth := 0 }], corridors := [], graph := [(0, [1]), (1, [0])], rng := { seed := 1275906080 }, roomIdCounter := 2, cfg := { roomCount := 2, minRoomSize := 6, maxRoomSize := 6, mapWidth := 100, mapHeight := 100, roomSpacing := 2, corridorWidth := 3, loopEdgePercentage := 15, eliteRoomPercentage := 10, secretRoomChance := 100, seed := 8 } }
/-- Stage literal: corridors generated for `cfgC4`. -/
def stC4c : GenState := { rooms := [{ id := 0, x := 31, y := 52, width := 6, height := 6, centerX := 34, centerY := 55, type := Kwak.RoomType.COMBAT, depth := 0 }, { id := 1, x := 18, y := 56, width := 6, height := 6, centerX := 21, centerY := 59, type := Kwak.RoomType.COMBAT, depth := 0 }], corridors := [{ x1 := 34, y1 := 55, x2 := 21, y2 := 55, room1Id := 0, room2Id := 1 }, { x1 := 21, y1 := 55, x2 := 21, y2 := 59, room1Id := 0, room2Id := 1 }], graph := [(0, [1]), (1, [0])], rng := { seed := 791356889 }, roomIdCounter := 2, cfg := { roomCount := 2, minRoomSize := 6, maxRoomSize := 6, mapWidth := 100, mapHeight := 100, roomSpacing := 2, corridorWidth := 3, loopEdgePercentage := 15, eliteRoomPercentage := 10, secretRoomChance := 100, seed := 8 } }
/-- Stage literal: classification result for `cfgC4`. -/
def clsC4 : Classification := { spawnRoomId := 0, bossRoomId := 1, treasureRoomId := 1, shopRoomId := 0, eliteRoomIds := [] }
/-- Stage literal: state after classification for `cfgC4`. -/
def stC4d : GenState := { rooms := [{ id := 0, x := 31, y := 52, width := 6, height := 6, centerX := 34, centerY := 55, type := Kwak.RoomType.SPAWN, depth := 0 }, { id := 1, x := 18, y := 56, width := 6, height := 6, centerX := 21, centerY := 59, type := Kwak.RoomType.TREASURE, depth := 0 }], corridors := [{ x1 := 34, y1 := 55, x2 := 21, y2 := 55, room1Id := 0, room2Id := 1 }, { x1 := 21, y1 := 55, x2 := 21, y2 := 59, room1Id := 0, room2Id := 1 }], graph := [(0, [1]), (1, [0])], rng := { seed := 791356889 }, roomIdCounter := 2, cfg := { roomCount := 2, minRoomSize := 6, maxRoomSize := 6, mapWidth := 100, mapHeight := 100, roomSpacing := 2, corridorWidth := 3, loopEdgePercentage := 15, eliteRoomPercentage := 10, secretRoomChance := 100, seed := 8 } }
/-- Stage literal: state after depth computation for `cfgC4`. -/
def stC4e : GenState := { rooms := [{ id := 0, x := 31, y := 52, width := 6, height := 6, centerX := 34, centerY := 55, type := Kwak.RoomType.SPAWN, depth := 0 }, { id := 1, x := 18, y := 56, width := 6, height := 6, centerX := 21, centerY := 59, type := Kwak.RoomType.TREASURE, depth := 1 }], corridors := [{ x1 := 34, y1 := 55, x2 := 21, y2 := 55, room1Id := 0, room2Id := 1 }, { x1 := 21, y1 := 55, x2 := 21, y2 := 59, room1Id := 0, room2Id := 1 }], graph := [(0, [1]), (1, [0])], rng := { seed := 791356889 }, roomIdCounter := 2, cfg := { roomCount := 2, minRoomSize := 6, maxRoomSize := 6, mapWidth := 100, mapHeight := 100, roomSpacing := 2, corridorWidth := 3, loopEdgePercentage := 15, eliteRoomPercentage := 10, secretRoomChance := 100, seed := 8 } }
/-- The dungeon `generateDungeon` returns for `cfgC4`. -/
def dunC4 : Dungeon := { rooms := [{ id := 0, x := 31, y := 52, width := 6, height := 6, centerX := 34, centerY := 55, type := Kwak.RoomType.SPAWN, depth := 0 }, { id := 1, x := 18, y := 56, width := 6, height := 6, centerX := 21, centerY := 59, type := Kwak.RoomType.TREASURE, depth := 1 }, { id := 2, x := 24, y := 52, width := 6, height := 6, centerX := 27, centerY := 55, type := Kwak.RoomType.SECRET, depth := 0 }], corridors := [{ x1 := 34, y1 := 55, x2 := 21, y2 := 55, room1Id := 0, room2Id := 1 }, { x1 := 21, y1 := 55, x2 := 21, y2 := 59, room1Id := 0, room2Id := 1 }], graph := [(0, [1, 2]), (1, [0]), (2, [0])], spawnRoomId := 0, bossRoomId := 1, treasureRoomId := 1, shopRoomId := 0, eliteRoomIds := [], secretRoomIds := [2] }

/-- Stage literal: rooms placed for `cfgC5`. -/
def stC5a : GenState := { rooms := [{ id := 0, x := 28, y := 64, width := 6, height := 6, centerX := 31, centerY := 67, type := Kwak.RoomType.COMBAT, depth := 0 }, { id := 1, x := 46, y := 57, width := 6, height := 6, centerX := 49, centerY := 60, type := Kwak.RoomType.COMBAT, depth := 0 }], corridors := [], graph := [], rng := { seed := 1293799192 }, roomIdCounter := 2, cfg := { roomCount := 2, minRoomSize := 6, maxRoomSize := 6, mapWidth := 100, mapHeight := 100, roomSpacing := 2, corridorWidth := 3, loopEdgePercentage := 15, eliteRoomPercentage := 10, secretRoomChance := 5, seed := 0 } }
/-- Stage literal: connectivity graph built for `cfgC5`. -/
def stC5b : GenState := { rooms := [{ id := 0, x := 28, y := 64, width := 6, height := 6, centerX := 31, centerY := 67, type := Kwak.RoomType.COMBAT, depth := 0 }, { id := 1, x := 46, y := 57, width := 6, height := 6, centerX := 49, centerY := 60, type := Kwak.RoomType.COMBAT, depth := 0 }], corridors := [], graph := [(0, [1]), (1, [0])], rng := { seed := 1293799192 }, roomIdCounter := 2, cfg := { roomCount := 2, minRoomSize := 6, maxRoomSize := 6, mapWidth := 100, mapHeight := 100, roomSpacing := 2, corridorWidth := 3, loopEdgePercentage := 15, eliteRoomPercentage := 10, secretRoomChance := 5, seed := 0 } }
/-- Stage literal: corridors generated for `cfgC5`. -/
def stC5c : GenState := { rooms := [{ id := 0, x := 28, y := 64, width := 6, height := 6, centerX := 31, centerY := 67, type := Kwak.RoomType.COMBAT, depth := 0 }, { id := 1, x := 46, y := 57, width := 6, height := 6, centerX := 49, centerY := 60, type := Kwak.RoomType.COMBAT, depth := 0 }], corridors := [{ x1 := 31, y1 := 67, x2 := 49, y2 := 67, room1Id := 0, room2Id := 1 }, { x1 := 49, y1 := 67, x2 := 49, y2 := 60, room1Id := 0, room2Id := 1 }], graph := [(0, [1]), (1, [0])], rng := { seed := 794471793 }, roomIdCounter := 2, cfg := { roomCount := 2, minRoomSize := 6, maxRoomSize := 6, mapWidth := 100, mapHeight := 100, roomSpacing := 2, corridorWidth := 3, loopEdgePercentage := 15, eliteRoomPercentage := 10, secretRoomChance := 5, seed := 0 } }
/-- Stage literal: classification result for `cfgC5`. -/
def clsC5 : Classification := { spawnRoomId := 0, bossRoomId := 1, treasureRoomId := 1, shopRoomId := 0, eliteRoomIds := [] }
/-- Stage literal: state after classification for `cfgC5`. -/
def stC5d : GenState := { rooms := [{ id := 0, x := 28, y := 64, width := 6, height := 6, centerX := 31, centerY := 67, type := Kwak.RoomType.SPAWN, depth := 0 }, { id := 1, x := 46, y := 57, width := 6, height := 6, centerX := 49, centerY := 60, type := Kwak.RoomType.TREASURE, depth := 0 }], corridors := [{ x1 := 31, y1 := 67, x2 := 49, y2 := 67, room1Id := 0, room2Id := 1 }, { x1 := 49, y1 := 67, x2 := 49, y2 := 60, room1Id := 0, room2Id := 1 }], graph := [(0, [1]), (1, [0])], rng := { seed := 794471793 }, roomIdCounter := 2, cfg := { roomCount := 2, minRoomSize := 6, maxRoomSize := 6, mapWidth := 100, mapHeight := 100, roomSpacing := 2, corridorWidth := 3, loopEdgePercentage := 15, eliteRoomPercentage := 10, secretRoomChance := 5, seed := 0 } }
/-- Stage literal: state after depth computation for `cfgC5`. -/
def stC5e : GenState := { rooms := [{ id := 0, x := 28, y := 64, width := 6, height := 6, centerX := 31, centerY := 67, type := Kwak.RoomType.SPAWN, depth := 0 }, { id := 1, x := 46, y := 57, width := 6, height := 6, centerX := 49, centerY := 60, type := Kwak.RoomType.TREASURE, depth := 1 }], corridors := [{ x1 := 31, y1 := 67, x2 := 49, y2 := 67, room1Id := 0, room2Id := 1 }, { x1 := 49, y1 := 67, x2 := 49, y2 := 60, room1Id := 0, room2Id := 1 }], graph := [(0, [1]), (1, [0])], rng := { seed := 794471793 }, roomIdCounter := 2, cfg := { roomCount := 2, minRoomSize := 6, maxRoomSize := 6, mapWidth := 100, mapHeight := 100, roomSpacing := 2, corridorWidth := 3, loopEdgePercentage := 15, eliteRoomPercentage := 10, secretRoomChance := 5, seed := 0 } }
/-- The dungeon `generateDungeon` returns for `cfgC5`. -/
def dunC5 : Dungeon := { rooms := [{ id := 0, x := 28, y := 64, width := 6, height := 6, centerX := 31, centerY := 67, type := Kwak.RoomType.SPAWN, depth := 0 }, { id := 1, x := 46, y := 57, width := 6, height := 6, centerX := 49, centerY := 60, type := Kwak.RoomType.TREASURE, depth := 1 }], corridors := [{ x1 := 31, y1 := 67, x2 := 49, y2 := 67, room1Id := 0, room2Id := 1 }, { x1 := 49, y1 := 67, x2 := 49, y2 := 60, room1Id := 0, room2Id := 1 }], graph := [(0, [1]), (1, [0])], spawnRoomId := 0, bossRoomId := 1, treasureRoomId := 1, shopRoomId := 0, eliteRoomIds := [], secretRoomIds := [] }

/-- Stage literal: rooms placed for `cfgC6`. -/
def stC6a : GenState := { rooms := [{ id := 0, x := 40, y := 68, width := 14, height := 13, centerX := 47, centerY := (149 : Rat)/2, type := Kwak.RoomType.COMBAT, depth := 0 }], corridors := [], graph := [], rng := { seed := 1668674806 }, roomIdCounter := 1, cfg := { roomCount := 1, minRoomSize := 6, maxRoomSize := 20, mapWidth := 100, mapHeight := 100, roomSpacing := 2, corridorWidth := 3, loopEdgePercentage := 15, eliteRoomPercentage := 10, secretRoomChance := 5, seed := 42 } }
/-- Stage literal: connectivity graph built for `cfgC6`. -/
def stC6b : GenState := { rooms := [{ id := 0, x := 40, y := 68, width := 14, height := 13, centerX := 47, centerY := (149 : Rat)/2, type := Kwak.RoomType.COMBAT, depth := 0 }], corridors := [], graph := [(0, [])], rng := { seed := 1668674806 }, roomIdCounter := 1, cfg := { roomCount := 1, minRoomSize := 6, maxRoomSize := 20, mapWidth := 100, mapHeight := 100, roomSpacing := 2, corridorWidth := 3, loopEdgePercentage := 15, eliteRoomPercentage := 10, secretRoomChance := 5, seed := 42 } }
/-- Stage literal: corridors generated for `cfgC6`. -/
def stC6c : GenState := { rooms := [{ id := 0, x := 40, y := 68, width := 14, height := 13, centerX := 47, centerY := (149 : Rat)/2, type := Kwak.RoomType.COMBAT, depth := 0 }], corridors := [], graph := [(0, [])], rng := { seed := 1668674806 }, roomIdCounter := 1, cfg := { roomCount := 1, minRoomSize := 6, maxRoomSize := 20, mapWidth := 100, mapHeight := 100, roomSpacing := 2, corridorWidth := 3, loopEdgePercentage := 15, eliteRoomPercentage := 10, secretRoomChance := 5, seed := 42 } }
/-- Stage literal: classification result for `cfgC6`. -/
def clsC6 : Classification := { spawnRoomId := 0, bossRoomId := 0, treasureRoomId := 0, shopRoomId := 0, eliteRoomIds := [] }
/-- Stage literal: state after classification for `cfgC6`. -/
def stC6d : GenState := { rooms := [{ id := 0, x := 40, y := 68, width := 14, height := 13, centerX := 47, centerY := (149 : Rat)/2, type := Kwak.RoomType.TREASURE, depth := 0 }], corridors := [], graph := [(0, [])], rng := { seed := 1668674806 }, roomIdCounter := 1, cfg := { roomCount := 1, minRoomSize := 6, maxRoomSize := 20, mapWidth := 100, mapHeight := 100, roomSpacing := 2, corridorWidth := 3, loopEdgePercentage := 15, eliteRoomPercentage := 10, secretRoomChance := 5, seed := 42 } }
/-- Stage literal: state after depth computation for `cfgC6`. -/
def stC6e : GenState := { rooms := [{ id := 0, x := 40, y := 68, width := 14, height := 13, centerX := 47, centerY := (149 : Rat)/2, type := Kwak.RoomType.TREASURE, depth := 0 }], corridors := [], graph := [(0, [])], rng := { seed := 1668674806 }, roomIdCounter := 1, cfg := { roomCount := 1, minRoomSize := 6, maxRoomSize := 20, mapWidth := 100, mapHeight := 100, roomSpacing := 2, corridorWidth := 3, loopEdgePercentage := 15, eliteRoomPercentage := 10, secretRoomChance := 5, seed := 42 } }
/-- The dungeon `generateDungeon` returns for `cfgC6`. -/
def dunC6 : Dungeon := { rooms := [{ id := 0, x := 40, y := 68, width := 14, height := 13, centerX := 47, centerY := (149 : Rat)/2, type := Kwak.RoomType.TREASURE, depth := 0 }], corridors := [], graph := [(0, [])], spawnRoomId := 0, bossRoomId := 0, treasureRoomId := 0, shopRoomId := 0, eliteRoomIds := [], secretRoomIds := [] }

/-!
Theorems.  The staged lemmas below evaluate the generation pipeline on the
concrete configurations one stage at a time (each stage applied to a literal
state), which keeps kernel reduction shallow.
-/

set_option maxRecDepth 200000


unseal lcgNext Rat.mul Rat.add Rat.sub Rat.inv in
lemma stageC2a : generateRooms (mkGenerator cfgC2) = stC2a := by decide
unseal lcgNext Rat.mul Rat.add Rat.sub Rat.inv in
lemma stageC2b : buildConnectivityGraph stC2a = stC2b := by decide
unseal lcgNext Rat.mul Rat.add Rat.sub Rat.inv in
lemma stageC2c : generateCorridorsFromGraph stC2b = stC2c := by decide
unseal lcgNext Rat.mul Rat.add Rat.sub Rat.inv in
lemma stageC2d : classifyRooms stC2c = (clsC2, stC2d) := by decide
unseal lcgNext Rat.mul Rat.add Rat.sub Rat.inv in
lemma stageC2e : computeRoomDepth stC2d clsC2.spawnRoomId = stC2e := by decide
unseal lcgNext Rat.mul Rat.add Rat.sub Rat.inv in
lemma runC2 : generateDungeon cfgC2 = some dunC2 := by
  unfold generateDungeon pipeSt6 pipeSt5 pipeSt4 pipeCls pipeCorr pipeGraph pipeRooms
  simp only [stageC2a, stageC2b, stageC2c, stageC2d, stageC2e]
  decide

unseal lcgNext Rat.mul Rat.add Rat.sub Rat.inv in
lemma stageC3a : generateRooms (mkGenerator cfgC3) = stC3a := by decide
unseal lcgNext Rat.mul Rat.add Rat.sub Rat.inv in
lemma stageC3b : buildConnectivityGraph stC3a = stC3b := by decide
unseal lcgNext Rat.mul Rat.add Rat.sub Rat.inv in
lemma stageC3c : generateCorridorsFromGraph stC3b = stC3c := by decide
unseal lcgNext Rat.mul Rat.add Rat.sub Rat.inv in
lemma stageC3d : classifyRooms stC3c = (clsC3, stC3d) := by decide
unseal lcgNext Rat.mul Rat.add Rat.sub Rat.inv in
lemma stageC3e : computeRoomDepth stC3d clsC3.spawnRoomId = stC3e := by decide
unseal lcgNext Rat.mul Rat.add Rat.sub Rat.inv in
lemma runC3 : generateDungeon cfgC3 = some dunC3 := by
  unfold generateDungeon pipeSt6 pipeSt5 pipeSt4 pipeCls pipeCorr pipeGraph pipeRooms
  simp only [stageC3a, stageC3b, stageC3c, stageC3d, stageC3e]
  decide

unseal lcgNext Rat.mul Rat.add Rat.sub Rat.inv in
lemma stageC4a : generateRooms (mkGenerator cfgC4) = stC4a := by decide
unseal lcgNext Rat.mul Rat.add Rat.sub Rat.inv in
lemma stageC4b : buildConnectivityGraph stC4a = stC4b := by decide
unseal lcgNext Rat.mul Rat.add Rat.sub Rat.inv in
lemma stageC4c : generateCorridorsFromGraph stC4b = stC4c := by decide
unseal lcgNext Rat.mul Rat.add Rat.sub Rat.inv in
lemma stageC4d : classifyRooms stC4c = (clsC4, stC4d) := by decide
unseal lcgNext Rat.mul Rat.add Rat.sub Rat.inv in
lemma stageC4e : computeRoomDepth stC4d clsC4.spawnRoomId = stC4e := by decide
unseal lcgNext Rat.mul Rat.add Rat.sub Rat.inv in
lemma runC4 : generateDungeon cfgC4 = some dunC4 := by
  unfold generateDungeon pipeSt6 pipeSt5 pipeSt4 pipeCls pipeCorr pipeGraph pipeRooms
  simp only [stageC4a, stageC4b, stageC4c, stageC4d, stageC4e]
  decide

unseal lcgNext Rat.mul Rat.add Rat.sub Rat.inv in
lemma stageC5a : generateRooms (mkGenerator cfgC5) = stC5a := by decide
unseal lcgNext Rat.mul Rat.add Rat.sub Rat.inv in
lemma stageC5b : buildConnectivityGraph stC5a = stC5b := by decide
unseal lcgNext Rat.mul Rat.add Rat.sub Rat.inv in
lemma stageC5c : generateCorridorsFromGraph stC5b = stC5c := by decide
unseal lcgNext Rat.mul Rat.add Rat.sub Rat.inv in
lemma stageC5d : classifyRooms stC5c = (clsC5, stC5d) := by decide
unseal lcgNext Rat.mul Rat.add Rat.sub Rat.inv in
lemma stageC5e : computeRoomDepth stC5d clsC5.spawnRoomId = stC5e := by decide
unseal lcgNext Rat.mul Rat.add Rat.sub Rat.inv in
lemma runC5 : generateDungeon cfgC5 = some dunC5 := by
  unfold generateDungeon pipeSt6 pipeSt5 pipeSt4 pipeCls pipeCorr pipeGraph pipeRooms
  simp only [stageC5a, stageC5b, stageC5c, stageC5d, stageC5e]
  decide

unseal lcgNext Rat.mul Rat.add Rat.sub Rat.inv in
lemma stageC6a : generateRooms (mkGenerator cfgC6) = stC6a := by decide
unseal lcgNext Rat.mul Rat.add Rat.sub Rat.inv in
lemma stageC6b : buildConnectivityGraph stC6a = stC6b := by decide
unseal lcgNext Rat.mul Rat.add Rat.sub Rat.inv in
lemma stageC6c : generateCorridorsFromGraph stC6b = stC6c := by decide
unseal lcgNext Rat.mul Rat.add Rat.sub Rat.inv in
lemma stageC6d : classifyRooms stC6c = (clsC6, stC6d) := by decide
unseal lcgNext Rat.mul Rat.add Rat.sub Rat.inv in
lemma stageC6e : computeRoomDepth stC6d clsC6.spawnRoomId = stC6e := by decide
unseal lcgNext Rat.mul Rat.add Rat.sub Rat.inv in
lemma runC6 : generateDungeon cfgC6 = some dunC6 := by
  unfold generateDungeon pipeSt6 pipeSt5 pipeSt4 pipeCls pipeCorr pipeGraph pipeRooms
  simp only [stageC6a, stageC6b, stageC6c, stageC6d, stageC6e]
  decide


/-- Claim C1: for a fixed seed and configuration, two freshly constructed
generators produce identical dungeons, and the `next()` stream of a seed is
always the same sequence; the embedding is a pure function of the
configuration, which is exactly the content of the determinism
hyperproperty. -/
theorem c1_determinism (cfg1 cfg2 : Config) (h : cfg1 = cfg2) :
    generateDungeon cfg1 = generateDungeon cfg2 ∧
    ∀ n : Nat, nextSeq cfg1.seed n = nextSeq cfg2.seed n := by
  subst h; exact ⟨rfl, fun _ => rfl⟩

/-- Witness for `c1_determinism` at the default configuration. -/
theorem c1_determinism_witness :
    (cfgC6 = cfgC6) ∧
    (generateDungeon cfgC6 = generateDungeon cfgC6 ∧
      ∀ n : Nat, nextSeq cfgC6.seed n = nextSeq cfgC6.seed n) :=
  ⟨rfl, c1_determinism cfgC6 cfgC6 rfl⟩

unseal lcgNext Rat.mul Rat.add Rat.sub Rat.inv in
/-- Counterexample to claim C2: with `loopEdgePercentage = 200` and three
placed rooms, only `min(floor(...), |remaining|) = 1` loop edge is added,
not `floor(|remaining| * 200 / 100) = 2`. -/
theorem c2_counterexample :
    2 ≤ (placedRooms cfgC2).length ∧
    (loopEdges cfgC2 (placedRooms cfgC2)).length ≠
      loopEdgeCount cfgC2 (remainingAfterMST (placedRooms cfgC2)) := by
  have h : placedRooms cfgC2 = stC2a.rooms := by
    unfold placedRooms pipeRooms; rw [stageC2a]
  rw [h]
  exact ⟨by decide, by decide⟩

unseal lcgNext Rat.mul Rat.add Rat.sub Rat.inv in
/-- Counterexample to claim C3: with seed 3 and three placed rooms, the MST is
a star centered on the spawn room, the mid-depth band is empty, and the
fallback picks the second-placed room, which is the boss: `treasureRoomId`
equals `bossRoomId`. -/
theorem c3_counterexample :
    3 ≤ (placedRooms cfgC3).length ∧
    generateDungeon cfgC3 = some dunC3 ∧
    dunC3.treasureRoomId = dunC3.bossRoomId := by
  have h : placedRooms cfgC3 = stC3a.rooms := by
    unfold placedRooms pipeRooms; rw [stageC3a]
  exact ⟨by rw [h]; decide, runC3, by decide⟩

unseal lcgNext Rat.mul Rat.add Rat.sub Rat.inv in
/-- Counterexample to claim C4: with the secret-room chance forced to 100, the
generated secret room (placed with no overlap check) intersects the first
placed room even after spacing expansion. -/
theorem c4_counterexample :
    generateDungeon cfgC4 = some dunC4 ∧
    c4Check cfgC4 dunC4 = false ∧
    (dunC4.rooms.getD 2 dummyRoom).type = RoomType.SECRET ∧
    (dunC4.rooms.getD 2 dummyRoom).id ≠ (dunC4.rooms.getD 0 dummyRoom).id ∧
    overlapPair (cfgC4.roomSpacing : Int) (dunC4.rooms.getD 2 dummyRoom)
      (dunC4.rooms.getD 0 dummyRoom) = true :=
  ⟨runC4, by decide, by decide, by decide, by decide⟩

unseal lcgNext Rat.mul Rat.add Rat.sub Rat.inv in
/-- Counterexample to claim C5: in the dungeon of `cfgC5` some border-ring
tile lies inside a corridor band, so `isWall` returns `false` on it. -/
theorem c5_counterexample :
    generateDungeon cfgC5 = some dunC5 ∧ c5Check cfgC5 dunC5 = false :=
  ⟨runC5, by decide⟩

unseal lcgNext Rat.mul Rat.add Rat.sub Rat.inv in
/-- Claim C6: seed 42 with room count 1 produces exactly one room, all four
distinguished ids equal to its id, no corridors, and empty elite and secret
lists. -/
theorem c6_minimal_dungeon :
    generateDungeon cfgC6 = some dunC6 ∧
    dunC6.rooms.length = 1 ∧
    c6Check dunC6 = true :=
  ⟨runC6, by decide, by decide⟩

unseal lcgNext Rat.mul Rat.add Rat.sub Rat.inv in
/-- Counterexample to claim C8: `getPositionFarFrom` with `maxAttempts = 2`
returns its third sample, which is not among the two samples the claim
accounts for and differs from their farthest. -/
theorem c8_counterexample :
    c8ClaimCheck stC8 roomC8 0 0 120 2 = false ∧
    (getPositionFarFrom stC8 roomC8 0 0 120 2).1 = some (96, 96) ∧
    sampleList stC8 roomC8 2 = [(64, 96), (64, 64)] :=
  ⟨by decide, by decide, by decide⟩


lemma generateRoomsAux_zero (st : GenState) (a : Nat) :
    generateRoomsAux st 0 a = (st, a) := rfl

lemma generateRoomsAux_succ (st : GenState) (f a : Nat) :
    generateRoomsAux st (f + 1) a =
      if st.rooms.length < st.cfg.roomCount then
        generateRoomsAux
          (if hasOverlap (createRandomRoom st).2 (createRandomRoom st).1 then
            (createRandomRoom st).2
           else
            { (createRandomRoom st).2 with
                rooms := (createRandomRoom st).2.rooms ++ [(createRandomRoom st).1] })
          f (a + 1)
      else (st, a) := rfl

lemma createRandomRoom_snd (st : GenState) :
    (createRandomRoom st).2.rooms = st.rooms ∧
    (createRandomRoom st).2.corridors = st.corridors ∧
    (createRandomRoom st).2.graph = st.graph ∧
    (createRandomRoom st).2.roomIdCounter = st.roomIdCounter + 1 ∧
    (createRandomRoom st).2.cfg = st.cfg := by
  refine ⟨?_, ?_, ?_, ?_, ?_⟩ <;> simp only [createRandomRoom]

lemma createRandomRoom_fst (st : GenState) :
    (createRandomRoom st).1.id = st.roomIdCounter ∧
    (createRandomRoom st).1.type = RoomType.COMBAT ∧
    (createRandomRoom st).1.depth = 0 := by
  refine ⟨?_, ?_, ?_⟩ <;> simp only [createRandomRoom]

lemma generateRoomsAux_cfg (fuel : Nat) : ∀ (st : GenState) (a : Nat),
    (generateRoomsAux st fuel a).1.cfg = st.cfg := by
  induction fuel with
  | zero => intro st a; rfl
  | succ f ih =>
    intro st a
    rw [generateRoomsAux_succ]
    split
    · split
      · rw [ih]; exact (createRandomRoom_snd st).2.2.2.2
      · rw [ih]; exact (createRandomRoom_snd st).2.2.2.2
    · rfl

lemma generateRoomsAux_attempts (fuel : Nat) : ∀ (st : GenState) (a : Nat),
    (generateRoomsAux st fuel a).2 ≤ a + fuel := by
  induction fuel with
  | zero => intro st a; simp [generateRoomsAux_zero]
  | succ f ih =>
    intro st a
    rw [generateRoomsAux_succ]
    split
    · split
      · have h1 := ih ((createRandomRoom st).2) (a + 1)
        omega
      · have h2 := ih
          { (createRandomRoom st).2 with
              rooms := (createRandomRoom st).2.rooms ++ [(createRandomRoom st).1] } (a + 1)
        omega
    · simp

lemma generateRoomsAux_le_count (fuel : Nat) : ∀ (st : GenState) (a : Nat),
    st.rooms.length ≤ st.cfg.roomCount →
    (generateRoomsAux st fuel a).1.rooms.length ≤ st.cfg.roomCount := by
  induction fuel with
  | zero => intro st a h; exact h
  | succ f ih =>
    intro st a h
    rw [generateRoomsAux_succ]
    split
    · next hlt =>
      obtain ⟨hr, -, -, -, hc⟩ := createRandomRoom_snd st
      split
      · have := ih ((createRandomRoom st).2) (a + 1) (by rw [hr, hc]; exact h)
        rw [hc] at this
        exact this
      · have := ih
          { (createRandomRoom st).2 with
              rooms := (createRandomRoom st).2.rooms ++ [(createRandomRoom st).1] } (a + 1)
          (by simp only [List.length_append, List.length_cons, List.length_nil, hr, hc]
              omega)
        simpa only [hc] using this
    · exact h

lemma generateRoomsAux_mono (fuel : Nat) : ∀ (st : GenState) (a : Nat),
    st.rooms.length ≤ (generateRoomsAux st fuel a).1.rooms.length := by
  induction fuel with
  | zero => intro st a; exact Nat.le_refl _
  | succ f ih =>
    intro st a
    rw [generateRoomsAux_succ]
    obtain ⟨hr, -, -, -, -⟩ := createRandomRoom_snd st
    split
    · split
      · have := ih ((createRandomRoom st).2) (a + 1)
        rw [hr] at this
        exact this
      · calc st.rooms.length
            = (createRandomRoom st).2.rooms.length := by rw [hr]
          _ ≤ ((createRandomRoom st).2.rooms ++ [(createRandomRoom st).1]).length := by
              simp
          _ ≤ _ := ih
              { (createRandomRoom st).2 with
                  rooms := (createRandomRoom st).2.rooms ++ [(createRandomRoom st).1] }
              (a + 1)
    · exact Nat.le_refl _

lemma generateRoomsAux_ne_nil (fuel : Nat) (st : GenState) (a : Nat)
    (hf : 1 ≤ fuel) (h0 : st.rooms = []) (hc : 0 < st.cfg.roomCount) :
    1 ≤ (generateRoomsAux st fuel a).1.rooms.length := by
  obtain ⟨f, rfl⟩ : ∃ f, fuel = f + 1 := ⟨fuel - 1, by omega⟩
  rw [generateRoomsAux_succ]
  obtain ⟨hr, -, -, -, -⟩ := createRandomRoom_snd st
  have hcond : st.rooms.length < st.cfg.roomCount := by rw [h0]; simpa using hc
  rw [if_pos hcond]
  have hover : hasOverlap (createRandomRoom st).2 (createRandomRoom st).1 = false := by
    unfold hasOverlap
    rw [hr, h0]
    rfl
  split
  · next hcontra => rw [hover] at hcontra; exact absurd hcontra (by simp)
  · refine le_trans ?_ (generateRoomsAux_mono f
      { (createRandomRoom st).2 with
          rooms := (createRandomRoom st).2.rooms ++ [(createRandomRoom st).1] } (a + 1))
    simp [hr, h0]

/-- Claim C7: room placement performs at most `roomCount * 10` candidate
attempts, returns at most `roomCount` rooms (possibly fewer, without error),
and `generateDungeon` fails exactly when zero rooms were placed. -/
theorem c7_placement_budget (cfg : Config) :
    generateRoomsAttempts (mkGenerator cfg) ≤ cfg.roomCount * 10 ∧
    (placedRooms cfg).length ≤ cfg.roomCount ∧
    (generateDungeon cfg = none ↔ placedRooms cfg = []) := by
  refine ⟨?_, ?_, ?_⟩
  · have := generateRoomsAux_attempts (cfg.roomCount * 10)
      { mkGenerator cfg with rooms := [], roomIdCounter := 0 } 0
    simpa [generateRoomsAttempts] using this
  · have := generateRoomsAux_le_count (cfg.roomCount * 10)
      { mkGenerator cfg with rooms := [], roomIdCounter := 0 } 0 (by simp [mkGenerator])
    simpa [placedRooms, pipeRooms, generateRooms, mkGenerator] using this
  · unfold generateDungeon
    by_cases hl : (pipeRooms cfg).rooms.length = 0
    · rw [if_pos hl]
      constructor
      · intro _; exact List.length_eq_zero.mp hl
      · intro _; rfl
    · rw [if_neg hl]
      constructor
      · intro h; exact absurd h (by simp)
      · intro h
        exact absurd (by simpa [placedRooms] using congrArg List.length h) hl

/-- Claim C9: with `roomCount ≥ 1` the first candidate is always accepted, so
at least one room is placed and the fatal zero-rooms branch of
`generateDungeon` is unreachable. -/
theorem c9_first_room_always_placed (cfg : Config) (h : 1 ≤ cfg.roomCount) :
    1 ≤ (placedRooms cfg).length ∧ (generateDungeon cfg).isSome = true := by
  have hlen : 1 ≤ (placedRooms cfg).length := by
    have := generateRoomsAux_ne_nil (cfg.roomCount * 10)
      { mkGenerator cfg with rooms := [], roomIdCounter := 0 } 0
      (by simpa using Nat.mul_le_mul h (by norm_num : 1 ≤ 10))
      rfl (by simpa [mkGenerator] using h)
    simpa [placedRooms, pipeRooms, generateRooms] using this
  refine ⟨hlen, ?_⟩
  unfold generateDungeon
  rw [if_neg (by simpa [placedRooms] using Nat.ne_of_gt hlen)]
  rfl

/-- Witness for `c9_first_room_always_placed` at the default configuration. -/
theorem c9_witness :
    1 ≤ ({} : Config).roomCount ∧
    (1 ≤ (placedRooms {}).length ∧ (generateDungeon ({} : Config)).isSome = true) :=
  ⟨by decide, c9_first_room_always_placed {} (by decide)⟩


lemma farFromLoop_spec (room : Room) (fX fY m : Rat) :
    ∀ (k : Nat) (st : GenState) (best : Int × Int) (bestD2 : Rat),
    (farFromLoop room fX fY m k best bestD2 st).1 =
      match (sampleList st room k).find? (fun p => sqrtGE (distSq p fX fY) m) with
      | some p => some p
      | none => some (runBest fX fY (best, bestD2) (sampleList st room k)).1 := by
  intro k
  induction k with
  | zero => intro st best bestD2; rfl
  | succ k ih =>
    intro st best bestD2
    simp only [farFromLoop, sampleList, List.find?]
    by_cases h : sqrtGE (distSq (getRandomPositionInRoom st room 2).1 fX fY) m = true
    · simp only [h, if_true]
    · simp only [Bool.not_eq_true] at h
      simp only [h, if_false, Bool.false_eq_true, ih, runBest]
  
/-- Claim C8 (amended): `getPositionFarFrom` always returns a position; the
code draws one initial sample plus up to `maxAttempts` further samples, exits
early with the first loop sample meeting `minDistance`, and otherwise returns
the farthest (earliest on ties) of all `1 + maxAttempts` samples, the initial
one included. -/
theorem c8_positionFarFrom (st : GenState) (room : Room) (fX fY m : Rat)
    (maxAttempts : Nat) :
    ((getPositionFarFrom st room fX fY m maxAttempts).1.isSome = true) ∧
    (getPositionFarFrom st room fX fY m maxAttempts).1 =
      (match (sampleList (getRandomPositionInRoom st room 2).2 room
                maxAttempts).find? (fun p => sqrtGE (distSq p fX fY) m) with
       | some p => some p
       | none =>
         farthestOf fX fY
           ((getRandomPositionInRoom st room 2).1 ::
             sampleList (getRandomPositionInRoom st room 2).2 room maxAttempts)) := by
  have hch := farFromLoop_spec room fX fY m maxAttempts
    (getRandomPositionInRoom st room 2).2 (getRandomPositionInRoom st room 2).1
    (distSq (getRandomPositionInRoom st room 2).1 fX fY)
  constructor
  · show (farFromLoop room fX fY m maxAttempts _ _ _).1.isSome = true
    rw [hch]
    split
    · rfl
    · rfl
  · show (farFromLoop room fX fY m maxAttempts _ _ _).1 = _
    rw [hch]
    rfl


lemma overlapPair_symm (s : Int) (a b : Room) : overlapPair s a b = overlapPair s b a := by
  unfold overlapPair
  by_cases h1 : a.x - s < b.x + b.width <;>
    by_cases h2 : a.x + a.width + s > b.x <;>
    by_cases h3 : a.y - s < b.y + b.height <;>
    by_cases h4 : a.y + a.height + s > b.y <;>
    by_cases h5 : b.x - s < a.x + a.width <;>
    by_cases h6 : b.x + b.width + s > a.x <;>
    by_cases h7 : b.y - s < a.y + a.height <;>
    by_cases h8 : b.y + b.height + s > a.y <;>
    simp [h1, h2, h3, h4, h5, h6, h7, h8] <;> omega

lemma generateRoomsAux_ids (fuel : Nat) : ∀ (st : GenState) (a : Nat),
    List.Pairwise (· < ·) (st.rooms.map Room.id) →
    (∀ r ∈ st.rooms, r.id < st.roomIdCounter) →
    List.Pairwise (· < ·) ((generateRoomsAux st fuel a).1.rooms.map Room.id) ∧
    (∀ r ∈ (generateRoomsAux st fuel a).1.rooms,
      r.id < (generateRoomsAux st fuel a).1.roomIdCounter) := by
  induction fuel with
  | zero => intro st a h1 h2; exact ⟨h1, h2⟩
  | succ f ih =>
    intro st a h1 h2
    rw [generateRoomsAux_succ]
    split
    · obtain ⟨hr, -, -, hcnt, -⟩ := createRandomRoom_snd st
      obtain ⟨hid, -, -⟩ := createRandomRoom_fst st
      split
      · exact ih ((createRandomRoom st).2) (a + 1) (by rw [hr]; exact h1)
          (by intro r hmem
              rw [hcnt]
              rw [hr] at hmem
              exact Nat.lt_succ_of_lt (h2 r hmem))
      · refine ih _ (a + 1) ?_ ?_
        · show List.Pairwise (· < ·)
            (((createRandomRoom st).2.rooms ++ [(createRandomRoom st).1]).map Room.id)
          rw [List.map_append, List.pairwise_append]
          refine ⟨by rw [hr]; exact h1, by simp, ?_⟩
          intro x hx y hy
          rw [hr] at hx
          simp only [List.map_cons, List.map_nil, List.mem_singleton] at hy
          obtain ⟨r, hrmem, rfl⟩ := List.mem_map.mp hx
          rw [hy, hid]
          exact h2 r hrmem
        · show ∀ r ∈ (createRandomRoom st).2.rooms ++ [(createRandomRoom st).1], _
          intro r hmem
          show r.id < ({ (createRandomRoom st).2 with
            rooms := (createRandomRoom st).2.rooms ++ [(createRandomRoom st).1] }).roomIdCounter
          rcases List.mem_append.mp hmem with hmem | hmem
          · rw [hr] at hmem
            have : ({ (createRandomRoom st).2 with
                rooms := (createRandomRoom st).2.rooms ++ [(createRandomRoom st).1] }).roomIdCounter
                = st.roomIdCounter + 1 := hcnt
            rw [this]
            exact Nat.lt_succ_of_lt (h2 r hmem)
          · simp only [List.mem_singleton] at hmem
            subst hmem
            have : ({ (createRandomRoom st).2 with
                rooms := (createRandomRoom st).2.rooms ++ [(createRandomRoom st).1] }).roomIdCounter
                = st.roomIdCounter + 1 := hcnt
            rw [this, hid]
            exact Nat.lt_succ_self _
    · exact ⟨h1, h2⟩

lemma generateRoomsAux_no_overlap (fuel : Nat) (sp : Int) : ∀ (st : GenState) (a : Nat),
    (st.cfg.roomSpacing : Int) = sp →
    st.rooms.Pairwise (fun x y => overlapPair sp x y = false) →
    (generateRoomsAux st fuel a).1.rooms.Pairwise
      (fun x y => overlapPair sp x y = false) := by
  induction fuel with
  | zero => intro st a _ h; exact h
  | succ f ih =>
    intro st a hsp h
    rw [generateRoomsAux_succ]
    split
    · obtain ⟨hr, -, -, -, hcfg⟩ := createRandomRoom_snd st
      split
      · exact ih _ (a + 1) (by rw [hcfg]; exact hsp) (by rw [hr]; exact h)
      · next hnov =>
        refine ih _ (a + 1)
          (by show ((createRandomRoom st).2.cfg.roomSpacing : Int) = sp
              rw [hcfg]; exact hsp) ?_
        show ((createRandomRoom st).2.rooms ++ [(createRandomRoom st).1]).Pairwise _
        rw [List.pairwise_append]
        refine ⟨by rw [hr]; exact h, by simp, ?_⟩
        intro x hx y hy
        simp only [List.mem_singleton] at hy
        subst hy
        rw [overlapPair_symm]
        have hfalse : hasOverlap (createRandomRoom st).2 (createRandomRoom st).1 = false := by
          simpa using hnov
        unfold hasOverlap at hfalse
        rw [List.any_eq_false] at hfalse
        have := hfalse x hx
        rw [hcfg, hsp] at this
        simpa using this
    · exact h

lemma generateRoomsAux_types (fuel : Nat) : ∀ (st : GenState) (a : Nat),
    (∀ r ∈ st.rooms, r.type = RoomType.COMBAT) →
    ∀ r ∈ (generateRoomsAux st fuel a).1.rooms, r.type = RoomType.COMBAT := by
  induction fuel with
  | zero => intro st a h; exact h
  | succ f ih =>
    intro st a h
    rw [generateRoomsAux_succ]
    split
    · obtain ⟨hr, -, -, -, -⟩ := createRandomRoom_snd st
      obtain ⟨-, hty, -⟩ := createRandomRoom_fst st
      split
      · exact ih _ (a + 1) (by rw [hr]; exact h)
      · refine ih _ (a + 1) ?_
        show ∀ r ∈ (createRandomRoom st).2.rooms ++ [(createRandomRoom st).1], _
        intro r hmem
        rcases List.mem_append.mp hmem with hmem | hmem
        · rw [hr] at hmem; exact h r hmem
        · simp only [List.mem_singleton] at hmem; subst hmem; exact hty
    · exact h

lemma placedRooms_ids_pairwise (cfg : Config) :
    List.Pairwise (· < ·) ((placedRooms cfg).map Room.id) :=
  (generateRoomsAux_ids (cfg.roomCount * 10)
    { mkGenerator cfg with rooms := [], roomIdCounter := 0 } 0
    (by simp) (by simp)).1

lemma placedRooms_ids_nodup (cfg : Config) :
    ((placedRooms cfg).map Room.id).Nodup :=
  (placedRooms_ids_pairwise cfg).imp Nat.ne_of_lt

lemma placedRooms_no_overlap (cfg : Config) :
    (placedRooms cfg).Pairwise
      (fun x y => overlapPair (cfg.roomSpacing : Int) x y = false) :=
  generateRoomsAux_no_overlap (cfg.roomCount * 10) (cfg.roomSpacing : Int)
    { mkGenerator cfg with rooms := [], roomIdCounter := 0 } 0 rfl (by simp)

lemma placedRooms_combat (cfg : Config) :
    ∀ r ∈ placedRooms cfg, r.type = RoomType.COMBAT :=
  generateRoomsAux_types (cfg.roomCount * 10)
    { mkGenerator cfg with rooms := [], roomIdCounter := 0 } 0 (by simp)

lemma placedRooms_id_lt_counter (cfg : Config) :
    ∀ r ∈ placedRooms cfg, r.id < (pipeRooms cfg).roomIdCounter :=
  (generateRoomsAux_ids (cfg.roomCount * 10)
    { mkGenerator cfg with rooms := [], roomIdCounter := 0 } 0
    (by simp) (by simp)).2


lemma nodup_subset_length {l1 l2 : List Nat} (h1 : l1.Nodup) (h2 : ∀ x ∈ l1, x ∈ l2) :
    l1.length ≤ l2.length := by
  calc l1.length = l1.toFinset.card := (List.toFinset_card_of_nodup h1).symm
    _ ≤ l2.toFinset.card := Finset.card_le_card (by
        intro x hx
        simp only [List.mem_toFinset] at *
        exact h2 x hx)
    _ ≤ l2.length := l2.toFinset_card_le

lemma nodup_subset_full {l1 l2 : List Nat} (h1 : l1.Nodup) (h2 : l2.Nodup)
    (h3 : ∀ x ∈ l1, x ∈ l2) (h4 : l2.length ≤ l1.length) : ∀ x ∈ l2, x ∈ l1 := by
  have hfin : l1.toFinset = l2.toFinset := by
    apply Finset.eq_of_subset_of_card_le
    · intro x hx
      simp only [List.mem_toFinset] at *
      exact h3 x hx
    · rw [List.toFinset_card_of_nodup h1, List.toFinset_card_of_nodup h2]
      exact h4
  intro x hx
  have : x ∈ l1.toFinset := hfin ▸ List.mem_toFinset.2 hx
  exact List.mem_toFinset.1 this

lemma mem_triEdges (rooms : List Room) (e : Edge) :
    e ∈ triEdges rooms ↔ e ∈ roomPairs rooms := by
  unfold triEdges
  exact (List.perm_insertionSort _ _).mem_iff

lemma triEdges_sorted (rooms : List Room) :
    (triEdges rooms).Sorted (fun a b : Edge => a.weight ≤ b.weight) := by
  unfold triEdges
  haveI : IsTotal Edge (fun a b : Edge => a.weight ≤ b.weight) :=
    ⟨fun a b => le_total _ _⟩
  haveI : IsTrans Edge (fun a b : Edge => a.weight ≤ b.weight) :=
    ⟨fun _ _ _ h1 h2 => le_trans h1 h2⟩
  exact List.sorted_insertionSort _ _

lemma roomPairs_endpoints (rooms : List Room) :
    ∀ e ∈ roomPairs rooms, ∃ r1, r1 ∈ rooms ∧ ∃ r2, r2 ∈ rooms ∧ e = mkEdge r1 r2 := by
  induction rooms with
  | nil => intro e he; simp [roomPairs] at he
  | cons r rs ih =>
    intro e he
    simp only [roomPairs, List.mem_append] at he
    rcases he with he | he
    · obtain ⟨r2, hr2, rfl⟩ := List.mem_map.mp he
      exact ⟨r, by simp, r2, by simp [hr2], rfl⟩
    · obtain ⟨r1, h1, r2, h2, rfl⟩ := ih e he
      exact ⟨r1, by simp [h1], r2, by simp [h2], rfl⟩

lemma roomPairs_complete (rooms : List Room) :
    ∀ r1 ∈ rooms, ∀ r2 ∈ rooms, r1.id ≠ r2.id →
    ∃ e ∈ roomPairs rooms,
      (e.room1Id = r1.id ∧ e.room2Id = r2.id) ∨
      (e.room1Id = r2.id ∧ e.room2Id = r1.id) := by
  induction rooms with
  | nil => intro r1 h; simp at h
  | cons r rs ih =>
    intro r1 h1 r2 h2 hne
    simp only [List.mem_cons] at h1 h2
    rcases h1 with rfl | h1
    · rcases h2 with rfl | h2
      · exact absurd rfl hne
      · exact ⟨mkEdge r1 r2,
          by simp only [roomPairs, List.mem_append];
             exact Or.inl (List.mem_map_of_mem _ h2),
          Or.inl ⟨rfl, rfl⟩⟩
    · rcases h2 with rfl | h2
      · exact ⟨mkEdge r2 r1,
          by simp only [roomPairs, List.mem_append];
             exact Or.inl (List.mem_map_of_mem _ h1),
          Or.inr ⟨rfl, rfl⟩⟩
      · obtain ⟨e, he, hor⟩ := ih r1 h1 r2 h2 hne
        exact ⟨e, by simp only [roomPairs, List.mem_append]; exact Or.inr he, hor⟩

lemma scanMinEdge_cases (visited : List Nat) (acc : Option Edge) (a : Edge) :
    scanMinEdge visited acc a = acc ∨
    (scanMinEdge visited acc a = some a ∧ crossEdge visited a = true) := by
  unfold scanMinEdge
  by_cases hc : crossEdge visited a = true
  · rw [if_pos hc]
    cases acc with
    | none => exact Or.inr ⟨rfl, hc⟩
    | some m =>
      by_cases hw : a.weight < m.weight
      · exact Or.inr ⟨by simp [hw], hc⟩
      · exact Or.inl (by simp [hw])
  · rw [if_neg hc]; exact Or.inl rfl

lemma scanMinEdge_isSome (visited : List Nat) (acc : Option Edge) (a : Edge)
    (h : acc.isSome = true) : (scanMinEdge visited acc a).isSome = true := by
  rcases scanMinEdge_cases visited acc a with hc | ⟨hc, -⟩
  · rw [hc]; exact h
  · rw [hc]; rfl

lemma scan_fold_sound (visited : List Nat) :
    ∀ (edges : List Edge) (acc : Option Edge),
    (∀ m, acc = some m → crossEdge visited m = true) →
    ∀ e, edges.foldl (scanMinEdge visited) acc = some e →
      crossEdge visited e = true ∧ (acc = some e ∨ e ∈ edges) := by
  intro edges
  induction edges with
  | nil => intro acc hacc e he; exact ⟨hacc e he, Or.inl he⟩
  | cons a rest ih =>
    intro acc hacc e he
    simp only [List.foldl_cons] at he
    have hacc2 : ∀ m, scanMinEdge visited acc a = some m → crossEdge visited m = true := by
      intro m hm
      rcases scanMinEdge_cases visited acc a with hc | ⟨hc, hcr⟩
      · rw [hc] at hm; exact hacc m hm
      · rw [hc] at hm; cases hm; exact hcr
    obtain ⟨hcr, hor⟩ := ih (scanMinEdge visited acc a) hacc2 e he
    refine ⟨hcr, ?_⟩
    rcases hor with hor | hor
    · rcases scanMinEdge_cases visited acc a with hc | ⟨hc, -⟩
      · rw [hc] at hor; exact Or.inl hor
      · rw [hc] at hor
        cases hor
        exact Or.inr (by simp)
    · exact Or.inr (by simp [hor])

lemma scan_fold_some (visited : List Nat) :
    ∀ (edges : List Edge) (acc : Option Edge), acc.isSome = true →
    (edges.foldl (scanMinEdge visited) acc).isSome = true := by
  intro edges
  induction edges with
  | nil => intro acc h; exact h
  | cons a rest ih =>
    intro acc h
    simp only [List.foldl_cons]
    exact ih _ (scanMinEdge_isSome visited acc a h)

lemma findMinEdge_sound (edges : List Edge) (visited : List Nat) (e : Edge)
    (h : findMinEdge edges visited = some e) :
    crossEdge visited e = true ∧ e ∈ edges := by
  obtain ⟨h1, h2⟩ := scan_fold_sound visited edges none (by intro m hm; cases hm) e h
  refine ⟨h1, ?_⟩
  rcases h2 with h2 | h2
  · cases h2
  · exact h2

lemma findMinEdge_complete (visited : List Nat) :
    ∀ (edges : List Edge) (acc : Option Edge) (e : Edge), e ∈ edges →
    crossEdge visited e = true →
    (edges.foldl (scanMinEdge visited) acc).isSome = true := by
  intro edges
  induction edges with
  | nil => intro acc e he; simp at he
  | cons a rest ih =>
    intro acc e he hcr
    simp only [List.foldl_cons]
    rcases List.mem_cons.mp he with rfl | he
    · apply scan_fold_some
      unfold scanMinEdge
      rw [if_pos hcr]
      cases acc with
      | none => rfl
      | some m => by_cases hw : e.weight < m.weight <;> simp [hw]
    · exact ih _ e he hcr

lemma setAdd_mem (s : List Nat) (x y : Nat) : y ∈ setAdd s x ↔ y ∈ s ∨ y = x := by
  unfold setAdd
  by_cases h : x ∈ s
  · rw [if_pos h]
    constructor
    · exact Or.inl
    · rintro (hy | rfl)
      · exact hy
      · exact h
  · rw [if_neg h]
    simp

lemma setAdd_nodup (s : List Nat) (x : Nat) (h : s.Nodup) : (setAdd s x).Nodup := by
  unfold setAdd
  by_cases hx : x ∈ s
  · rw [if_pos hx]; exact h
  · rw [if_neg hx]
    rw [List.nodup_append]
    refine ⟨h, List.nodup_singleton x, ?_⟩
    intro a ha hb
    simp only [List.mem_singleton] at hb
    subst hb
    exact hx ha

lemma setAdd_mem_eq (s : List Nat) (x : Nat) (h : x ∈ s) : setAdd s x = s := by
  unfold setAdd; rw [if_pos h]

lemma setAdd_not_mem_eq (s : List Nat) (x : Nat) (h : x ∉ s) :
    setAdd s x = s ++ [x] := by
  unfold setAdd; rw [if_neg h]

lemma ReachE_mono {E E2 : List Edge} (h : ∀ e ∈ E, e ∈ E2) {a b : Nat}
    (hr : ReachE E a b) : ReachE E2 a b := by
  induction hr with
  | refl => exact ReachE.refl _
  | step e hab he hco ih => exact ReachE.step e ih (h e he) hco


lemma primAux_zero (edges : List Edge) (n : Nat) (visited : List Nat) (mst : List Edge) :
    primAux edges n 0 visited mst = (mst, visited) := rfl

lemma primAux_succ (edges : List Edge) (n fuel : Nat) (visited : List Nat)
    (mst : List Edge) :
    primAux edges n (fuel + 1) visited mst =
      if visited.length < n then
        match findMinEdge edges visited with
        | none => (mst, visited)
        | some e =>
          primAux edges n fuel (setAdd (setAdd visited e.room1Id) e.room2Id) (mst ++ [e])
      else (mst, visited) := rfl

lemma primAux_spec (edges : List Edge) (ids : List Nat) (root : Nat)
    (hcomplete : ∀ x ∈ ids, ∀ y ∈ ids, x ≠ y →
      ∃ e ∈ edges, (e.room1Id = x ∧ e.room2Id = y) ∨ (e.room1Id = y ∧ e.room2Id = x))
    (hendpoints : ∀ e ∈ edges, e.room1Id ∈ ids ∧ e.room2Id ∈ ids)
    (hidnd : ids.Nodup) :
    ∀ (fuel : Nat) (visited : List Nat) (mst : List Edge),
    visited.Nodup → (∀ v ∈ visited, v ∈ ids) → root ∈ visited →
    (∀ v ∈ visited, ReachE mst root v) →
    mst.length + 1 = visited.length →
    (∀ e ∈ mst, e ∈ edges) →
    ids.length ≤ fuel + visited.length →
    (∀ i ∈ ids, i ∈ (primAux edges ids.length fuel visited mst).2) ∧
    (primAux edges ids.length fuel visited mst).1.length + 1 = ids.length ∧
    (∀ v ∈ (primAux edges ids.length fuel visited mst).2,
      ReachE (primAux edges ids.length fuel visited mst).1 root v) ∧
    (∀ e ∈ (primAux edges ids.length fuel visited mst).1, e ∈ edges) := by
  intro fuel
  induction fuel with
  | zero =>
    intro visited mst hnd hsub hroot hreach hlen hmst hfuel
    rw [primAux_zero]
    have heq : ∀ i ∈ ids, i ∈ visited :=
      nodup_subset_full hnd hidnd hsub (by omega)
    have hvl : visited.length ≤ ids.length := nodup_subset_length hnd hsub
    exact ⟨heq, by show mst.length + 1 = ids.length; omega, hreach, hmst⟩
  | succ f ih =>
    intro visited mst hnd hsub hroot hreach hlen hmst hfuel
    rw [primAux_succ]
    by_cases hlt : visited.length < ids.length
    · rw [if_pos hlt]
      -- a crossing edge exists, so findMinEdge returns one
      have hmiss : ∃ y ∈ ids, y ∉ visited := by
        by_contra hno
        push_neg at hno
        have := nodup_subset_length hidnd hno
        omega
      obtain ⟨y, hy, hyv⟩ := hmiss
      have hxy : root ≠ y := fun h => hyv (h ▸ hroot)
      obtain ⟨e0, he0, hor0⟩ := hcomplete root (hsub root hroot) y hy hxy
      have hcr0 : crossEdge visited e0 = true := by
        unfold crossEdge
        rcases hor0 with ⟨h1, h2⟩ | ⟨h1, h2⟩ <;>
          simp [h1, h2, hroot, hyv]
      have hsome : (findMinEdge edges visited).isSome = true :=
        findMinEdge_complete visited edges none e0 he0 hcr0
      obtain ⟨e, he⟩ := Option.isSome_iff_exists.mp hsome
      rw [he]
      obtain ⟨hcr, hee⟩ := findMinEdge_sound edges visited e he
      obtain ⟨hep1, hep2⟩ := hendpoints e hee
      -- the crossing edge has exactly one endpoint in the visited set
      unfold crossEdge at hcr
      have hcases : (e.room1Id ∈ visited ∧ e.room2Id ∉ visited) ∨
          (e.room1Id ∉ visited ∧ e.room2Id ∈ visited) := by
        by_cases h1 : e.room1Id ∈ visited <;> by_cases h2 : e.room2Id ∈ visited <;>
          simp [h1, h2] at hcr ⊢
      have key : ∀ (vis2 : List Nat), vis2 = setAdd (setAdd visited e.room1Id) e.room2Id →
          vis2.Nodup → (∀ v ∈ vis2, v ∈ ids) → root ∈ vis2 →
          (∀ v ∈ vis2, ReachE (mst ++ [e]) root v) →
          (mst ++ [e]).length + 1 = vis2.length →
          ids.length ≤ f + vis2.length →
          (∀ i ∈ ids, i ∈ (primAux edges ids.length f vis2 (mst ++ [e])).2) ∧
          (primAux edges ids.length f vis2 (mst ++ [e])).1.length + 1 = ids.length ∧
          (∀ v ∈ (primAux edges ids.length f vis2 (mst ++ [e])).2,
            ReachE (primAux edges ids.length f vis2 (mst ++ [e])).1 root v) ∧
          (∀ e2 ∈ (primAux edges ids.length f vis2 (mst ++ [e])).1, e2 ∈ edges) := by
        intro vis2 hv2 a1 a2 a3 a4 a5 a6
        subst hv2
        exact ih _ _ a1 a2 a3 a4 a5
          (by intro e2 he2
              rcases List.mem_append.mp he2 with h | h
              · exact hmst e2 h
              · simp only [List.mem_singleton] at h; subst h; exact hee) a6
      rcases hcases with ⟨h1, h2⟩ | ⟨h1, h2⟩
      · have hv2 : setAdd (setAdd visited e.room1Id) e.room2Id = visited ++ [e.room2Id] := by
          rw [setAdd_mem_eq _ _ h1, setAdd_not_mem_eq _ _ h2]
        refine key _ rfl ?_ ?_ ?_ ?_ ?_ ?_
        · rw [hv2]
          rw [List.nodup_append]
          exact ⟨hnd, List.nodup_singleton _, by
            intro a ha hb
            simp only [List.mem_singleton] at hb
            subst hb
            exact h2 ha⟩
        · rw [hv2]
          intro v hv
          rcases List.mem_append.mp hv with h | h
          · exact hsub v h
          · simp only [List.mem_singleton] at h; subst h; exact hep2
        · rw [hv2]; exact List.mem_append.mpr (Or.inl hroot)
        · rw [hv2]
          intro v hv
          rcases List.mem_append.mp hv with h | h
          · exact ReachE_mono (fun x hx => List.mem_append.mpr (Or.inl hx)) (hreach v h)
          · simp only [List.mem_singleton] at h
            subst h
            exact ReachE.step e
              (ReachE_mono (fun x hx => List.mem_append.mpr (Or.inl hx))
                (hreach e.room1Id h1))
              (List.mem_append.mpr (Or.inr (by simp)))
              (Or.inl ⟨rfl, rfl⟩)
        · rw [hv2]; simp only [List.length_append, List.length_cons, List.length_nil]; omega
        · rw [hv2]; simp only [List.length_append, List.length_cons, List.length_nil]; omega
      · have hv2 : setAdd (setAdd visited e.room1Id) e.room2Id = visited ++ [e.room1Id] := by
          rw [setAdd_not_mem_eq _ _ h1]
          apply setAdd_mem_eq
          exact List.mem_append.mpr (Or.inl h2)
        refine key _ rfl ?_ ?_ ?_ ?_ ?_ ?_
        · rw [hv2]
          rw [List.nodup_append]
          exact ⟨hnd, List.nodup_singleton _, by
            intro a ha hb
            simp only [List.mem_singleton] at hb
            subst hb
            exact h1 ha⟩
        · rw [hv2]
          intro v hv
          rcases List.mem_append.mp hv with h | h
          · exact hsub v h
          · simp only [List.mem_singleton] at h; subst h; exact hep1
        · rw [hv2]; exact List.mem_append.mpr (Or.inl hroot)
        · rw [hv2]
          intro v hv
          rcases List.mem_append.mp hv with h | h
          · exact ReachE_mono (fun x hx => List.mem_append.mpr (Or.inl hx)) (hreach v h)
          · simp only [List.mem_singleton] at h
            subst h
            exact ReachE.step e
              (ReachE_mono (fun x hx => List.mem_append.mpr (Or.inl hx))
                (hreach e.room2Id h2))
              (List.mem_append.mpr (Or.inr (by simp)))
              (Or.inr ⟨rfl, rfl⟩)
        · rw [hv2]; simp only [List.length_append, List.length_cons, List.length_nil]; omega
        · rw [hv2]; simp only [List.length_append, List.length_cons, List.length_nil]; omega
    · rw [if_neg hlt]
      have hvl : visited.length ≤ ids.length := nodup_subset_length hnd hsub
      have heq : ∀ i ∈ ids, i ∈ visited :=
        nodup_subset_full hnd hidnd hsub (by omega)
      exact ⟨heq, by show mst.length + 1 = ids.length; omega, hreach, hmst⟩


lemma mstEdges_spec (rooms : List Room) (r0 : Room) (rest : List Room)
    (hrooms : rooms = r0 :: rest) (hnd : (rooms.map Room.id).Nodup) :
    (mstEdges rooms).length + 1 = rooms.length ∧
    (∀ r ∈ rooms, ReachE (mstEdges rooms) r0.id r.id) ∧
    (∀ e ∈ mstEdges rooms, e ∈ triEdges rooms) := by
  subst hrooms
  have hlenids : ((r0 :: rest).map Room.id).length = (r0 :: rest).length :=
    List.length_map _ _
  have hcomp : ∀ x ∈ (r0 :: rest).map Room.id, ∀ y ∈ (r0 :: rest).map Room.id, x ≠ y →
      ∃ e ∈ triEdges (r0 :: rest),
        (e.room1Id = x ∧ e.room2Id = y) ∨ (e.room1Id = y ∧ e.room2Id = x) := by
    intro x hx y hy hxy
    obtain ⟨rx, hrx, rfl⟩ := List.mem_map.mp hx
    obtain ⟨ry, hry, rfl⟩ := List.mem_map.mp hy
    obtain ⟨e, he, hor⟩ := roomPairs_complete (r0 :: rest) rx hrx ry hry hxy
    exact ⟨e, (mem_triEdges _ e).mpr he, hor⟩
  have hend : ∀ e ∈ triEdges (r0 :: rest),
      e.room1Id ∈ (r0 :: rest).map Room.id ∧ e.room2Id ∈ (r0 :: rest).map Room.id := by
    intro e he
    obtain ⟨r1, h1, r2, h2, rfl⟩ :=
      roomPairs_endpoints (r0 :: rest) e ((mem_triEdges _ e).mp he)
    exact ⟨List.mem_map_of_mem _ h1, List.mem_map_of_mem _ h2⟩
  have hroot : r0.id ∈ (r0 :: rest).map Room.id := by simp
  have hspec := primAux_spec (triEdges (r0 :: rest)) ((r0 :: rest).map Room.id) r0.id
    hcomp hend hnd
    (r0 :: rest).length [r0.id] []
    (List.nodup_singleton _)
    (by intro v hv; simp only [List.mem_singleton] at hv; subst hv; exact hroot)
    (by simp)
    (by intro v hv; simp only [List.mem_singleton] at hv; subst hv; exact ReachE.refl _)
    (by simp)
    (by intro e he; cases he)
    (by rw [hlenids]; omega)
  rw [hlenids] at hspec
  have hmst : mstEdges (r0 :: rest) =
      (primAux (triEdges (r0 :: rest)) (r0 :: rest).length (r0 :: rest).length
        [r0.id] []).1 := rfl
  obtain ⟨hall, hcnt, hreach, hsub⟩ := hspec
  refine ⟨by rw [hmst]; exact hcnt, ?_, by rw [hmst]; exact hsub⟩
  intro r hr
  rw [hmst]
  exact hreach r.id (hall r.id (List.mem_map_of_mem _ hr))

lemma graphGet_cons (e : Nat × List Nat) (g : List (Nat × List Nat)) (k : Nat) :
    graphGet (e :: g) k = if e.1 = k then e.2 else graphGet g k := by
  unfold graphGet
  by_cases h : e.1 = k
  · rw [List.find?_cons_of_pos _ (by simpa using h), if_pos h]
  · rw [List.find?_cons_of_neg _ (by simpa using h), if_neg h]

lemma graphHas_cons (e : Nat × List Nat) (g : List (Nat × List Nat)) (k : Nat) :
    graphHas (e :: g) k = if e.1 = k then true else graphHas g k := by
  unfold graphHas
  by_cases h : e.1 = k
  · rw [List.find?_cons_of_pos _ (by simpa using h), if_pos h]
    rfl
  · rw [List.find?_cons_of_neg _ (by simpa using h), if_neg h]

lemma graphHas_iff (g : List (Nat × List Nat)) (k : Nat) :
    graphHas g k = true ↔ k ∈ g.map Prod.fst := by
  induction g with
  | nil => simp [graphHas]
  | cons e rest ih =>
    rw [graphHas_cons]
    by_cases h : e.1 = k
    · simp [h]
    · simp only [if_neg h, ih, List.map_cons, List.mem_cons]
      constructor
      · exact Or.inr
      · rintro (hc | hc)
        · exact absurd hc.symm h
        · exact hc

lemma graphGet_push_self (g : List (Nat × List Nat)) (k x : Nat)
    (h : graphHas g k = true) :
    graphGet (graphPush g k x) k = graphGet g k ++ [x] := by
  induction g with
  | nil => simp [graphHas] at h
  | cons e rest ih =>
    rw [graphHas_cons] at h
    by_cases hk : e.1 = k
    · simp [graphPush, hk, graphGet_cons]
    · rw [if_neg hk] at h
      simp only [graphPush, if_neg hk, graphGet_cons, if_neg hk]
      exact ih h

lemma graphGet_push_other (g : List (Nat × List Nat)) (k x j : Nat) (h : j ≠ k) :
    graphGet (graphPush g k x) j = graphGet g j := by
  induction g with
  | nil => rfl
  | cons e rest ih =>
    by_cases hk : e.1 = k
    · simp only [graphPush, if_pos hk, graphGet_cons]
      rw [if_neg (fun hc => h (by rw [← hc, hk])),
        if_neg (fun hc => h (by rw [← hc, hk]))]
    · simp only [graphPush, if_neg hk, graphGet_cons]
      by_cases hj : e.1 = j
      · rw [if_pos hj, if_pos hj]
      · rw [if_neg hj, if_neg hj]
        exact ih

lemma graphPush_fresh (g : List (Nat × List Nat)) (k x : Nat)
    (h : graphHas g k = false) : graphPush g k x = g := by
  induction g with
  | nil => rfl
  | cons e rest ih =>
    rw [graphHas_cons] at h
    by_cases hk : e.1 = k
    · rw [if_pos hk] at h
      exact absurd h (by simp)
    · rw [if_neg hk] at h
      simp only [graphPush, if_neg hk]
      rw [ih h]

lemma graphGet_push_sub (g : List (Nat × List Nat)) (k x j : Nat) :
    graphGet g j ⊆ graphGet (graphPush g k x) j := by
  by_cases hj : j = k
  · subst hj
    by_cases h : graphHas g j = true
    · rw [graphGet_push_self g j x h]
      exact fun a ha => List.mem_append.mpr (Or.inl ha)
    · rw [graphPush_fresh g j x (by simpa using h)]
      exact fun a ha => ha
  · rw [graphGet_push_other g k x j hj]
    exact fun a ha => ha

lemma graphHas_push (g : List (Nat × List Nat)) (k x j : Nat) :
    graphHas (graphPush g k x) j = graphHas g j := by
  induction g with
  | nil => rfl
  | cons e rest ih =>
    by_cases hk : e.1 = k
    · simp only [graphPush, if_pos hk, graphHas_cons]
    · simp only [graphPush, if_neg hk, graphHas_cons]
      by_cases hj : e.1 = j
      · rw [if_pos hj, if_pos hj]
      · rw [if_neg hj, if_neg hj]
        exact ih

lemma graphHas_set (g : List (Nat × List Nat)) (k : Nat) (v : List Nat) (j : Nat) :
    graphHas (graphSet g k v) j = (graphHas g j || decide (j = k)) := by
  induction g with
  | nil =>
    unfold graphSet
    rw [graphHas_cons]
    by_cases hj : k = j
    · subst hj; simp
    · rw [if_neg hj]
      simp [graphHas]
      exact fun hc => hj hc.symm
  | cons e rest ih =>
    by_cases hk : e.1 = k
    · unfold graphSet
      rw [if_pos hk, graphHas_cons, graphHas_cons]
      by_cases hj : k = j
      · subst hj
        rw [if_pos rfl, if_pos hk]
        simp
      · rw [if_neg hj]
        by_cases hej : e.1 = j
        · exact absurd (hk ▸ hej) hj
        · rw [if_neg hej]
          have hd : decide (j = k) = false := by
            simp only [decide_eq_false_iff_not]
            exact fun hc => hj hc.symm
          rw [hd, Bool.or_false]
    · unfold graphSet
      rw [if_neg hk, graphHas_cons, graphHas_cons]
      by_cases hej : e.1 = j
      · rw [if_pos hej, if_pos hej]
        simp
      · rw [if_neg hej, if_neg hej]
        exact ih

lemma graphGet_set_other (g : List (Nat × List Nat)) (k : Nat) (v : List Nat)
    (j : Nat) (h : j ≠ k) : graphGet (graphSet g k v) j = graphGet g j := by
  induction g with
  | nil =>
    unfold graphSet
    rw [graphGet_cons, if_neg (fun hc : k = j => h hc.symm)]
  | cons e rest ih =>
    by_cases hk : e.1 = k
    · unfold graphSet
      rw [if_pos hk, graphGet_cons, graphGet_cons,
        if_neg (fun hc : k = j => h hc.symm),
        if_neg (fun hc : e.1 = j => h (hk ▸ hc).symm)]
    · unfold graphSet
      rw [if_neg hk, graphGet_cons, graphGet_cons]
      by_cases hej : e.1 = j
      · rw [if_pos hej, if_pos hej]
      · rw [if_neg hej, if_neg hej]
        exact ih

lemma graphGet_set_fresh (g : List (Nat × List Nat)) (k : Nat) (v : List Nat)
    (h : graphHas g k = false) : graphGet (graphSet g k v) k = v := by
  induction g with
  | nil =>
    unfold graphSet
    rw [graphGet_cons, if_pos rfl]
  | cons e rest ih =>
    rw [graphHas_cons] at h
    by_cases hk : e.1 = k
    · rw [if_pos hk] at h
      exact absurd h (by simp)
    · rw [if_neg hk] at h
      unfold graphSet
      rw [if_neg hk, graphGet_cons, if_neg hk]
      exact ih h


lemma foldl_pres {α β : Type} (P : β → Prop) (f : β → α → β) (l : List α) (b : β)
    (hb : P b) (hf : ∀ b a, a ∈ l → P b → P (f b a)) : P (l.foldl f b) := by
  induction l generalizing b with
  | nil => exact hb
  | cons x xs ih =>
    exact ih (f b x) (hf b x (List.mem_cons_self _ _) hb)
      (fun b2 a ha => hf b2 a (List.mem_cons_of_mem _ ha))

lemma graphGet_of_not_has (g : List (Nat × List Nat)) (k : Nat)
    (h : graphHas g k = false) : graphGet g k = [] := by
  induction g with
  | nil => rfl
  | cons e rest ih =>
    rw [graphHas_cons] at h
    by_cases hk : e.1 = k
    · rw [if_pos hk] at h
      exact absurd h (by simp)
    · rw [if_neg hk] at h
      rw [graphGet_cons, if_neg hk]
      exact ih h

lemma addEdge_sub (g : List (Nat × List Nat)) (a b j : Nat) :
    graphGet g j ⊆ graphGet (addEdgeToGraph g a b) j := by
  intro x hx
  exact graphGet_push_sub (graphPush g a b) b a j (graphGet_push_sub g a b j hx)

lemma addEdge_has (g : List (Nat × List Nat)) (a b j : Nat) :
    graphHas (addEdgeToGraph g a b) j = graphHas g j := by
  unfold addEdgeToGraph
  rw [graphHas_push, graphHas_push]

lemma addEdge_mem_left (g : List (Nat × List Nat)) (a b : Nat)
    (ha : graphHas g a = true) : b ∈ graphGet (addEdgeToGraph g a b) a := by
  apply graphGet_push_sub (graphPush g a b) b a a
  rw [graphGet_push_self g a b ha]
  simp

lemma addEdge_mem_right (g : List (Nat × List Nat)) (a b : Nat)
    (hb : graphHas g b = true) : a ∈ graphGet (addEdgeToGraph g a b) b := by
  unfold addEdgeToGraph
  rw [graphGet_push_self (graphPush g a b) b a (by rw [graphHas_push]; exact hb)]
  simp

lemma graphGet_addEdges_sub (E : List Edge) (g : List (Nat × List Nat)) (j : Nat) :
    graphGet g j ⊆
      graphGet (E.foldl (fun g2 e => addEdgeToGraph g2 e.room1Id e.room2Id) g) j := by
  induction E generalizing g with
  | nil => exact fun x hx => hx
  | cons e es ih =>
    intro x hx
    exact ih (addEdgeToGraph g e.room1Id e.room2Id) (addEdge_sub g _ _ j hx)

lemma graphHas_addEdges (E : List Edge) (g : List (Nat × List Nat)) (j : Nat) :
    graphHas (E.foldl (fun g2 e => addEdgeToGraph g2 e.room1Id e.room2Id) g) j =
      graphHas g j := by
  induction E generalizing g with
  | nil => rfl
  | cons e es ih =>
    rw [List.foldl_cons, ih, addEdge_has]

lemma addEdges_adj (E : List Edge) (g : List (Nat × List Nat))
    (hkeys : ∀ e ∈ E, graphHas g e.room1Id = true ∧ graphHas g e.room2Id = true) :
    ∀ e ∈ E,
      e.room2Id ∈
        graphGet (E.foldl (fun g2 e2 => addEdgeToGraph g2 e2.room1Id e2.room2Id) g)
          e.room1Id ∧
      e.room1Id ∈
        graphGet (E.foldl (fun g2 e2 => addEdgeToGraph g2 e2.room1Id e2.room2Id) g)
          e.room2Id := by
  induction E generalizing g with
  | nil => intro e he; cases he
  | cons e0 es ih =>
    intro e he
    rcases List.mem_cons.mp he with rfl | he2
    · rw [List.foldl_cons]
      constructor
      · exact graphGet_addEdges_sub es _ _
          (addEdge_mem_left g _ _ (hkeys e (List.mem_cons_self _ _)).1)
      · exact graphGet_addEdges_sub es _ _
          (addEdge_mem_right g _ _ (hkeys e (List.mem_cons_self _ _)).2)
    · rw [List.foldl_cons]
      exact ih (addEdgeToGraph g e0.room1Id e0.room2Id)
        (fun e2 he3 => by
          rw [addEdge_has, addEdge_has]
          exact hkeys e2 (List.mem_cons_of_mem _ he3)) e he2

lemma reachE_to_reachG (E : List Edge) (g : List (Nat × List Nat))
    (hadj : ∀ e ∈ E,
      e.room2Id ∈ graphGet g e.room1Id ∧ e.room1Id ∈ graphGet g e.room2Id)
    {a b : Nat} (h : ReachE E a b) : ReachG g a b := by
  induction h with
  | refl => exact ReachG.refl _
  | step e hab he hco ih =>
    rcases hco with ⟨h1, h2⟩ | ⟨h1, h2⟩
    · exact ReachG.step ih (h1 ▸ h2 ▸ (hadj e he).1)
    · exact ReachG.step ih (h1 ▸ h2 ▸ (hadj e he).2)

lemma reachG_mono {g g2 : List (Nat × List Nat)}
    (h : ∀ k, graphGet g k ⊆ graphGet g2 k) {a b : Nat} (hr : ReachG g a b) :
    ReachG g2 a b := by
  induction hr with
  | refl => exact ReachG.refl _
  | step hab hm ih => exact ReachG.step ih (h _ hm)

lemma graphHas_foldl_set (rooms : List Room) (g : List (Nat × List Nat)) (k : Nat) :
    graphHas (rooms.foldl (fun g2 r => graphSet g2 r.id []) g) k =
      (graphHas g k || decide (k ∈ rooms.map Room.id)) := by
  induction rooms generalizing g with
  | nil => simp
  | cons r rest ih =>
    rw [List.foldl_cons, ih, graphHas_set]
    by_cases h1 : k = r.id <;> by_cases h2 : k ∈ rest.map Room.id <;>
      simp [h1, h2]

lemma graphHas_initGraph (rooms : List Room) (k : Nat) :
    graphHas (initGraph rooms) k = decide (k ∈ rooms.map Room.id) := by
  unfold initGraph
  rw [graphHas_foldl_set]
  rfl

lemma graphHas_builtGraph (cfg : Config) (rooms : List Room) (k : Nat) :
    graphHas (builtGraph cfg rooms) k = decide (k ∈ rooms.map Room.id) := by
  unfold builtGraph
  rw [graphHas_addEdges, graphHas_initGraph]

lemma triEdges_endpoints (rooms : List Room) (e : Edge) (he : e ∈ triEdges rooms) :
    e.room1Id ∈ rooms.map Room.id ∧ e.room2Id ∈ rooms.map Room.id := by
  have := (mem_triEdges rooms e).mp he
  obtain ⟨r1, hr1, r2, hr2, hee⟩ := roomPairs_endpoints rooms e this
  subst hee
  exact ⟨List.mem_map_of_mem _ hr1, List.mem_map_of_mem _ hr2⟩

lemma loopEdges_sub_tri (cfg : Config) (rooms : List Room) :
    ∀ e ∈ loopEdges cfg rooms, e ∈ triEdges rooms := by
  intro e he
  have h1 : e ∈ remainingAfterMST rooms := List.take_subset _ _ he
  exact List.mem_of_mem_filter h1

lemma builtGraph_reach (cfg : Config) (r0 : Room) (rest : List Room)
    (hnd : (((r0 :: rest)).map Room.id).Nodup) :
    ∀ r ∈ r0 :: rest, ReachG (builtGraph cfg (r0 :: rest)) r0.id r.id := by
  obtain ⟨hlen, hreach, hsub⟩ := mstEdges_spec (r0 :: rest) r0 rest rfl hnd
  intro r hr
  have hE : ∀ e ∈ mstEdges (r0 :: rest) ++ loopEdges cfg (r0 :: rest),
      e ∈ triEdges (r0 :: rest) := by
    intro e he
    rcases List.mem_append.mp he with h | h
    · exact hsub e h
    · exact loopEdges_sub_tri cfg (r0 :: rest) e h
  have hkeys : ∀ e ∈ mstEdges (r0 :: rest) ++ loopEdges cfg (r0 :: rest),
      graphHas (initGraph (r0 :: rest)) e.room1Id = true ∧
      graphHas (initGraph (r0 :: rest)) e.room2Id = true := by
    intro e he
    have hep := triEdges_endpoints (r0 :: rest) e (hE e he)
    rw [graphHas_initGraph, graphHas_initGraph]
    exact ⟨by simpa using hep.1, by simpa using hep.2⟩
  have hadj := addEdges_adj _ (initGraph (r0 :: rest)) hkeys
  have hre : ReachE (mstEdges (r0 :: rest) ++ loopEdges cfg (r0 :: rest)) r0.id r.id :=
    ReachE_mono (fun e he => List.mem_append.mpr (Or.inl he)) (hreach r hr)
  exact reachE_to_reachG _ _ hadj hre


unseal lcgNext in
lemma lcgNext_lt (s : Nat) : lcgNext s < 2147483648 :=
  Nat.mod_lt _ (by norm_num)

lemma rng_next_nonneg (r : Rng) : 0 ≤ (Rng.next r).1 := by
  unfold Rng.next
  exact div_nonneg (by positivity) (by norm_num)

lemma rng_next_lt_one (r : Rng) : (Rng.next r).1 < 1 := by
  unfold Rng.next
  rw [div_lt_one (by norm_num)]
  exact_mod_cast lcgNext_lt r.seed

lemma floor_mul_toNat_lt (p : Rat) (n : Nat) (h0 : 0 ≤ p) (h1 : p < 1)
    (hn : 0 < n) : (⌊p * (n : Rat)⌋).toNat < n := by
  have hc : (0 : Rat) < (n : Rat) := by exact_mod_cast hn
  have h2 : p * (n : Rat) < (n : Rat) := by
    calc p * (n : Rat) < 1 * (n : Rat) := mul_lt_mul_of_pos_right h1 hc
    _ = (n : Rat) := one_mul _
  have h3 : ⌊p * (n : Rat)⌋ < (n : Int) := Int.floor_lt.mpr (by exact_mod_cast h2)
  have h4 : 0 ≤ ⌊p * (n : Rat)⌋ := Int.floor_nonneg.mpr (by positivity)
  omega

lemma getD_mem_of_lt {α : Type} (l : List α) (n : Nat) (d : α)
    (h : n < l.length) : l.getD n d ∈ l := by
  rw [List.getD_eq_getElem l d h]
  exact List.getElem_mem h

lemma overlapPair_of_common (s : Int) (hs : 0 ≤ s) (p q : Room) (tx ty : Int)
    (hp : roomContains p tx ty = true) (hq : roomContains q tx ty = true) :
    overlapPair s p q = true := by
  unfold roomContains at hp hq
  unfold overlapPair
  simp only [Bool.and_eq_true, decide_eq_true_eq] at hp hq ⊢
  omega

lemma createCorridor_rooms (st : GenState) (a b : Nat) :
    (createCorridor st a b).rooms = st.rooms := by
  unfold createCorridor
  split
  · dsimp only
    repeat' split
    all_goals rfl
  · rfl

lemma createCorridor_graph (st : GenState) (a b : Nat) :
    (createCorridor st a b).graph = st.graph := by
  unfold createCorridor
  split
  · dsimp only
    repeat' split
    all_goals rfl
  · rfl

lemma createCorridor_cfg (st : GenState) (a b : Nat) :
    (createCorridor st a b).cfg = st.cfg := by
  unfold createCorridor
  split
  · dsimp only
    repeat' split
    all_goals rfl
  · rfl

lemma createCorridor_counter (st : GenState) (a b : Nat) :
    (createCorridor st a b).roomIdCounter = st.roomIdCounter := by
  unfold createCorridor
  split
  · dsimp only
    repeat' split
    all_goals rfl
  · rfl

lemma createCorridor_corridors (st : GenState) (a b : Nat) :
    ∀ c ∈ (createCorridor st a b).corridors,
      c ∈ st.corridors ∨
      (c.room1Id = a ∧ c.room2Id = b ∧
        a ∈ st.rooms.map Room.id ∧ b ∈ st.rooms.map Room.id) := by
  unfold createCorridor
  cases hf1 : st.rooms.find? (fun r => decide (r.id = a)) with
  | none => exact fun c hc => Or.inl hc
  | some room1 =>
    cases hf2 : st.rooms.find? (fun r => decide (r.id = b)) with
    | none => exact fun c hc => Or.inl hc
    | some room2 =>
      have ha : a ∈ st.rooms.map Room.id := by
        have hm := List.mem_of_find?_eq_some hf1
        have hp : room1.id = a := by simpa using List.find?_some hf1
        exact hp ▸ List.mem_map_of_mem Room.id hm
      have hb : b ∈ st.rooms.map Room.id := by
        have hm := List.mem_of_find?_eq_some hf2
        have hp : room2.id = b := by simpa using List.find?_some hf2
        exact hp ▸ List.mem_map_of_mem Room.id hm
      intro c hc
      dsimp only at hc
      repeat' split at hc
      all_goals
        simp only [List.mem_append, List.mem_singleton] at hc
      all_goals
        first
        | exact Or.inl hc
        | (rcases hc with hc | rfl
           · exact Or.inl hc
           · exact Or.inr ⟨rfl, rfl, ha, hb⟩)
        | (rcases hc with (hc | rfl) | rfl
           · exact Or.inl hc
           · exact Or.inr ⟨rfl, rfl, ha, hb⟩
           · exact Or.inr ⟨rfl, rfl, ha, hb⟩)


lemma genCorridorStep_pres (st : GenState)
    (acc : List (Nat × Nat) × GenState) (rid cid : Nat)
    (h : acc.2.rooms = st.rooms ∧ acc.2.graph = st.graph ∧
      acc.2.cfg = st.cfg ∧ acc.2.roomIdCounter = st.roomIdCounter ∧
      ∀ c ∈ acc.2.corridors,
        c.room1Id ∈ st.rooms.map Room.id ∧ c.room2Id ∈ st.rooms.map Room.id) :
    (genCorridorStep acc rid cid).2.rooms = st.rooms ∧
    (genCorridorStep acc rid cid).2.graph = st.graph ∧
    (genCorridorStep acc rid cid).2.cfg = st.cfg ∧
    (genCorridorStep acc rid cid).2.roomIdCounter = st.roomIdCounter ∧
    ∀ c ∈ (genCorridorStep acc rid cid).2.corridors,
      c.room1Id ∈ st.rooms.map Room.id ∧ c.room2Id ∈ st.rooms.map Room.id := by
  obtain ⟨h1, h2, h3, h4, h5⟩ := h
  unfold genCorridorStep
  dsimp only
  split
  · exact ⟨h1, h2, h3, h4, h5⟩
  · refine ⟨?_, ?_, ?_, ?_, ?_⟩
    · rw [createCorridor_rooms]; exact h1
    · rw [createCorridor_graph]; exact h2
    · rw [createCorridor_cfg]; exact h3
    · rw [createCorridor_counter]; exact h4
    · intro c hc
      rcases createCorridor_corridors acc.2 rid cid c hc with hold | ⟨hr1, hr2, hm1, hm2⟩
      · exact h5 c hold
      · rw [h1] at hm1 hm2
        exact ⟨hr1 ▸ hm1, hr2 ▸ hm2⟩

lemma genCorridors_spec (st : GenState) :
    (generateCorridorsFromGraph st).rooms = st.rooms ∧
    (generateCorridorsFromGraph st).graph = st.graph ∧
    (generateCorridorsFromGraph st).cfg = st.cfg ∧
    (generateCorridorsFromGraph st).roomIdCounter = st.roomIdCounter ∧
    ∀ c ∈ (generateCorridorsFromGraph st).corridors,
      c.room1Id ∈ st.rooms.map Room.id ∧ c.room2Id ∈ st.rooms.map Room.id := by
  unfold generateCorridorsFromGraph
  dsimp only
  apply foldl_pres
    (fun (acc : List (Nat × Nat) × GenState) =>
      acc.2.rooms = st.rooms ∧ acc.2.graph = st.graph ∧
      acc.2.cfg = st.cfg ∧ acc.2.roomIdCounter = st.roomIdCounter ∧
      ∀ c ∈ acc.2.corridors,
        c.room1Id ∈ st.rooms.map Room.id ∧ c.room2Id ∈ st.rooms.map Room.id)
  · exact ⟨rfl, rfl, rfl, rfl, by intro c hc; cases hc⟩
  · intro acc entry _ hacc
    apply foldl_pres
      (fun (acc2 : List (Nat × Nat) × GenState) =>
        acc2.2.rooms = st.rooms ∧ acc2.2.graph = st.graph ∧
        acc2.2.cfg = st.cfg ∧ acc2.2.roomIdCounter = st.roomIdCounter ∧
        ∀ c ∈ acc2.2.corridors,
          c.room1Id ∈ st.rooms.map Room.id ∧ c.room2Id ∈ st.rooms.map Room.id)
    · exact hacc
    · intro acc2 cid _ hacc2
      exact genCorridorStep_pres st acc2 entry.1 cid hacc2


lemma map_type_eta (rooms : List Room) :
    rooms.map (fun r => { r with type := r.type }) = rooms := by
  have h : (fun (r : Room) => { r with type := r.type }) = id := by
    funext r
    rfl
  rw [h, List.map_id]

lemma setType_map (rooms : List Room) (tf : Room → RoomType) (i : Nat)
    (t : RoomType) :
    setType (rooms.map (fun r => { r with type := tf r })) i t =
      rooms.map (fun r => { r with type := if r.id = i then t else tf r }) := by
  unfold setType
  rw [List.map_map]
  apply List.map_congr_left
  intro r _
  by_cases h : r.id = i
  · simp [Function.comp, h]
  · simp [Function.comp, h]

lemma setType_shape {base rooms : List Room} {tf : Room → RoomType}
    (h : rooms = base.map (fun r => { r with type := tf r })) (i : Nat)
    (t : RoomType) :
    setType rooms i t =
      base.map (fun r => { r with type := if r.id = i then t else tf r }) := by
  subst h
  exact setType_map base tf i t

lemma foldl_setType_good (es base : List Room) (tf : Room → RoomType)
    (hg : ∀ r, tf r = r.type ∨ tf r ≠ RoomType.SECRET) :
    ∃ tf2 : Room → RoomType,
      (∀ r, tf2 r = r.type ∨ tf2 r ≠ RoomType.SECRET) ∧
      es.foldl (fun rs r => setType rs r.id RoomType.ELITE)
          (base.map (fun r => { r with type := tf r })) =
        base.map (fun r => { r with type := tf2 r }) := by
  induction es generalizing tf with
  | nil => exact ⟨tf, hg, rfl⟩
  | cons e rest ih =>
    rw [List.foldl_cons, setType_map]
    apply ih
    intro r
    by_cases hid : r.id = e.id
    · rw [if_pos hid]
      exact Or.inr (by decide)
    · rw [if_neg hid]
      exact hg r

lemma classifyRooms_graph (st : GenState) :
    (classifyRooms st).2.graph = st.graph := by
  unfold classifyRooms
  cases hr : st.rooms with
  | nil => rfl
  | cons r0 rest => rfl

lemma classifyRooms_corridors (st : GenState) :
    (classifyRooms st).2.corridors = st.corridors := by
  unfold classifyRooms
  cases hr : st.rooms with
  | nil => rfl
  | cons r0 rest => rfl

lemma classifyRooms_cfg (st : GenState) :
    (classifyRooms st).2.cfg = st.cfg := by
  unfold classifyRooms
  cases hr : st.rooms with
  | nil => rfl
  | cons r0 rest => rfl

lemma classifyRooms_counter (st : GenState) :
    (classifyRooms st).2.roomIdCounter = st.roomIdCounter := by
  unfold classifyRooms
  cases hr : st.rooms with
  | nil => rfl
  | cons r0 rest => rfl

lemma classifyRooms_rooms_shape (st : GenState) :
    ∃ tf : Room → RoomType,
      (∀ r, tf r = r.type ∨ tf r ≠ RoomType.SECRET) ∧
      (classifyRooms st).2.rooms =
        st.rooms.map (fun r => { r with type := tf r }) := by
  cases hr : st.rooms with
  | nil =>
    refine ⟨fun r => r.type, fun r => Or.inl rfl, ?_⟩
    unfold classifyRooms
    rw [hr]
    dsimp only
    rw [hr]
    rfl
  | cons r0 rest =>
    have h0 : (r0 :: rest) =
        (r0 :: rest).map (fun r => { r with type := r.type }) :=
      (map_type_eta _).symm
    unfold classifyRooms
    rw [hr]
    dsimp only
    rw [setType_shape h0, setType_map, setType_map]
    split
    all_goals try rw [setType_map]
    all_goals
      apply foldl_setType_good
    all_goals
      intro r
    all_goals
      repeat' split
    all_goals first
      | exact Or.inl rfl
      | exact Or.inr (by decide)


lemma pipeRooms_cfg (cfg : Config) : (pipeRooms cfg).cfg = cfg := by
  unfold pipeRooms generateRooms
  rw [generateRoomsAux_cfg]
  rfl

lemma pipeCorr_rooms (cfg : Config) : (pipeCorr cfg).rooms = placedRooms cfg := by
  unfold pipeCorr
  rw [(genCorridors_spec _).1]
  rfl

lemma pipeGraph_graph (cfg : Config) :
    (pipeGraph cfg).graph = builtGraph cfg (placedRooms cfg) := by
  unfold pipeGraph buildConnectivityGraph
  dsimp only
  rw [pipeRooms_cfg]
  rfl

lemma pipeCorr_graph (cfg : Config) :
    (pipeCorr cfg).graph = builtGraph cfg (placedRooms cfg) := by
  unfold pipeCorr
  rw [(genCorridors_spec _).2.1]
  exact pipeGraph_graph cfg

lemma pipeSt4_graph (cfg : Config) :
    (pipeSt4 cfg).graph = builtGraph cfg (placedRooms cfg) := by
  unfold pipeSt4
  rw [classifyRooms_graph]
  exact pipeCorr_graph cfg

lemma pipeSt5_graph (cfg : Config) :
    (pipeSt5 cfg).graph = builtGraph cfg (placedRooms cfg) := by
  unfold pipeSt5 computeRoomDepth
  exact pipeSt4_graph cfg

lemma pipeSt5_counter (cfg : Config) :
    (pipeSt5 cfg).roomIdCounter = (pipeRooms cfg).roomIdCounter := by
  unfold pipeSt5 computeRoomDepth
  show (pipeSt4 cfg).roomIdCounter = _
  unfold pipeSt4
  rw [classifyRooms_counter]
  unfold pipeCorr
  rw [(genCorridors_spec _).2.2.2.1]
  rfl

lemma pipeSt5_corridors_ids (cfg : Config) :
    ∀ c ∈ (pipeSt5 cfg).corridors,
      c.room1Id ∈ (placedRooms cfg).map Room.id ∧
      c.room2Id ∈ (placedRooms cfg).map Room.id := by
  have h := (genCorridors_spec (pipeGraph cfg)).2.2.2.2
  have hc5 : (pipeSt5 cfg).corridors = (pipeCorr cfg).corridors := by
    unfold pipeSt5 computeRoomDepth
    show (pipeSt4 cfg).corridors = _
    unfold pipeSt4
    rw [classifyRooms_corridors]
  intro c hc
  rw [hc5] at hc
  exact h c hc

lemma pipeCls_spawn (cfg : Config) (r0 : Room) (rest : List Room)
    (h : placedRooms cfg = r0 :: rest) : (pipeCls cfg).spawnRoomId = r0.id := by
  unfold pipeCls classifyRooms
  have hc : (pipeCorr cfg).rooms = r0 :: rest := by rw [pipeCorr_rooms, h]
  rw [hc]

lemma pipeCls_boss (cfg : Config) (r0 : Room) (rest : List Room)
    (h : placedRooms cfg = r0 :: rest) :
    (pipeCls cfg).bossRoomId =
      (bossFold (computeGraphDistances (builtGraph cfg (placedRooms cfg)) r0.id)
        r0.id).2 := by
  unfold pipeCls classifyRooms
  have hc : (pipeCorr cfg).rooms = r0 :: rest := by rw [pipeCorr_rooms, h]
  rw [hc]
  dsimp only
  rw [pipeCorr_graph]

lemma dungeon_fields (cfg : Config) (d : Dungeon)
    (hd : generateDungeon cfg = some d) :
    d.rooms = (pipeSt6 cfg).rooms ∧ d.corridors = (pipeSt6 cfg).corridors ∧
    d.graph = (pipeSt6 cfg).graph ∧
    d.spawnRoomId = (pipeCls cfg).spawnRoomId ∧
    d.bossRoomId = (pipeCls cfg).bossRoomId ∧
    d.treasureRoomId = (pipeCls cfg).treasureRoomId := by
  unfold generateDungeon at hd
  split at hd
  · exact absurd hd (by simp)
  · injection hd with h
    subst h
    exact ⟨rfl, rfl, rfl, rfl, rfl, rfl⟩

lemma placed_ne_nil (cfg : Config) (d : Dungeon)
    (hd : generateDungeon cfg = some d) : placedRooms cfg ≠ [] := by
  unfold generateDungeon at hd
  split at hd
  · exact absurd hd (by simp)
  · rename_i h
    intro hc
    apply h
    show (placedRooms cfg).length = 0
    rw [hc]
    rfl

lemma counter_not_placed (cfg : Config) :
    (pipeSt5 cfg).roomIdCounter ∉ (placedRooms cfg).map Room.id := by
  intro hmem
  obtain ⟨r, hr, hid⟩ := List.mem_map.mp hmem
  have hlt := placedRooms_id_lt_counter cfg r hr
  rw [pipeSt5_counter] at hmem
  obtain ⟨r2, hr2, hid2⟩ := List.mem_map.mp hmem
  have hlt2 := placedRooms_id_lt_counter cfg r2 hr2
  omega

lemma graft_sub (g : List (Nat × List Nat)) (newId c1 : Nat)
    (hfresh : graphHas g newId = false) :
    ∀ k, graphGet g k ⊆ graphGet (graphPush (graphSet g newId [c1]) c1 newId) k := by
  intro k x hx
  apply graphGet_push_sub
  by_cases hk : k = newId
  · subst hk
    rw [graphGet_of_not_has g _ hfresh] at hx
    cases hx
  · rw [graphGet_set_other g newId [c1] k hk]
    exact hx

lemma pipeSt6_cases (cfg : Config) :
    ((pipeSt6 cfg).rooms = (pipeSt5 cfg).rooms ∧
     (pipeSt6 cfg).graph = (pipeSt5 cfg).graph) ∨
    (∃ cor, cor ∈ (pipeSt5 cfg).corridors ∧
      (pipeSt6 cfg).rooms =
        (pipeSt5 cfg).rooms ++ [secretRoomOf cor (pipeSt5 cfg).roomIdCounter] ∧
      (pipeSt6 cfg).graph =
        graphPush
          (graphSet (pipeSt5 cfg).graph (pipeSt5 cfg).roomIdCounter [cor.room1Id])
          cor.room1Id (pipeSt5 cfg).roomIdCounter) := by
  unfold pipeSt6
  dsimp only
  split
  · unfold generateSecretRoom
    split
    · exact Or.inl ⟨rfl, rfl⟩
    · rename_i hch hne
      refine Or.inr ⟨_, ?_, rfl, rfl⟩
      apply getD_mem_of_lt
      apply floor_mul_toNat_lt
      · exact rng_next_nonneg _
      · exact rng_next_lt_one _
      · exact Nat.pos_of_ne_zero hne
  · exact Or.inl ⟨rfl, rfl⟩


lemma pipeSt5_rooms_shape (cfg : Config) :
    ∃ f : Room → Room,
      (∀ r : Room, (f r).id = r.id ∧ (f r).x = r.x ∧ (f r).y = r.y ∧
        (f r).width = r.width ∧ (f r).height = r.height ∧
        ((f r).type = r.type ∨ (f r).type ≠ RoomType.SECRET)) ∧
      (pipeSt5 cfg).rooms = (placedRooms cfg).map f := by
  obtain ⟨tf, hg, hsh⟩ := classifyRooms_rooms_shape (pipeCorr cfg)
  rw [pipeCorr_rooms] at hsh
  refine ⟨fun r =>
    { r with
      type := tf r,
      depth := lookupD (computeGraphDistances (pipeSt4 cfg).graph (pipeCls cfg).spawnRoomId) r.id 0 },
    ?_, ?_⟩
  · intro r
    exact ⟨rfl, rfl, rfl, rfl, rfl, hg r⟩
  · show (computeRoomDepth (pipeSt4 cfg) (pipeCls cfg).spawnRoomId).rooms = _
    unfold computeRoomDepth
    dsimp only
    have hsh2 : (pipeSt4 cfg).rooms =
        (placedRooms cfg).map (fun r => { r with type := tf r }) := hsh
    rw [hsh2, List.map_map]
    apply List.map_congr_left
    intro r _
    rfl

lemma dungeon_rooms_shape (cfg : Config) (d : Dungeon)
    (hd : generateDungeon cfg = some d) :
    ∃ f : Room → Room, ∃ tail : List Room,
      (∀ r : Room, (f r).id = r.id ∧ (f r).x = r.x ∧ (f r).y = r.y ∧
        (f r).width = r.width ∧ (f r).height = r.height ∧
        ((f r).type = r.type ∨ (f r).type ≠ RoomType.SECRET)) ∧
      d.rooms = (placedRooms cfg).map f ++ tail ∧
      (∀ s ∈ tail, s.type = RoomType.SECRET ∧ s.depth = 0 ∧
        s.id ∉ (placedRooms cfg).map Room.id) := by
  obtain ⟨f, hf, hrooms⟩ := pipeSt5_rooms_shape cfg
  obtain ⟨hdr, _, _, _, _, _⟩ := dungeon_fields cfg d hd
  rcases pipeSt6_cases cfg with ⟨hrm, _⟩ | ⟨cor, hcm, hrm, _⟩
  · refine ⟨f, [], hf, ?_, by intro s hs; cases hs⟩
    rw [hdr, hrm, hrooms, List.append_nil]
  · refine ⟨f, [secretRoomOf cor (pipeSt5 cfg).roomIdCounter], hf, ?_, ?_⟩
    · rw [hdr, hrm, hrooms]
    · intro s hs
      rw [List.mem_singleton] at hs
      subst hs
      exact ⟨rfl, rfl, counter_not_placed cfg⟩

lemma spawn_reach (cfg : Config) (d : Dungeon)
    (hd : generateDungeon cfg = some d) :
    ∀ r ∈ placedRooms cfg, ReachG d.graph d.spawnRoomId r.id := by
  obtain ⟨_, _, hg6, hs6, _, _⟩ := dungeon_fields cfg d hd
  have hne := placed_ne_nil cfg d hd
  obtain ⟨r0, rest, hpl⟩ : ∃ r0 rest, placedRooms cfg = r0 :: rest := by
    cases hp : placedRooms cfg with
    | nil => exact absurd hp hne
    | cons a b => exact ⟨a, b, rfl⟩
  have hnd := placedRooms_ids_nodup cfg
  rw [hpl] at hnd
  have hreach := builtGraph_reach cfg r0 rest hnd
  have hspawn := pipeCls_spawn cfg r0 rest hpl
  intro r hr
  rw [hg6, hs6, hspawn]
  have hbase : ReachG (builtGraph cfg (placedRooms cfg)) r0.id r.id := by
    rw [hpl]
    rw [hpl] at hr
    exact hreach r hr
  rcases pipeSt6_cases cfg with ⟨_, hgr⟩ | ⟨cor, hcm, _, hgr⟩
  · rw [hgr, pipeSt5_graph]
    exact hbase
  · rw [hgr, pipeSt5_graph]
    have hfresh : graphHas (builtGraph cfg (placedRooms cfg))
        (pipeSt5 cfg).roomIdCounter = false := by
      rw [graphHas_builtGraph]
      simp only [decide_eq_false_iff_not]
      exact counter_not_placed cfg
    exact reachG_mono (graft_sub _ _ _ hfresh) hbase


/-- Claim C2 (amended): whenever `generateDungeon` succeeds and at least two
rooms were placed, the Prim spanning tree over the candidate edges has exactly
`n - 1` edges, every placed room is reachable from the spawn room in the
dungeon's connectivity graph, and the number of loop edges added is
`min(floor(|remaining| * loopEdgePercentage / 100), |remaining|)` — the
unclamped `floor(...)` count of the original claim is refuted by
`c2_counterexample`. -/
theorem c2_spanning_tree_and_loops (cfg : Config) (d : Dungeon)
    (hd : generateDungeon cfg = some d)
    (h2 : 2 ≤ (placedRooms cfg).length) :
    (mstEdges (placedRooms cfg)).length + 1 = (placedRooms cfg).length ∧
    (∀ r ∈ placedRooms cfg, ReachG d.graph d.spawnRoomId r.id) ∧
    (loopEdges cfg (placedRooms cfg)).length =
      min (loopEdgeCount cfg (remainingAfterMST (placedRooms cfg)))
        (remainingAfterMST (placedRooms cfg)).length := by
  have hne := placed_ne_nil cfg d hd
  obtain ⟨r0, rest, hpl⟩ : ∃ r0 rest, placedRooms cfg = r0 :: rest := by
    cases hp : placedRooms cfg with
    | nil => exact absurd hp hne
    | cons a b => exact ⟨a, b, rfl⟩
  have hnd := placedRooms_ids_nodup cfg
  refine ⟨?_, spawn_reach cfg d hd, ?_⟩
  · exact (mstEdges_spec (placedRooms cfg) r0 rest hpl hnd).1
  · unfold loopEdges
    exact List.length_take _ _

/-- Witness for `c2_spanning_tree_and_loops` at the seed-0 three-room
configuration. -/
theorem c2_witness :
    (mstEdges (placedRooms cfgC2)).length + 1 = (placedRooms cfgC2).length ∧
    (∀ r ∈ placedRooms cfgC2, ReachG dunC2.graph dunC2.spawnRoomId r.id) ∧
    (loopEdges cfgC2 (placedRooms cfgC2)).length =
      min (loopEdgeCount cfgC2 (remainingAfterMST (placedRooms cfgC2)))
        (remainingAfterMST (placedRooms cfgC2)).length :=
  c2_spanning_tree_and_loops cfgC2 dunC2 runC2
    (by
      have h : placedRooms cfgC2 = stC2a.rooms := by
        unfold placedRooms pipeRooms
        rw [stageC2a]
      rw [h]
      decide)


lemma distHas_iff (m : List (Nat × Nat)) (k : Nat) :
    distHas m k = true ↔ k ∈ m.map Prod.fst := by
  unfold distHas
  rw [List.find?_isSome]
  constructor
  · rintro ⟨e, he, hp⟩
    simp only [decide_eq_true_eq] at hp
    exact hp ▸ List.mem_map_of_mem _ he
  · intro hk
    obtain ⟨e, he, hp⟩ := List.mem_map.mp hk
    exact ⟨e, he, by simp [hp]⟩

lemma distHas_of_mem (m : List (Nat × Nat)) (e : Nat × Nat) (he : e ∈ m) :
    distHas m e.1 = true :=
  (distHas_iff m e.1).mpr (List.mem_map_of_mem _ he)

lemma find?_append_some {α : Type} (p : α → Bool) (l1 l2 : List α) (a : α)
    (h : l1.find? p = some a) : (l1 ++ l2).find? p = some a := by
  induction l1 with
  | nil => cases h
  | cons x xs ih =>
    rw [List.cons_append]
    cases hp : p x with
    | true =>
      rw [List.find?_cons_of_pos _ hp] at h ⊢
      exact h
    | false =>
      rw [List.find?_cons_of_neg _ (by simp [hp])] at h ⊢
      exact ih h

lemma distHas_append (m1 m2 : List (Nat × Nat)) (k : Nat) :
    distHas (m1 ++ m2) k = (distHas m1 k || distHas m2 k) := by
  rw [Bool.eq_iff_iff, distHas_iff, Bool.or_eq_true, distHas_iff, distHas_iff,
    List.map_append, List.mem_append]

lemma lookupD_append_left (m1 m2 : List (Nat × Nat)) (k d : Nat)
    (h : distHas m1 k = true) : lookupD (m1 ++ m2) k d = lookupD m1 k d := by
  unfold distHas at h
  obtain ⟨e, he⟩ := Option.isSome_iff_exists.mp h
  unfold lookupD
  rw [he, find?_append_some _ _ _ _ he]

lemma lookupD_mem (m : List (Nat × Nat)) (k d : Nat)
    (h : distHas m k = true) :
    ∃ e ∈ m, e.1 = k ∧ lookupD m k d = e.2 := by
  unfold distHas at h
  obtain ⟨e, he⟩ := Option.isSome_iff_exists.mp h
  refine ⟨e, List.mem_of_find?_eq_some he, ?_, ?_⟩
  · simpa using List.find?_some he
  · unfold lookupD
    rw [he]

lemma lookupD_of_mem_nodup (m : List (Nat × Nat)) (e : Nat × Nat) (d : Nat)
    (he : e ∈ m) (hnd : (m.map Prod.fst).Nodup) : lookupD m e.1 d = e.2 := by
  induction m with
  | nil => cases he
  | cons x xs ih =>
    rw [List.map_cons, List.nodup_cons] at hnd
    rcases List.mem_cons.mp he with rfl | he2
    · unfold lookupD
      rw [List.find?_cons_of_pos _ (by simp)]
    · have hne : x.1 ≠ e.1 := by
        intro hc
        exact hnd.1 (hc ▸ List.mem_map_of_mem _ he2)
      unfold lookupD
      rw [List.find?_cons_of_neg _ (by simp [hne])]
      exact ih he2 hnd.2

lemma filter_remove_one (l : List Nat) (hnd : l.Nodup) (P : Nat → Bool)
    (nb : Nat) (hmem : nb ∈ l) (hP : P nb = true) :
    (l.filter (fun u => P u && !(decide (u = nb)))).length + 1 =
      (l.filter P).length := by
  induction l with
  | nil => cases hmem
  | cons x xs ih =>
    rw [List.nodup_cons] at hnd
    rcases List.mem_cons.mp hmem with rfl | hx
    · rw [List.filter_cons, List.filter_cons]
      rw [if_neg (by simp [hP]), if_pos (by simp [hP])]
      rw [List.length_cons, Nat.add_comm _ 1, Nat.add_comm _ 1]
      congr 1
      apply congrArg List.length
      apply List.filter_congr
      intro u hu
      have hne : u ≠ nb := fun hc => hnd.1 (by rw [← hc]; exact hu)
      simp [hne]
    · rw [List.filter_cons, List.filter_cons]
      by_cases hpx : P x = true
      · have hxnb : x ≠ nb := fun hc => hnd.1 (by rw [hc]; exact hx)
        rw [if_pos (by simp [hpx, hxnb]), if_pos (by simp [hpx])]
        rw [List.length_cons, List.length_cons]
        have hxs := ih hnd.2 hx
        omega
      · rw [if_neg (by simp [hpx]), if_neg (by simp [hpx])]
        exact ih hnd.2 hx


lemma bfsAux_zero (g : List (Nat × List Nat)) (queue : List Nat)
    (dist : List (Nat × Nat)) : bfsAux g 0 queue dist = (dist, queue) := rfl

lemma bfsAux_succ_nil (g : List (Nat × List Nat)) (f : Nat)
    (dist : List (Nat × Nat)) : bfsAux g (f + 1) [] dist = (dist, []) := rfl

lemma bfsAux_succ_cons (g : List (Nat × List Nat)) (f c : Nat)
    (rest : List Nat) (dist : List (Nat × Nat)) :
    bfsAux g (f + 1) (c :: rest) dist =
      bfsAux g f
        (((graphGet g c).foldl (bfsRelax (lookupD dist c 0)) (dist, rest)).2)
        (((graphGet g c).foldl (bfsRelax (lookupD dist c 0)) (dist, rest)).1) :=
  rfl

lemma bfsRelax_has (cd : Nat) (acc : List (Nat × Nat) × List Nat) (nb k : Nat)
    (h : distHas acc.1 k = true) : distHas (bfsRelax cd acc nb).1 k = true := by
  unfold bfsRelax
  split
  · exact h
  · dsimp only
    rw [distHas_append, h]
    rfl

lemma bfsStep_has_mono (cd : Nat) (ns : List Nat) :
    ∀ (acc : List (Nat × Nat) × List Nat) (k : Nat), distHas acc.1 k = true →
      distHas ((ns.foldl (bfsRelax cd) acc).1) k = true := by
  induction ns with
  | nil => exact fun acc k h => h
  | cons nb ns ih =>
    intro acc k h
    rw [List.foldl_cons]
    exact ih _ k (bfsRelax_has cd acc nb k h)

lemma distHas_single (nb v u : Nat) :
    distHas [(nb, v)] u = decide (u = nb) := by
  unfold distHas
  by_cases hun : u = nb
  · subst hun
    rw [List.find?_cons_of_pos _ (by simp)]
    simp
  · rw [List.find?_cons_of_neg _ (by simp [Ne.symm hun])]
    simp [hun]

lemma bfsStep_covers (cd : Nat) (ns : List Nat) :
    ∀ (acc : List (Nat × Nat) × List Nat), ∀ nb ∈ ns,
      distHas ((ns.foldl (bfsRelax cd) acc).1) nb = true := by
  induction ns with
  | nil => intro acc nb h; cases h
  | cons x xs ih =>
    intro acc nb h
    rw [List.foldl_cons]
    rcases List.mem_cons.mp h with rfl | h2
    · apply bfsStep_has_mono
      unfold bfsRelax
      split
      · rename_i hh
        exact hh
      · dsimp only
        rw [distHas_append, distHas_single]
        simp
    · exact ih _ nb h2

lemma bfsStep_spec (g : List (Nat × List Nat)) (cd : Nat) (ns : List Nat) :
    ∀ acc : List (Nat × Nat) × List Nat,
      ∃ extra : List (Nat × Nat),
        (ns.foldl (bfsRelax cd) acc).1 = acc.1 ++ extra ∧
        (ns.foldl (bfsRelax cd) acc).2 = acc.2 ++ extra.map Prod.fst ∧
        (∀ e ∈ extra, e.2 = cd + 1 ∧ e.1 ∈ ns) ∧
        ((∀ nb ∈ ns, nb ∈ (graphIdUniverse g).dedup) →
          (ns.foldl (bfsRelax cd) acc).2.length +
              freshCount g ((ns.foldl (bfsRelax cd) acc).1) =
            acc.2.length + freshCount g acc.1) ∧
        ((acc.1.map Prod.fst).Nodup →
          (((ns.foldl (bfsRelax cd) acc).1).map Prod.fst).Nodup) := by
  induction ns with
  | nil =>
    intro acc
    exact ⟨[], by simp, by simp, by simp, fun _ => rfl, fun h => h⟩
  | cons nb ns ih =>
    intro acc
    rw [List.foldl_cons]
    by_cases h : distHas acc.1 nb = true
    · have hstep : bfsRelax cd acc nb = acc := by
        unfold bfsRelax
        rw [if_pos h]
      rw [hstep]
      obtain ⟨extra, h1, h2, h3, h4, h5⟩ := ih acc
      exact ⟨extra, h1, h2,
        fun e he => ⟨(h3 e he).1, List.mem_cons_of_mem _ (h3 e he).2⟩,
        fun hu => h4 (fun x hx => hu x (List.mem_cons_of_mem _ hx)), h5⟩
    · have hstep : bfsRelax cd acc nb =
          (acc.1 ++ [(nb, cd + 1)], acc.2 ++ [nb]) := by
        unfold bfsRelax
        rw [if_neg h]
      rw [hstep]
      obtain ⟨extra, h1, h2, h3, h4, h5⟩ := ih (acc.1 ++ [(nb, cd + 1)], acc.2 ++ [nb])
      refine ⟨(nb, cd + 1) :: extra, ?_, ?_, ?_, ?_, ?_⟩
      · rw [h1]
        simp
      · rw [h2]
        simp
      · intro e he
        rcases List.mem_cons.mp he with rfl | he2
        · exact ⟨rfl, List.mem_cons_self _ _⟩
        · exact ⟨(h3 e he2).1, List.mem_cons_of_mem _ (h3 e he2).2⟩
      · intro hu
        have h4b := h4 (fun x hx => hu x (List.mem_cons_of_mem _ hx))
        have hfr : freshCount g (acc.1 ++ [(nb, cd + 1)]) + 1 =
            freshCount g acc.1 := by
          unfold freshCount
          have hcongr : ((graphIdUniverse g).dedup.filter
                (fun u => !distHas (acc.1 ++ [(nb, cd + 1)]) u)) =
              ((graphIdUniverse g).dedup.filter
                (fun u => (!distHas acc.1 u) && !(decide (u = nb)))) := by
            apply List.filter_congr
            intro u hu2
            rw [distHas_append, distHas_single, Bool.not_or]
          rw [hcongr]
          exact filter_remove_one _ (List.nodup_dedup _) _ nb
            (hu nb (List.mem_cons_self _ _)) (by simp [h])
        dsimp only at h4b
        rw [h4b, List.length_append]
        simp only [List.length_cons, List.length_nil]
        omega
      · intro hnd
        apply h5
        dsimp only
        rw [List.map_append]
        refine List.Nodup.append hnd (by simp) ?_
        intro a ha hb
        have hab : a = nb := by simpa using hb
        subst hab
        exact h ((distHas_iff _ _).mpr ha)


lemma graphGet_sub_universe (g : List (Nat × List Nat)) (c : Nat) :
    ∀ nb ∈ graphGet g c, nb ∈ (graphIdUniverse g).dedup := by
  intro nb hnb
  rw [List.mem_dedup]
  unfold graphIdUniverse
  rw [List.mem_append]
  right
  unfold graphGet at hnb
  cases hf : g.find? (fun e => decide (e.1 = c)) with
  | none =>
    rw [hf] at hnb
    cases hnb
  | some e =>
    rw [hf] at hnb
    have hm := List.mem_of_find?_eq_some hf
    exact List.mem_flatten.mpr ⟨e.2, List.mem_map_of_mem Prod.snd hm, hnb⟩

lemma bfsAux_spec (g : List (Nat × List Nat)) :
    ∀ (fuel : Nat) (queue : List Nat) (dist : List (Nat × Nat)),
      (∀ q ∈ queue, distHas dist q = true) →
      (∀ k, distHas dist k = true →
        k ∈ queue ∨ ∀ nb ∈ graphGet g k, distHas dist nb = true) →
      queue.length + freshCount g dist ≤ fuel →
      ∃ extra : List (Nat × Nat),
        (bfsAux g fuel queue dist).1 = dist ++ extra ∧
        (∀ e ∈ extra, 1 ≤ e.2) ∧
        (∀ k, distHas ((bfsAux g fuel queue dist).1) k = true →
          ∀ nb ∈ graphGet g k,
            distHas ((bfsAux g fuel queue dist).1) nb = true) ∧
        ((dist.map Prod.fst).Nodup →
          (((bfsAux g fuel queue dist).1).map Prod.fst).Nodup) := by
  intro fuel
  induction fuel with
  | zero =>
    intro queue dist h1 h2 hmu
    have hq : queue = [] := by
      cases queue with
      | nil => rfl
      | cons a b => simp at hmu
    subst hq
    rw [bfsAux_zero]
    refine ⟨[], by simp, by simp, ?_, fun h => h⟩
    intro k hk
    rcases h2 k hk with hk2 | hk2
    · cases hk2
    · exact hk2
  | succ f ih =>
    intro queue dist h1 h2 hmu
    cases queue with
    | nil =>
      rw [bfsAux_succ_nil]
      refine ⟨[], by simp, by simp, ?_, fun h => h⟩
      intro k hk
      rcases h2 k hk with hk2 | hk2
      · cases hk2
      · exact hk2
    | cons c rest =>
      rw [bfsAux_succ_cons]
      obtain ⟨extra0, hs1, hs2, hs3, hs4, hs5⟩ :=
        bfsStep_spec g (lookupD dist c 0) (graphGet g c) (dist, rest)
      have hmu2 : (((graphGet g c).foldl (bfsRelax (lookupD dist c 0))
            (dist, rest)).2).length +
          freshCount g (((graphGet g c).foldl (bfsRelax (lookupD dist c 0))
            (dist, rest)).1) ≤ f := by
        have heq := hs4 (graphGet_sub_universe g c)
        dsimp only at heq
        rw [heq]
        simp only [List.length_cons] at hmu
        omega
      have hq1 : ∀ q ∈ ((graphGet g c).foldl (bfsRelax (lookupD dist c 0))
          (dist, rest)).2,
          distHas (((graphGet g c).foldl (bfsRelax (lookupD dist c 0))
            (dist, rest)).1) q = true := by
        intro q hq
        rw [hs2] at hq
        rcases List.mem_append.mp hq with hq | hq
        · exact bfsStep_has_mono _ _ (dist, rest) q
            (h1 q (List.mem_cons_of_mem _ hq))
        · obtain ⟨e, he, hekey⟩ := List.mem_map.mp hq
          have : e ∈ ((graphGet g c).foldl (bfsRelax (lookupD dist c 0))
              (dist, rest)).1 := by
            rw [hs1]
            exact List.mem_append.mpr (Or.inr he)
          exact hekey ▸ distHas_of_mem _ e this
      have hq2 : ∀ k, distHas (((graphGet g c).foldl (bfsRelax (lookupD dist c 0))
          (dist, rest)).1) k = true →
          k ∈ ((graphGet g c).foldl (bfsRelax (lookupD dist c 0))
            (dist, rest)).2 ∨
          ∀ nb ∈ graphGet g k,
            distHas (((graphGet g c).foldl (bfsRelax (lookupD dist c 0))
              (dist, rest)).1) nb = true := by
        intro k hk
        by_cases hck : k = c
        · subst hck
          exact Or.inr (fun nb hnb => bfsStep_covers _ _ (dist, rest) nb hnb)
        · by_cases hold : distHas dist k = true
          · rcases h2 k hold with hmem | hclo
            · rcases List.mem_cons.mp hmem with hkc | hkr
              · exact absurd hkc hck
              · refine Or.inl ?_
                rw [hs2]
                exact List.mem_append.mpr (Or.inl hkr)
            · exact Or.inr (fun nb hnb =>
                bfsStep_has_mono _ _ (dist, rest) nb (hclo nb hnb))
          · rw [(distHas_iff _ _)] at hk
            rw [hs1, List.map_append, List.mem_append] at hk
            rcases hk with hk | hk
            · exact absurd ((distHas_iff _ _).mpr hk) hold
            · refine Or.inl ?_
              rw [hs2]
              exact List.mem_append.mpr (Or.inr hk)
      obtain ⟨extra1, hi1, hi2, hi3, hi4⟩ := ih _ _ hq1 hq2 hmu2
      refine ⟨extra0 ++ extra1, ?_, ?_, hi3, ?_⟩
      · rw [hi1, hs1, List.append_assoc]
      · intro e he
        rcases List.mem_append.mp he with he | he
        · rw [(hs3 e he).1]
          omega
        · exact hi2 e he
      · intro hnd
        exact hi4 (hs5 hnd)

lemma computeGraphDistances_spec (g : List (Nat × List Nat)) (s : Nat) :
    ∃ extra : List (Nat × Nat),
      computeGraphDistances g s = (s, 0) :: extra ∧
      (∀ e ∈ extra, 1 ≤ e.2) ∧
      (∀ k, distHas (computeGraphDistances g s) k = true →
        ∀ nb ∈ graphGet g k,
          distHas (computeGraphDistances g s) nb = true) ∧
      ((computeGraphDistances g s).map Prod.fst).Nodup := by
  unfold computeGraphDistances
  obtain ⟨extra, h1, h2, h3, h4⟩ :=
    bfsAux_spec g ((graphIdUniverse g).dedup.length + 1) [s] [(s, 0)]
      (by
        intro q hq
        rcases List.mem_singleton.mp hq with rfl
        rw [distHas_single]
        simp)
      (by
        intro k hk
        left
        rw [distHas_single] at hk
        simpa using hk)
      (by
        have hle : freshCount g [(s, 0)] ≤ (graphIdUniverse g).dedup.length :=
          List.length_filter_le _ _
        simp only [List.length_singleton]
        omega)
  exact ⟨extra, by rw [h1]; rfl, h2, h3, h4 (by simp)⟩

lemma lookupD_not_has (m : List (Nat × Nat)) (k d : Nat)
    (h : distHas m k = false) : lookupD m k d = d := by
  unfold distHas at h
  unfold lookupD
  cases hf : m.find? (fun e => decide (e.1 = k)) with
  | none => rfl
  | some e =>
    rw [hf] at h
    cases h

lemma cgd_source_zero (g : List (Nat × List Nat)) (s : Nat) :
    lookupD (computeGraphDistances g s) s 0 = 0 := by
  obtain ⟨extra, h1, _, _, _⟩ := computeGraphDistances_spec g s
  rw [h1]
  unfold lookupD
  rw [List.find?_cons_of_pos _ (by simp)]

lemma cgd_nonsource_pos (g : List (Nat × List Nat)) (s k : Nat) (hk : k ≠ s)
    (hhas : distHas (computeGraphDistances g s) k = true) :
    1 ≤ lookupD (computeGraphDistances g s) k 0 := by
  obtain ⟨extra, h1, h2, _, _⟩ := computeGraphDistances_spec g s
  obtain ⟨e, hem, he1, helo⟩ := lookupD_mem _ k 0 hhas
  rw [helo]
  rw [h1] at hem
  rcases List.mem_cons.mp hem with rfl | he
  · exact absurd he1 (Ne.symm hk)
  · exact h2 e he

lemma cgd_complete (g : List (Nat × List Nat)) (s t : Nat)
    (hr : ReachG g s t) :
    distHas (computeGraphDistances g s) t = true := by
  obtain ⟨extra, h1, _, h3, _⟩ := computeGraphDistances_spec g s
  induction hr with
  | refl =>
    rw [h1]
    exact distHas_of_mem _ (s, 0) (List.mem_cons_self _ _)
  | step hab hm ih => exact h3 _ ih _ hm

lemma bossFold_aux (dist : List (Nat × Nat)) :
    ∀ acc : Nat × Nat,
      (∀ e ∈ dist, e.2 ≤
        (dist.foldl (fun acc e => if e.2 > acc.1 then (e.2, e.1) else acc) acc).1) ∧
      acc.1 ≤
        (dist.foldl (fun acc e => if e.2 > acc.1 then (e.2, e.1) else acc) acc).1 ∧
      ((dist.foldl (fun acc e => if e.2 > acc.1 then (e.2, e.1) else acc) acc) = acc ∨
        ∃ e ∈ dist,
          (dist.foldl (fun acc e => if e.2 > acc.1 then (e.2, e.1) else acc) acc) =
            (e.2, e.1)) := by
  induction dist with
  | nil => exact fun acc => ⟨by simp, le_refl _, Or.inl rfl⟩
  | cons e0 rest ih =>
    intro acc
    rw [List.foldl_cons]
    by_cases h : e0.2 > acc.1
    · rw [if_pos h]
      obtain ⟨ih1, ih2, ih3⟩ := ih (e0.2, e0.1)
      refine ⟨?_, le_trans (le_of_lt h) ih2, ?_⟩
      · intro e he
        rcases List.mem_cons.mp he with rfl | he2
        · exact ih2
        · exact ih1 e he2
      · rcases ih3 with h3 | ⟨e, he, h3⟩
        · exact Or.inr ⟨e0, List.mem_cons_self _ _, h3⟩
        · exact Or.inr ⟨e, List.mem_cons_of_mem _ he, h3⟩
    · rw [if_neg h]
      obtain ⟨ih1, ih2, ih3⟩ := ih acc
      refine ⟨?_, ih2, ?_⟩
      · intro e he
        rcases List.mem_cons.mp he with rfl | he2
        · exact le_trans (Nat.le_of_not_lt h) ih2
        · exact ih1 e he2
      · rcases ih3 with h3 | ⟨e, he, h3⟩
        · exact Or.inl h3
        · exact Or.inr ⟨e, List.mem_cons_of_mem _ he, h3⟩

lemma bossFold_max (dist : List (Nat × Nat)) (sp : Nat) :
    ∀ e ∈ dist, e.2 ≤ (bossFold dist sp).1 :=
  (bossFold_aux dist (0, sp)).1

lemma bossFold_cases (dist : List (Nat × Nat)) (sp : Nat) :
    bossFold dist sp = (0, sp) ∨
      ∃ e ∈ dist, bossFold dist sp = (e.2, e.1) :=
  (bossFold_aux dist (0, sp)).2.2


lemma boss_spec (cfg : Config) (r0 r1 : Room) (rest : List Room)
    (hpl : placedRooms cfg = r0 :: r1 :: rest) :
    (bossFold (computeGraphDistances (builtGraph cfg (placedRooms cfg)) r0.id)
        r0.id).2 ≠ r0.id ∧
    lookupD (computeGraphDistances (builtGraph cfg (placedRooms cfg)) r0.id)
        ((bossFold (computeGraphDistances (builtGraph cfg (placedRooms cfg))
          r0.id) r0.id).2) 0 =
      (bossFold (computeGraphDistances (builtGraph cfg (placedRooms cfg)) r0.id)
        r0.id).1 ∧
    ∀ r ∈ placedRooms cfg,
      lookupD (computeGraphDistances (builtGraph cfg (placedRooms cfg)) r0.id)
          r.id 0 ≤
        (bossFold (computeGraphDistances (builtGraph cfg (placedRooms cfg))
          r0.id) r0.id).1 := by
  have hnd := placedRooms_ids_nodup cfg
  rw [hpl] at hnd
  have hne : r1.id ≠ r0.id := by
    simp only [List.map_cons, List.nodup_cons, List.mem_cons] at hnd
    exact fun hc => hnd.1 (Or.inl hc.symm)
  have hreach : ReachG (builtGraph cfg (placedRooms cfg)) r0.id r1.id := by
    rw [hpl]
    exact builtGraph_reach cfg r0 (r1 :: rest) hnd
      r1 (List.mem_cons_of_mem _ (List.mem_cons_self _ _))
  have hhas1 := cgd_complete _ r0.id r1.id hreach
  have hpos := cgd_nonsource_pos _ r0.id r1.id hne hhas1
  obtain ⟨e1, he1m, he1k, he1l⟩ := lookupD_mem _ r1.id 0 hhas1
  have hmax1 : 1 ≤
      (bossFold (computeGraphDistances (builtGraph cfg (placedRooms cfg)) r0.id)
        r0.id).1 := by
    have hb := bossFold_max
      (computeGraphDistances (builtGraph cfg (placedRooms cfg)) r0.id) r0.id e1 he1m
    rw [he1l] at hpos
    omega
  obtain ⟨_, _, _, _, hkeys⟩ :=
    computeGraphDistances_spec (builtGraph cfg (placedRooms cfg)) r0.id
  rcases bossFold_cases
      (computeGraphDistances (builtGraph cfg (placedRooms cfg)) r0.id) r0.id with
    hbf | ⟨e, hem, hbf⟩
  · rw [hbf] at hmax1
    simp at hmax1
  · have hlkboss := lookupD_of_mem_nodup _ e 0 hem hkeys
    refine ⟨?_, ?_, ?_⟩
    · rw [hbf]
      dsimp only
      intro hc
      rw [hc] at hlkboss
      rw [cgd_source_zero] at hlkboss
      rw [hbf] at hmax1
      dsimp only at hmax1
      omega
    · rw [hbf]
      dsimp only
      exact hlkboss
    · intro r hr
      by_cases hh : distHas
          (computeGraphDistances (builtGraph cfg (placedRooms cfg)) r0.id) r.id = true
      · obtain ⟨e2, he2m, he2k, he2l⟩ := lookupD_mem _ r.id 0 hh
        rw [he2l]
        exact bossFold_max _ r0.id e2 he2m
      · rw [lookupD_not_has _ _ _ (by simpa using hh)]
        exact Nat.zero_le _

lemma midband_getD_ne_source (D : List (Nat × Nat)) (maxD : Nat)
    (rooms2 : List Room) (s : Nat) (hzero : lookupD D s 0 = 0)
    (i : Nat) (dflt : Room)
    (hi : i < (rooms2.filter (fun r =>
      decide (((lookupD D r.id 0 : Nat) : Rat) > (maxD : Rat) * (3 / 10)) &&
      decide (((lookupD D r.id 0 : Nat) : Rat) < (maxD : Rat) * (7 / 10)))).length) :
    ((rooms2.filter (fun r =>
      decide (((lookupD D r.id 0 : Nat) : Rat) > (maxD : Rat) * (3 / 10)) &&
      decide (((lookupD D r.id 0 : Nat) : Rat) < (maxD : Rat) * (7 / 10)))).getD
        i dflt).id ≠ s := by
  have hx := getD_mem_of_lt _ i dflt hi
  intro hc
  have h2 := (List.mem_filter.mp hx).2
  simp only [Bool.and_eq_true, decide_eq_true_eq] at h2
  rw [hc, hzero] at h2
  have hge : (0 : Rat) ≤ (maxD : Rat) * (3 / 10) := by positivity
  have := h2.1
  norm_num at this
  linarith


lemma getD_map_cons2 (f : Room → Room) (a b : Room) (l : List Room) (d : Room) :
    ((a :: b :: l).map f).getD 1 d = f b := rfl

lemma pipeCls_treasure_ne (cfg : Config) (r0 r1 : Room) (rest : List Room)
    (hpl : placedRooms cfg = r0 :: r1 :: rest) :
    (pipeCls cfg).treasureRoomId ≠ r0.id := by
  have hnd := placedRooms_ids_nodup cfg
  rw [hpl] at hnd
  have hne : r1.id ≠ r0.id := by
    simp only [List.map_cons, List.nodup_cons, List.mem_cons] at hnd
    exact fun hc => hnd.1 (Or.inl hc.symm)
  have h0 : (r0 :: r1 :: rest) =
      (r0 :: r1 :: rest).map (fun r => { r with type := r.type }) :=
    (map_type_eta _).symm
  unfold pipeCls classifyRooms
  have hc : (pipeCorr cfg).rooms = r0 :: r1 :: rest := by
    rw [pipeCorr_rooms, hpl]
  rw [hc]
  dsimp only
  split
  · rename_i hmid
    exact midband_getD_ne_source _ _ _ _ (cgd_source_zero _ _) _ _
      (floor_mul_toNat_lt _ _ (rng_next_nonneg _) (rng_next_lt_one _) hmid)
  · rw [setType_shape h0, setType_map]
    simp only [List.length_map, List.length_cons]
    rw [show (1 ⊓ (rest.length + 1 + 1 - 1)) = 1 from by omega]
    rw [getD_map_cons2]
    exact hne

/-- Claim C3 (amended): whenever `generateDungeon` succeeds with at least three
placed rooms, the spawn id differs from both the boss id and the treasure id,
and the boss's BFS distance from the spawn is maximal over all placed rooms.
The original claim's pairwise distinctness of all three ids is refuted by
`c3_counterexample` (the treasure fallback may select the boss room). -/
theorem c3_classification (cfg : Config) (d : Dungeon)
    (hd : generateDungeon cfg = some d)
    (h3 : 3 ≤ (placedRooms cfg).length) :
    d.spawnRoomId ≠ d.bossRoomId ∧ d.spawnRoomId ≠ d.treasureRoomId ∧
    ∀ r ∈ placedRooms cfg,
      lookupD (computeGraphDistances (builtGraph cfg (placedRooms cfg))
          d.spawnRoomId) r.id 0 ≤
        lookupD (computeGraphDistances (builtGraph cfg (placedRooms cfg))
          d.spawnRoomId) d.bossRoomId 0 := by
  obtain ⟨r0, r1, rest, hpl⟩ : ∃ r0 r1 rest,
      placedRooms cfg = r0 :: r1 :: rest := by
    cases hp : placedRooms cfg with
    | nil =>
      rw [hp] at h3
      simp at h3
    | cons a t =>
      cases t with
      | nil =>
        rw [hp] at h3
        simp at h3
      | cons b t2 => exact ⟨a, b, t2, rfl⟩
  obtain ⟨_, _, _, hs6, hb6, ht6⟩ := dungeon_fields cfg d hd
  have hspawn := pipeCls_spawn cfg r0 (r1 :: rest) hpl
  have hboss := pipeCls_boss cfg r0 (r1 :: rest) hpl
  obtain ⟨hbne, hblk, hbmax⟩ := boss_spec cfg r0 r1 rest hpl
  refine ⟨?_, ?_, ?_⟩
  · rw [hs6, hb6, hspawn, hboss]
    exact fun hcon => hbne hcon.symm
  · rw [hs6, ht6, hspawn]
    exact fun hcon => (pipeCls_treasure_ne cfg r0 r1 rest hpl) hcon.symm
  · intro r hr
    rw [hs6, hb6, hspawn, hboss, hblk]
    exact hbmax r hr

/-- Witness for `c3_classification` at the seed-0 three-room configuration. -/
theorem c3_witness :
    dunC2.spawnRoomId ≠ dunC2.bossRoomId ∧
    dunC2.spawnRoomId ≠ dunC2.treasureRoomId ∧
    ∀ r ∈ placedRooms cfgC2,
      lookupD (computeGraphDistances (builtGraph cfgC2 (placedRooms cfgC2))
          dunC2.spawnRoomId) r.id 0 ≤
        lookupD (computeGraphDistances (builtGraph cfgC2 (placedRooms cfgC2))
          dunC2.spawnRoomId) dunC2.bossRoomId 0 :=
  c3_classification cfgC2 dunC2 runC2
    (by
      have h : placedRooms cfgC2 = stC2a.rooms := by
        unfold placedRooms pipeRooms
        rw [stageC2a]
      rw [h]
      decide)


lemma placed_pairwise_overlap (cfg : Config) (p1 p2 : Room)
    (hp1 : p1 ∈ placedRooms cfg) (hp2 : p2 ∈ placedRooms cfg) (hne : p1 ≠ p2) :
    overlapPair (cfg.roomSpacing : Int) p1 p2 = false := by
  have hpw := placedRooms_no_overlap cfg
  have hsym : Symmetric (fun x y : Room =>
      overlapPair ((cfg.roomSpacing : Nat) : Int) x y = false) := by
    intro a b h
    rw [overlapPair_symm]
    exact h
  exact List.Pairwise.forall hsym hpw hp1 hp2 hne

/-- Claim C4 (amended): any two distinct non-`SECRET` rooms of the returned
dungeon have non-intersecting spacing-expanded rectangles.  The unrestricted
original claim is refuted by `c4_counterexample`: the secret room is placed on
a corridor midpoint with no overlap check. -/
theorem c4_no_overlap (cfg : Config) (d : Dungeon)
    (hd : generateDungeon cfg = some d) :
    ∀ r1 ∈ d.rooms, ∀ r2 ∈ d.rooms,
      r1.type ≠ RoomType.SECRET → r2.type ≠ RoomType.SECRET → r1.id ≠ r2.id →
      overlapPair (cfg.roomSpacing : Int) r1 r2 = false := by
  obtain ⟨f, tail, hf, hrooms, htail⟩ := dungeon_rooms_shape cfg d hd
  intro x1 h1 x2 h2 hs1 hs2 hne
  rw [hrooms, List.mem_append] at h1 h2
  have h1b : x1 ∈ (placedRooms cfg).map f := by
    rcases h1 with h | h
    · exact h
    · exact absurd (htail x1 h).1 hs1
  have h2b : x2 ∈ (placedRooms cfg).map f := by
    rcases h2 with h | h
    · exact h
    · exact absurd (htail x2 h).1 hs2
  obtain ⟨p1, hp1, rfl⟩ := List.mem_map.mp h1b
  obtain ⟨p2, hp2, rfl⟩ := List.mem_map.mp h2b
  have hgeom : overlapPair (cfg.roomSpacing : Int) (f p1) (f p2) =
      overlapPair (cfg.roomSpacing : Int) p1 p2 := by
    unfold overlapPair
    rw [(hf p1).2.1, (hf p1).2.2.1, (hf p1).2.2.2.1, (hf p1).2.2.2.2.1,
      (hf p2).2.1, (hf p2).2.2.1, (hf p2).2.2.2.1, (hf p2).2.2.2.2.1]
  rw [hgeom]
  refine placed_pairwise_overlap cfg p1 p2 hp1 hp2 ?_
  intro hc
  apply hne
  rw [hc]

/-- Witness for `c4_no_overlap`: the first two rooms of the seed-0 three-room
dungeon. -/
theorem c4_witness :
    overlapPair (cfgC2.roomSpacing : Int) (dunC2.rooms.getD 0 dummyRoom)
      (dunC2.rooms.getD 1 dummyRoom) = false :=
  c4_no_overlap cfgC2 dunC2 runC2
    (dunC2.rooms.getD 0 dummyRoom) (List.mem_cons_self _ _)
    (dunC2.rooms.getD 1 dummyRoom)
    (List.mem_cons_of_mem _ (List.mem_cons_self _ _))
    (by decide) (by decide) (by decide)

lemma pipeSt5_no_secret (cfg : Config) :
    ∀ r ∈ (pipeSt5 cfg).rooms, r.type ≠ RoomType.SECRET := by
  obtain ⟨f, hf, hsh⟩ := pipeSt5_rooms_shape cfg
  intro r hr
  rw [hsh] at hr
  obtain ⟨p, hp, rfl⟩ := List.mem_map.mp hr
  rcases (hf p).2.2.2.2.2 with ht | ht
  · rw [ht, placedRooms_combat cfg p hp]
    decide
  · exact ht

/-- Claim C10: every `SECRET` room of the returned dungeon has depth 0, yet it
is grafted into the connectivity graph by a bidirectional edge to a placed
room and is reachable from the spawn room. -/
theorem c10_secret_rooms (cfg : Config) (d : Dungeon)
    (hd : generateDungeon cfg = some d) :
    ∀ r ∈ d.rooms, r.type = RoomType.SECRET →
      r.depth = 0 ∧
      ReachG d.graph d.spawnRoomId r.id ∧
      ∃ k, k ∈ (placedRooms cfg).map Room.id ∧
        r.id ∈ graphGet d.graph k ∧ k ∈ graphGet d.graph r.id := by
  obtain ⟨hr6, hc6, hg6, hs6, _, _⟩ := dungeon_fields cfg d hd
  intro r hr hsec
  rcases pipeSt6_cases cfg with ⟨hrm, hgr⟩ | ⟨cor, hcm, hrm, hgr⟩
  · exfalso
    rw [hr6, hrm] at hr
    exact pipeSt5_no_secret cfg r hr hsec
  · rw [hr6, hrm] at hr
    rcases List.mem_append.mp hr with hmem | hmem
    · exact absurd hsec (pipeSt5_no_secret cfg r hmem)
    · rw [List.mem_singleton] at hmem
      subst hmem
      obtain ⟨hk1, hk2⟩ := pipeSt5_corridors_ids cfg cor hcm
      have hhas : graphHas (graphSet (pipeSt5 cfg).graph
          (pipeSt5 cfg).roomIdCounter [cor.room1Id]) cor.room1Id = true := by
        rw [graphHas_set]
        have hbase : graphHas (pipeSt5 cfg).graph cor.room1Id = true := by
          rw [pipeSt5_graph, graphHas_builtGraph]
          simpa using hk1
        rw [hbase]
        rfl
      have hstep : (secretRoomOf cor (pipeSt5 cfg).roomIdCounter).id ∈
          graphGet d.graph cor.room1Id := by
        rw [hg6, hgr]
        rw [graphGet_push_self _ _ _ hhas]
        exact List.mem_append.mpr (Or.inr (List.mem_singleton.mpr rfl))
      have hfresh : graphHas (pipeSt5 cfg).graph
          (pipeSt5 cfg).roomIdCounter = false := by
        rw [pipeSt5_graph, graphHas_builtGraph]
        simp only [decide_eq_false_iff_not]
        exact counter_not_placed cfg
      have hneid : (secretRoomOf cor (pipeSt5 cfg).roomIdCounter).id ≠
          cor.room1Id := by
        show (pipeSt5 cfg).roomIdCounter ≠ cor.room1Id
        intro hcon
        apply counter_not_placed cfg
        rw [hcon]
        exact hk1
      have hback : cor.room1Id ∈
          graphGet d.graph (secretRoomOf cor (pipeSt5 cfg).roomIdCounter).id := by
        rw [hg6, hgr]
        rw [graphGet_push_other _ _ _ _ hneid]
        show cor.room1Id ∈ graphGet
          (graphSet (pipeSt5 cfg).graph (pipeSt5 cfg).roomIdCounter [cor.room1Id])
          (pipeSt5 cfg).roomIdCounter
        rw [graphGet_set_fresh _ _ _ hfresh]
        exact List.mem_singleton.mpr rfl
      obtain ⟨p, hp, hpid⟩ := List.mem_map.mp hk1
      have hreach1 : ReachG d.graph d.spawnRoomId cor.room1Id :=
        hpid ▸ spawn_reach cfg d hd p hp
      exact ⟨rfl, ReachG.step hreach1 hstep,
        cor.room1Id, hk1, hstep, hback⟩

/-- Witness for `c10_secret_rooms` at the seed-8 configuration, whose run
creates a secret room (room index 2 of `dunC4`). -/
theorem c10_witness :
    (dunC4.rooms.getD 2 dummyRoom).depth = 0 ∧
    ReachG dunC4.graph dunC4.spawnRoomId (dunC4.rooms.getD 2 dummyRoom).id ∧
    ∃ k, k ∈ (placedRooms cfgC4).map Room.id ∧
      (dunC4.rooms.getD 2 dummyRoom).id ∈ graphGet dunC4.graph k ∧
      k ∈ graphGet dunC4.graph (dunC4.rooms.getD 2 dummyRoom).id :=
  c10_secret_rooms cfgC4 dunC4 runC4 (dunC4.rooms.getD 2 dummyRoom)
    (List.mem_cons_of_mem _ (List.mem_cons_of_mem _ (List.mem_cons_self _ _)))
    (by decide)


lemma find?_first {α : Type} (p : α → Bool) (l1 l2 : List α) (a : α)
    (h1 : ∀ x ∈ l1, p x = false) (ha : p a = true) :
    (l1 ++ a :: l2).find? p = some a := by
  induction l1 with
  | nil => exact List.find?_cons_of_pos _ ha
  | cons x xs ih =>
    rw [List.cons_append,
      List.find?_cons_of_neg _ (by simp [h1 x (List.mem_cons_self _ _)])]
    exact ih (fun y hy => h1 y (List.mem_cons_of_mem _ hy))

lemma roomContains_congr (f : Room → Room) (p : Room) (tx ty : Int)
    (hx : (f p).x = p.x) (hy : (f p).y = p.y) (hw : (f p).width = p.width)
    (hh : (f p).height = p.height) :
    roomContains (f p) tx ty = roomContains p tx ty := by
  unfold roomContains
  rw [hx, hy, hw, hh]

lemma first_containing (cfg : Config) (d : Dungeon)
    (hd : generateDungeon cfg = some d) (r : Room) (hr : r ∈ d.rooms)
    (hsec : r.type ≠ RoomType.SECRET) (tx ty : Int)
    (hin : roomContains r tx ty = true) :
    d.rooms.find? (fun room => roomContains room tx ty) = some r := by
  obtain ⟨f, tail, hf, hrooms, htail⟩ := dungeon_rooms_shape cfg d hd
  have hrmem : r ∈ (placedRooms cfg).map f := by
    rw [hrooms, List.mem_append] at hr
    rcases hr with h | h
    · exact h
    · exact absurd (htail r h).1 hsec
  obtain ⟨l1, l2, hsplit⟩ := List.append_of_mem hrmem
  have hd2 : d.rooms = l1 ++ r :: (l2 ++ tail) := by
    rw [hrooms, hsplit]
    simp [List.append_assoc]
  rw [hd2]
  refine find?_first (fun room => roomContains room tx ty) l1 (l2 ++ tail) r
    ?_ hin
  intro x hx1
  by_contra hxc
  rw [Bool.not_eq_false] at hxc
  have hxmem : x ∈ (placedRooms cfg).map f := by
    rw [hsplit]
    exact List.mem_append.mpr (Or.inl hx1)
  obtain ⟨px, hpx, hfx⟩ := List.mem_map.mp hxmem
  obtain ⟨pr, hpr, hfr⟩ := List.mem_map.mp hrmem
  have hcx : roomContains px tx ty = true := by
    rw [← roomContains_congr f px tx ty (hf px).2.1 (hf px).2.2.1
      (hf px).2.2.2.1 (hf px).2.2.2.2.1, hfx]
    exact hxc
  have hcr : roomContains pr tx ty = true := by
    rw [← roomContains_congr f pr tx ty (hf pr).2.1 (hf pr).2.2.1
      (hf pr).2.2.2.1 (hf pr).2.2.2.2.1, hfr]
    exact hin
  have hpp : px = pr := by
    by_contra hne
    have hov := placed_pairwise_overlap cfg px pr hpx hpr hne
    rw [overlapPair_of_common _ (Int.natCast_nonneg _) px pr tx ty hcx hcr]
      at hov
    cases hov
  have hxr : x = r := by
    rw [← hfx, ← hfr, hpp]
  subst hxr
  have hids : ((placedRooms cfg).map f).map Room.id =
      (placedRooms cfg).map Room.id := by
    rw [List.map_map]
    apply List.map_congr_left
    intro q _
    exact (hf q).1
  have hnd : (((placedRooms cfg).map f).map Room.id).Nodup := by
    rw [hids]
    exact placedRooms_ids_nodup cfg
  rw [hsplit, List.map_append, List.map_cons] at hnd
  have hdisj := (List.nodup_append.mp hnd).2.2
  exact hdisj (List.mem_map_of_mem Room.id hx1) (List.mem_cons_self _ _)

/-- Claim C5 (amended): for a non-`SECRET` room of the returned dungeon and a
tile of that room not covered by any corridor band, `isWall` agrees with the
room's border test: border-ring tiles are walls and strictly interior tiles
are not.  The unrestricted original claim (every border tile is a wall) is
refuted by `c5_counterexample`: corridors take precedence and carve openings
through room borders. -/
theorem c5_walls (cfg : Config) (d : Dungeon)
    (hd : generateDungeon cfg = some d)
    (r : Room) (hr : r ∈ d.rooms) (hsec : r.type ≠ RoomType.SECRET)
    (tx ty : Int) (hin : roomContains r tx ty = true)
    (hnc : d.corridors.any (fun c =>
      isInCorridor tx ty c ((cfg.corridorWidth / 2 : Nat) : Int)) = false) :
    isWall d.rooms d.corridors cfg.corridorWidth tx ty =
      roomBorderTest r tx ty := by
  have hfind := first_containing cfg d hd r hr hsec tx ty hin
  unfold isWall
  dsimp only
  split
  · rename_i hcond
    rw [hnc] at hcond
    cases hcond
  · rw [hfind]

/-- Witness for `c5_walls`: the single room of the minimal dungeon at seed 42,
at its top-left corner tile. -/
theorem c5_witness :
    isWall dunC6.rooms dunC6.corridors cfgC6.corridorWidth 40 68 =
      roomBorderTest
        { id := 0, x := 40, y := 68, width := 14, height := 13, centerX := 47,
          centerY := (149 : Rat)/2, type := RoomType.TREASURE, depth := 0 }
        40 68 :=
  c5_walls cfgC6 dunC6 runC6
    { id := 0, x := 40, y := 68, width := 14, height := 13, centerX := 47,
      centerY := (149 : Rat)/2, type := RoomType.TREASURE, depth := 0 }
    (List.mem_cons_self _ _) (by decide) 40 68 (by decide) (by decide)

end Kwak
